import Mathlib

/-!
# Twigs (alternate firmware for MI Branches): a shallow embedding of `twigs.cc`

The global variables of the firmware become the fields of `State`; every C++
function becomes a Lean function that takes the state (and the hardware
readings it performs) and returns the new state.

* `uint16_t` values are natural numbers taken modulo `2^16`; the target is an
  AVR, whose `int` is 16 bits wide, so `uint16_t` operands are promoted to
  `unsigned int` and the arithmetic on them wraps modulo `2^16`.
* `int16_t` and `int8_t` values are integers.
* The free running tick counter `TCNT1` is a hardware register: every function
  that reads it takes the reading as the argument `tcnt`.
* A division or remainder by zero is undefined behaviour in the source: the
  functions that can reach one return `Option`, with `none` for that case.
-/

namespace Twigs

/-! ## Constants -/

abbrev BUTTON_LONG_PRESS_DURATION : Nat := 9375
abbrev LED_THRU_GATE_DURATION : Nat := 0x100
abbrev LED_FACTORED_GATE_DURATION : Nat := 0x080
abbrev PULSE_TRACKER_INPUT_INDEX : Fin 2 := 0
abbrev PULSE_TRACKER_CHAIN_INDEX : Fin 2 := 1
abbrev ADC_DELTA_THRESHOLD : Int := 4
abbrev ADC_MAX_VALUE : Int := 250
abbrev ADC_POLL_RATIO : Nat := 5
abbrev FUNCTION_TIMING_ERROR_CORRECTION_AMOUNT : Nat := 12
abbrev SWING_FACTOR_MIN : Int := 50
abbrev SWING_FACTOR_MAX : Int := 70
abbrev FACTORER_NUM_FACTORS : Int := 15
abbrev FACTORER_BYPASS_INDEX : Int := 7
abbrev GATE_INPUT_RESET_INDEX : Fin 2 := 0
abbrev GATE_INPUT_TRIG_INDEX : Fin 2 := 1

/-! ## Machine arithmetic -/

/-- Channel index: `SYSTEM_NUM_CHANNELS` is 2. -/
abbrev Channel := Fin 2

/-- Conversion to `uint16_t`. -/
def u16 (n : Nat) : Nat := n % 65536

/-- Subtraction of two `uint16_t` values, modulo `2^16`. -/
def sub16 (a b : Nat) : Nat := (a % 65536 + 65536 - b % 65536) % 65536

/-- Conversion of an `int` to `unsigned int` (16 bits). -/
def intToU16 (x : Int) : Nat := (x % 65536).toNat

/-- Conversion to `int16_t`. -/
def toInt16 (x : Int) : Int := (x + 32768) % 65536 - 32768

/-- Conversion to `int8_t`. -/
def toInt8 (x : Int) : Int := (x + 128) % 256 - 128

/-- Array store `a[i] = v` on a two-element array. -/
def upd {α : Type} (a : Fin 2 → α) (i : Fin 2) (v : α) : Fin 2 → α :=
  fun j => if j = i then v else a j

/-! ## Data model -/

/-- Available functions (`enum ChannelFunction`). -/
inductive ChannelFunction where
  | CHANNEL_FUNCTION_FACTORER
  | CHANNEL_FUNCTION_SWING
  | CHANNEL_FUNCTION_LAST
deriving DecidableEq, Repr

open ChannelFunction

/-- Colour shown by a bicolor LED (the two pins `led_N_a`, `led_N_k`). -/
inductive LedColor where
  | off
  | green
  | red
deriving DecidableEq, Repr

/-- The global variables of the firmware, the driven output pins and the
byte at address 0 of the eeprom. -/
structure State where
  adc_counter : Nat
  adc_value : Channel → Int
  gate_input_state : Channel → Bool
  button_state : Channel → Bool
  button_is_inhibited : Channel → Bool
  button_last_press_at : Channel → Nat
  led_state : Channel → Nat
  led_gate_duration : Channel → Nat
  channel_last_action_at : Channel → Nat
  exec_state : Channel → Nat
  channel_function_ : Channel → ChannelFunction
  pulse_tracker_buffer : Fin 2 → Fin 2 → Nat
  factor : Channel → Int
  multiply_is_debouncing : Channel → Bool
  divide_counter : Channel → Int
  swing : Channel → Int
  swing_counter : Channel → Int
  gate_out : Channel → Bool
  led_pin : Channel → LedColor
  eeprom_byte : Nat

/-- The state at power on, before `SystemInit`: zero-initialised globals and
the default functions (channel 0 swing, channel 1 factorer). -/
def State.initial (eeprom_byte : Nat) : State where
  adc_counter := 0
  adc_value := fun _ => 0
  gate_input_state := fun _ => false
  button_state := fun _ => false
  button_is_inhibited := fun _ => false
  button_last_press_at := fun _ => 0
  led_state := fun _ => 0
  led_gate_duration := fun _ => 0
  channel_last_action_at := fun _ => 0
  exec_state := fun _ => 0
  channel_function_ := fun c => if c = 0 then CHANNEL_FUNCTION_SWING else CHANNEL_FUNCTION_FACTORER
  pulse_tracker_buffer := fun _ _ => 0
  factor := fun _ => 0
  multiply_is_debouncing := fun _ => false
  divide_counter := fun _ => 0
  swing := fun _ => 0
  swing_counter := fun _ => 0
  gate_out := fun _ => false
  led_pin := fun _ => LedColor.off
  eeprom_byte := eeprom_byte

/-! ## Persistence -/

/-- One iteration of the loop of `SystemLoadState`. -/
def SystemLoadStateChannel (configuration_byte : Nat) (s : State) (i : Channel) : State :=
  let b := ((i.val + 1) * (i.val + 1)) % 256
  if configuration_byte &&& b ≠ 0 then
    { s with channel_function_ := upd s.channel_function_ i CHANNEL_FUNCTION_FACTORER }
  else if configuration_byte &&& (b * 2) ≠ 0 then
    { s with channel_function_ := upd s.channel_function_ i CHANNEL_FUNCTION_SWING }
  else s

/-- Load the stored system settings from the eeprom. -/
def SystemLoadState (s : State) : State :=
  let configuration_byte := 255 - s.eeprom_byte % 256
  SystemLoadStateChannel configuration_byte (SystemLoadStateChannel configuration_byte s 0) 1

/-- One iteration of the loop of `SystemStateSave`: the updated configuration byte. -/
def SystemStateSaveChannel (s : State) (configuration_byte : Nat) (i : Channel) : Nat :=
  let b := ((i.val + 1) * (i.val + 1)) % 256
  match s.channel_function_ i with
  | CHANNEL_FUNCTION_FACTORER => (configuration_byte ||| b) % 256
  | CHANNEL_FUNCTION_SWING => (configuration_byte ||| (b * 2)) % 256
  | CHANNEL_FUNCTION_LAST => configuration_byte

/-- Save the system state to the eeprom. -/
def SystemStateSave (s : State) : State :=
  let configuration_byte := SystemStateSaveChannel s (SystemStateSaveChannel s 0 0) 1
  { s with eeprom_byte := 255 - configuration_byte % 256 }

/-! ## Pulse tracker -/

/-- Clear both of the values in the pulse tracker. -/
def PulseTrackerClear (s : State) (id : Fin 2) : State :=
  let row := upd (upd (s.pulse_tracker_buffer id) 0 0) 1 0
  { s with pulse_tracker_buffer := upd s.pulse_tracker_buffer id row }

/-- The amount of time since the last tracked event. -/
def PulseTrackerGetElapsed (s : State) (id : Fin 2) (tcnt : Nat) : Nat :=
  sub16 tcnt (s.pulse_tracker_buffer id 1)

/-- The period of time between the last two recorded events. -/
def PulseTrackerGetPeriod (s : State) (id : Fin 2) : Nat :=
  sub16 (s.pulse_tracker_buffer id 1) (s.pulse_tracker_buffer id 0)

/-- Record the current time as the latest event and shift the last one back. -/
def PulseTrackerRecord (s : State) (id : Fin 2) (tcnt : Nat) : State :=
  let shifted := upd (s.pulse_tracker_buffer id) 0 (s.pulse_tracker_buffer id 1)
  { s with pulse_tracker_buffer := upd s.pulse_tracker_buffer id (upd shifted 1 (u16 tcnt)) }

/-- Has the tracker seen two events (both slots non-zero)? -/
def PulseTrackerIsPopulated (s : State) (id : Fin 2) : Bool :=
  decide (s.pulse_tracker_buffer id 1 > 0) && decide (s.pulse_tracker_buffer id 0 > 0)

/-! ## Factorer: multiply and divide -/

/-- Is the factor control setting such that we are in multiplier mode? -/
def MultiplyIsEnabled (s : State) (channel : Channel) : Bool :=
  decide (s.factor channel < 0)

/-- Is the pulse tracker populated with enough events to perform multiply? -/
def MultiplyIsPossible (s : State) (_channel : Channel) : Bool :=
  PulseTrackerIsPopulated s PULSE_TRACKER_INPUT_INDEX

/-- The time interval between multiplied events: the period (an `unsigned int`)
divided by `-factor` converted to `unsigned int`; `none` when the divisor is 0. -/
def MultiplyInterval (s : State) (channel : Channel) : Option Nat :=
  let divisor := intToU16 (-(s.factor channel))
  if divisor = 0 then none
  else some (PulseTrackerGetPeriod s PULSE_TRACKER_INPUT_INDEX / divisor)

/-- Should the multiplier function exec on this cycle?  Returns the answer and
the state (the debounce flag may be cleared); `none` when `elapsed % interval`
has a zero interval. -/
def MultiplyShouldStrike (s : State) (channel : Channel) (elapsed : Nat) : Option (Bool × State) :=
  match MultiplyInterval s channel with
  | none => none
  | some interval =>
    if interval = 0 then none
    else if elapsed % interval ≤ FUNCTION_TIMING_ERROR_CORRECTION_AMOUNT then
      if !s.multiply_is_debouncing channel then some (true, s) else some (false, s)
    else
      some (false, { s with multiply_is_debouncing := upd s.multiply_is_debouncing channel false })

/-- Is the factor setting such that we are in divider mode? -/
def DivideIsEnabled (s : State) (channel : Channel) : Bool :=
  decide (s.factor channel > 0)

/-- Should the divider function exec on this cycle? -/
def DivideShouldStrike (s : State) (channel : Channel) : Bool :=
  decide (s.divide_counter channel ≤ 0)

/-- What is the current factor setting? -/
def FactorGet (s : State) (channel : Channel) : Int :=
  let factor_index :=
    toInt16 (Int.tdiv (s.adc_value channel) (Int.tdiv ADC_MAX_VALUE (FACTORER_NUM_FACTORS - 1))
      - FACTORER_BYPASS_INDEX)
  if factor_index = 0 then 0
  else if factor_index < 0 then toInt16 (factor_index - 1)
  else toInt16 (factor_index + 1)

/-! ## LEDs, gate outputs, ADC -/

def GateOutputOn (s : State) (channel : Channel) : State :=
  { s with gate_out := upd s.gate_out channel true }

def GateOutputOff (s : State) (channel : Channel) : State :=
  { s with gate_out := upd s.gate_out channel false }

def LedOff (s : State) (channel : Channel) : State :=
  { s with led_pin := upd s.led_pin channel LedColor.off }

def LedGreen (s : State) (channel : Channel) : State :=
  { s with led_pin := upd s.led_pin channel LedColor.green }

def LedRed (s : State) (channel : Channel) : State :=
  { s with led_pin := upd s.led_pin channel LedColor.red }

/-- Scan both pots and CV inputs for changes (the scanner itself is external). -/
def AdcScan (s : State) : State :=
  if s.adc_counter = ADC_POLL_RATIO - 1 then { s with adc_counter := 0 }
  else { s with adc_counter := (s.adc_counter + 1) % 256 }

/-- The value for the pot/CV input of the channel: `read8 pin` is the 8-bit
reading of the external scanner. -/
def AdcReadValue (read8 : Fin 2 → Nat) (channel : Channel) : Int :=
  let pin : Fin 2 := if channel = 0 then 1 else 0
  ((read8 pin % 256 : Nat) : Int)

/-- Does the pot/CV input for the channel have a new value since last checked? -/
def AdcHasNewValue (s : State) (channel : Channel) (read8 : Fin 2 → Nat) : Bool × State :=
  if s.adc_counter = 0 then
    let value := AdcReadValue read8 channel
    let delta := toInt16 (value - s.adc_value channel)
    let delta := if delta < 0 then toInt16 (-delta) else delta
    if delta > ADC_DELTA_THRESHOLD then
      let stored := toInt16 (ADC_MAX_VALUE - value)
      let stored := if stored < 0 then 0 else if stored > ADC_MAX_VALUE then ADC_MAX_VALUE else stored
      (true, { s with adc_value := upd s.adc_value channel stored })
    else (false, s)
  else (false, s)

/-- Has the internal clock reached overflow? -/
def ClockIsOverflow (s : State) (tcnt : Nat) : Bool :=
  decide (s.channel_last_action_at 0 > u16 tcnt) || decide (s.channel_last_action_at 1 > u16 tcnt)

/-- One iteration of the second loop of `ClockHandleOverflow`. -/
def ClockHandleOverflowChannel (s : State) (i : Channel) : State :=
  { s with
    channel_last_action_at := upd s.channel_last_action_at i 0
    button_last_press_at := upd s.button_last_press_at i 0
    button_is_inhibited := upd s.button_is_inhibited i false }

/-- Clear the pulse trackers and the other time based variables. -/
def ClockHandleOverflow (s : State) : State :=
  let s := PulseTrackerClear s 0
  let s := PulseTrackerClear s 1
  let s := ClockHandleOverflowChannel s 0
  ClockHandleOverflowChannel s 1

/-- Use the LEDs to signify that trig thru is occurring. -/
def LedExecThru (s : State) (channel : Channel) : State :=
  { s with
    led_gate_duration := upd s.led_gate_duration channel LED_THRU_GATE_DURATION
    led_state := upd s.led_state channel 1 }

/-- Use the LEDs to signify that a factored output is happening. -/
def LedExecStrike (s : State) (channel : Channel) : State :=
  { s with
    led_gate_duration := upd s.led_gate_duration channel LED_FACTORED_GATE_DURATION
    led_state := upd s.led_state channel 2 }

/-- The swing amount value specified by the pot/CV input. -/
def SwingGet (s : State) (channel : Channel) : Int :=
  toInt16 (Int.tdiv (s.adc_value channel)
      (Int.tdiv ADC_MAX_VALUE (SWING_FACTOR_MAX - SWING_FACTOR_MIN)) + SWING_FACTOR_MIN)

/-- Update the LEDs for the channel based on the current system state. -/
def LedUpdate (s : State) (channel : Channel) : State :=
  let s :=
    if s.led_gate_duration channel ≠ 0 then
      let remaining := sub16 (s.led_gate_duration channel) 1
      let s := { s with led_gate_duration := upd s.led_gate_duration channel remaining }
      if s.led_gate_duration channel = 0 then { s with led_state := upd s.led_state channel 0 }
      else s
    else s
  match s.led_state channel with
  | 0 => LedOff s channel
  | 1 => LedGreen s channel
  | 2 => LedRed s channel
  | _ => s

/-! ## Swing -/

/-- Is the other channel running the swing function? -/
def FactorerHasChainedSwing (s : State) (channel : Channel) : Bool :=
  let other_channel : Channel := if channel = 0 then 1 else 0
  decide (s.channel_function_ other_channel = CHANNEL_FUNCTION_SWING)

/-- The time interval by which the swung output is delayed past the input gate:
`((10 * (period * 2)) / (1000 / swing)) - period` on 16-bit `unsigned int`;
`none` when one of the two divisors is 0. -/
def SwingInterval (s : State) (channel : Channel) : Option Nat :=
  let period := PulseTrackerGetPeriod s PULSE_TRACKER_INPUT_INDEX
  if s.swing channel = 0 then none
  else
    let divisor := intToU16 (Int.tdiv 1000 (s.swing channel))
    if divisor = 0 then none
    else some (sub16 (u16 (10 * u16 (period * 2)) / divisor) period)

/-- Should the swing function exec during this cycle? -/
def SwingShouldStrike (s : State) (channel : Channel) (elapsed : Nat) : Option Bool :=
  if s.swing_counter channel ≥ 2 ∧ s.swing channel > SWING_FACTOR_MIN then
    match SwingInterval s channel with
    | none => none
    | some interval =>
      some (decide (elapsed ≥ interval) &&
        decide (elapsed ≤ u16 (interval + FUNCTION_TIMING_ERROR_CORRECTION_AMOUNT)))
  else some false

/-- Reset the swing function for the channel. -/
def SwingReset (s : State) (channel : Channel) : State :=
  { s with swing_counter := upd s.swing_counter channel 0 }

/-- Update the channel state to reflect a swing thru execution for this cycle. -/
def SwingExecThru (s : State) (channel : Channel) (tcnt : Nat) : State :=
  { s with
    exec_state := upd s.exec_state channel 1
    channel_last_action_at := upd s.channel_last_action_at channel (u16 tcnt) }

/-- Update the channel state to reflect a swing strike execution for this cycle. -/
def SwingExecStrike (s : State) (channel : Channel) (tcnt : Nat) : State :=
  { s with
    exec_state := upd s.exec_state channel 2
    channel_last_action_at := upd s.channel_last_action_at channel (u16 tcnt) }

/-- The swing edge handler: thru beat, then strike or rest, else reset. -/
def SwingHandleInput (s : State) (output_channel : Channel) (tcnt : Nat) : State :=
  if s.swing_counter output_channel = 0 then
    let s := SwingExecThru s output_channel tcnt
    { s with swing_counter := upd s.swing_counter output_channel 1 }
  else if s.swing_counter output_channel = 1 then
    if s.swing output_channel ≤ SWING_FACTOR_MIN then
      SwingReset (SwingExecStrike s output_channel tcnt) output_channel
    else
      { s with
        exec_state := upd s.exec_state output_channel 0
        swing_counter := upd s.swing_counter output_channel 2 }
  else SwingReset s output_channel

/-- Record the outcome in the CHAIN tracker and drive the swing edge handler. -/
def FactorerExecChainedSwing (s : State) (channel : Channel) (tcnt : Nat) : State :=
  SwingHandleInput (PulseTrackerRecord s PULSE_TRACKER_CHAIN_INDEX tcnt) channel tcnt

/-- Is the gate input for the channel seeing a new pulse?  `input` is the
value of `GateInputRead`. -/
def GateInputIsRisingEdge (s : State) (channel : Channel) (input : Bool) : Bool × State :=
  let last_state := s.gate_input_state channel
  let s := { s with gate_input_state := upd s.gate_input_state channel input }
  (s.gate_input_state channel && !last_state, s)

/-! ## Factorer and swing execution -/

/-- For the channel, update state for a multiply strike. -/
def MultiplyExecStrike (s : State) (channel : Channel) (tcnt : Nat) : State :=
  let s := { s with
    channel_last_action_at := upd s.channel_last_action_at channel (u16 tcnt)
    exec_state := upd s.exec_state channel 2
    multiply_is_debouncing := upd s.multiply_is_debouncing channel true }
  if FactorerHasChainedSwing s channel then FactorerExecChainedSwing s channel tcnt else s

/-- Execute a single cycle of the multiplier function. -/
def MultiplyExec (s : State) (channel : Channel) (tcnt : Nat) : Option State :=
  if MultiplyIsEnabled s channel && MultiplyIsPossible s channel then
    match MultiplyShouldStrike s channel
        (PulseTrackerGetElapsed s PULSE_TRACKER_INPUT_INDEX tcnt) with
    | none => none
    | some (true, s) => some (MultiplyExecStrike s channel tcnt)
    | some (false, s) => some s
  else some s

/-- Update the channel state to reflect that the multiplier is executing thru. -/
def MultiplyExecThru (s : State) (channel : Channel) (tcnt : Nat) : State :=
  let s := { s with
    exec_state := upd s.exec_state channel 1
    channel_last_action_at := upd s.channel_last_action_at channel (u16 tcnt) }
  if FactorerHasChainedSwing s channel then FactorerExecChainedSwing s channel tcnt else s

/-- Reset the divider function. -/
def DivideReset (s : State) (channel : Channel) : State :=
  { s with divide_counter := upd s.divide_counter channel 0 }

/-- Should the divider function reset? -/
def DivideShouldReset (s : State) (channel : Channel) : Bool :=
  decide (s.divide_counter channel ≥ s.factor channel - 1)

/-- For the channel, update state for a divide strike. -/
def DivideExecStrike (s : State) (channel : Channel) (tcnt : Nat) : State :=
  let s := { s with
    channel_last_action_at := upd s.channel_last_action_at channel (u16 tcnt)
    exec_state := upd s.exec_state channel 2 }
  if FactorerHasChainedSwing s channel then FactorerExecChainedSwing s channel tcnt else s

/-- Process a new pulse using the factorer function. -/
def FactorerHandleInputGateRisingEdge (s : State) (channel : Channel) (tcnt : Nat) : State :=
  if DivideIsEnabled s channel then
    let s := if DivideShouldStrike s channel then DivideExecStrike s channel tcnt else s
    if DivideShouldReset s channel then DivideReset s channel
    else { s with divide_counter := upd s.divide_counter channel (toInt8 (s.divide_counter channel + 1)) }
  else MultiplyExecThru s channel tcnt

/-- Process a new pulse using the swing function. -/
def SwingHandleInputGateRisingEdge (s : State) (channel : Channel) (tcnt : Nat) : State :=
  SwingHandleInput s channel tcnt

/-- Execute a single cycle of the swing function. -/
def SwingExec (s : State) (channel : Channel) (tcnt : Nat) : Option State :=
  match SwingShouldStrike s channel (PulseTrackerGetElapsed s PULSE_TRACKER_INPUT_INDEX tcnt) with
  | none => none
  | some true => some (SwingReset (SwingExecStrike s channel tcnt) channel)
  | some false => some s

/-! ## Channel orchestration -/

/-- Handle a new value at the pot/CV input. -/
def FunctionHandleNewAdcValue (s : State) (channel : Channel) : State :=
  match s.channel_function_ channel with
  | CHANNEL_FUNCTION_FACTORER => { s with factor := upd s.factor channel (FactorGet s channel) }
  | CHANNEL_FUNCTION_SWING => { s with swing := upd s.swing channel (SwingGet s channel) }
  | CHANNEL_FUNCTION_LAST => s

/-- First statement of `FunctionExec`: the switch that polls the function of
the channel. -/
def FunctionExecPoll (s : State) (channel : Channel) (tcnt : Nat) : Option State :=
  match s.channel_function_ channel with
  | CHANNEL_FUNCTION_FACTORER => MultiplyExec s channel tcnt
  | CHANNEL_FUNCTION_SWING => SwingExec s channel tcnt
  | CHANNEL_FUNCTION_LAST => some s

/-- Rest of `FunctionExec`: translate the outcome of the cycle into the gate
output and the LED state, then clear the outcome. -/
def FunctionExecOutput (s : State) (channel : Channel) : State :=
  let s :=
    if s.exec_state channel > 0 then
      let s := GateOutputOn s channel
      if s.exec_state channel < 2 then LedExecThru s channel else LedExecStrike s channel
    else GateOutputOff s channel
  { s with exec_state := upd s.exec_state channel 0 }

/-- For the function of the channel, execute a single cycle. -/
def FunctionExec (s : State) (channel : Channel) (tcnt : Nat) : Option State :=
  match FunctionExecPoll s channel tcnt with
  | none => none
  | some s => some (FunctionExecOutput s channel)

/-- Reset the function of the channel. -/
def FunctionReset (s : State) (channel : Channel) : State :=
  match s.channel_function_ channel with
  | CHANNEL_FUNCTION_FACTORER => DivideReset s channel
  | CHANNEL_FUNCTION_SWING => SwingReset s channel
  | CHANNEL_FUNCTION_LAST => s

/-- For the function of the channel, handle a new input gate. -/
def FunctionHandleInputGateRisingEdge (s : State) (channel : Channel) (tcnt : Nat) : State :=
  match s.channel_function_ channel with
  | CHANNEL_FUNCTION_FACTORER => FactorerHandleInputGateRisingEdge s channel tcnt
  | CHANNEL_FUNCTION_SWING => SwingHandleInputGateRisingEdge s channel tcnt
  | CHANNEL_FUNCTION_LAST => s

/-- Execute a single system cycle for the channel. -/
def ChannelExec (s : State) (channel : Channel) (tcnt : Nat) : Option State :=
  match FunctionExec s channel tcnt with
  | none => none
  | some s => some (LedUpdate s channel)

/-- Update the state of the channel according to the system input state. -/
def ChannelStateUpdate (s : State) (channel : Channel) (is_trig is_reset : Bool)
    (read8 : Fin 2 → Nat) (tcnt : Nat) : State :=
  let s :=
    match AdcHasNewValue s channel read8 with
    | (true, s) => FunctionHandleNewAdcValue s channel
    | (false, s) => s
  let s := if is_trig then FunctionHandleInputGateRisingEdge s channel tcnt else s
  if is_reset then FunctionReset s channel else s

/-- Toggle the function for the channel. -/
def ChannelFunctionToggle (s : State) (channel : Channel) : State :=
  let s :=
    match s.channel_function_ channel with
    | CHANNEL_FUNCTION_FACTORER =>
      { s with channel_function_ := upd s.channel_function_ channel CHANNEL_FUNCTION_SWING }
    | CHANNEL_FUNCTION_SWING =>
      { s with channel_function_ := upd s.channel_function_ channel CHANNEL_FUNCTION_FACTORER }
    | CHANNEL_FUNCTION_LAST => s
  FunctionReset s channel

/-! ## Buttons -/

/-- Record a button press start. -/
def ButtonHandleNewlyPressed (s : State) (channel : Channel) (tcnt : Nat) : State :=
  { s with
    button_last_press_at := upd s.button_last_press_at channel (u16 tcnt)
    button_is_inhibited := upd s.button_is_inhibited channel false }

/-- Is the button in a new state?  `input_state` is the value of `ButtonRead`. -/
def ButtonIsNewState (s : State) (channel : Channel) (input_state : Bool) (tcnt : Nat) :
    Bool × State :=
  if !s.button_state channel && input_state then
    (input_state, ButtonHandleNewlyPressed s channel tcnt)
  else (input_state, s)

/-- One iteration of the loop of `ButtonsScanAndExec`. -/
def ButtonsScanAndExecChannel (s : State) (i : Channel) (input_state : Bool) (tcnt : Nat) : State :=
  match ButtonIsNewState s i input_state tcnt with
  | (new_input_state, s) =>
    let s :=
      if s.button_state i && !s.button_is_inhibited i then
        let button_press_time := sub16 tcnt (s.button_last_press_at i)
        if button_press_time ≥ BUTTON_LONG_PRESS_DURATION then
          let s := { s with button_is_inhibited := upd s.button_is_inhibited i true }
          SystemStateSave (ChannelFunctionToggle s i)
        else if new_input_state then FunctionReset s i
        else s
      else s
    { s with button_state := upd s.button_state i new_input_state }

/-- Scan the button state and execute any actions accordingly: `button i` is
the value of `ButtonRead i` and `tcnt i` the tick reading while button `i` is
handled. -/
def ButtonsScanAndExec (s : State) (button : Channel → Bool) (tcnt : Channel → Nat) : State :=
  ButtonsScanAndExecChannel (ButtonsScanAndExecChannel s 0 (button 0) (tcnt 0)) 1 (button 1) (tcnt 1)

/-! ## Main loop -/

/-- The hardware readings of one pass of `Loop`: the tick counter at each
stage of the pass, the button and gate levels, and the scanner readings. -/
structure LoopInput where
  tcnt_overflow : Nat
  button : Channel → Bool
  tcnt_button : Channel → Nat
  gate : Fin 2 → Bool
  tcnt_trig : Nat
  read8 : Fin 2 → Nat
  tcnt_update : Channel → Nat
  tcnt_exec : Channel → Nat

/-- One iteration of the final loop of `Loop`. -/
def LoopChannel (s : State) (i : Channel) (is_trig is_reset : Bool) (inp : LoopInput) :
    Option State :=
  ChannelExec (ChannelStateUpdate s i is_trig is_reset inp.read8 (inp.tcnt_update i)) i
    (inp.tcnt_exec i)

/-- Single system loop. -/
def Loop (s : State) (inp : LoopInput) : Option State :=
  let s := if ClockIsOverflow s inp.tcnt_overflow then ClockHandleOverflow s else s
  let s := AdcScan s
  let s := ButtonsScanAndExec s inp.button inp.tcnt_button
  match GateInputIsRisingEdge s GATE_INPUT_TRIG_INDEX (inp.gate GATE_INPUT_TRIG_INDEX) with
  | (trig_edge, s) =>
    let s := if trig_edge then PulseTrackerRecord s PULSE_TRACKER_INPUT_INDEX inp.tcnt_trig else s
    let is_trig := trig_edge
    match GateInputIsRisingEdge s GATE_INPUT_RESET_INDEX (inp.gate GATE_INPUT_RESET_INDEX) with
    | (is_reset, s) =>
      match LoopChannel s 0 is_trig is_reset inp with
      | none => none
      | some s => LoopChannel s 1 is_trig is_reset inp

/-! ## Initialisation -/

/-- Initialize the gate inputs (used for trig/reset). -/
def GateInputsInit (s : State) : State :=
  let s := { s with gate_input_state := upd s.gate_input_state 0 false }
  { s with gate_input_state := upd s.gate_input_state 1 false }

/-- Initialize the push buttons. -/
def ButtonsInit (s : State) : State :=
  { s with button_state := upd (upd s.button_state 1 false) 0 false }

/-- Initialize the LEDs: all four pins low, both LED states 0. -/
def LedsInit (s : State) : State :=
  let s := LedOff (LedOff s 0) 1
  { s with led_state := upd (upd s.led_state 1 0) 0 0 }

/-- Initialize the pots and CV inputs (the scanner itself is external). -/
def AdcInit (s : State) : State :=
  { s with adc_counter := 1 }

/-- Initialize the system. -/
def SystemInit (s : State) : State :=
  SystemLoadState (AdcInit (LedsInit (ButtonsInit (GateInputsInit s))))

/-! ## Runs of events -/

/-- The state after a run of input rising edges handled by
`FactorerHandleInputGateRisingEdge`, one tick reading per edge. -/
def factorerEdges (s : State) (channel : Channel) : List Nat → State
  | [] => s
  | tcnt :: rest => factorerEdges (FactorerHandleInputGateRisingEdge s channel tcnt) channel rest

/-- Example state: power-on state with the factor of both channels set to 3 and
both channels running the factorer. -/
def divideExample : State :=
  { State.initial 255 with
    factor := fun _ => 3
    channel_function_ := fun _ => CHANNEL_FUNCTION_FACTORER }

/-- Example state: power-on state with control value `v` on both channels. -/
def adcExample (v : Int) : State :=
  { State.initial 255 with adc_value := fun _ => v }

/-- An event seen by a channel that runs the swing function: an input rising
edge (`SwingHandleInputGateRisingEdge`) or a poll (`SwingExec`), each with the
tick reading taken while it is handled. -/
inductive SwingEvent where
  | edge (tcnt : Nat)
  | poll (tcnt : Nat)

/-- One event of a swing channel. -/
def swingStep (s : State) (channel : Channel) : SwingEvent → Option State
  | SwingEvent.edge tcnt => some (SwingHandleInputGateRisingEdge s channel tcnt)
  | SwingEvent.poll tcnt => SwingExec s channel tcnt

/-- A run of events of a swing channel. -/
def swingRun (s : State) (channel : Channel) : List SwingEvent → Option State
  | [] => some s
  | ev :: rest =>
    match swingStep s channel ev with
    | none => none
    | some s => swingRun s channel rest

/-- Number of input edges in a run of swing events. -/
def countEdges : List SwingEvent → Nat
  | [] => 0
  | SwingEvent.edge _ :: rest => countEdges rest + 1
  | SwingEvent.poll _ :: rest => countEdges rest

/-- Example state: power-on state with swing amount `amount` on both channels
and the INPUT tracker holding edges at ticks 100 and 200 (period 100). -/
def swingExample (amount : Int) : State :=
  { State.initial 255 with
    swing := fun _ => amount
    pulse_tracker_buffer := fun id k => if id = 0 then (if k = 0 then 100 else 200) else 0 }

/-- Example state: the power-on state (channel 0 swing, channel 1 factorer)
with divide factor 3 on both channels. -/
def chainedDivideExample : State :=
  { State.initial 255 with factor := fun _ => 3 }

/-- Example state: both channels factorer with multiply factor -2, one input
edge seen at tick 100 (INPUT tracker `[0, 100]`), the scanner counter as left by
`AdcInit`, no channel debouncing. -/
def multiplyExample : State :=
  { State.initial 255 with
    adc_counter := 1
    channel_function_ := fun _ => CHANNEL_FUNCTION_FACTORER
    factor := fun _ => -2
    channel_last_action_at := fun _ => 100
    pulse_tracker_buffer := fun id k => if id = 0 then (if k = 0 then 0 else 100) else 0 }

/-- Example pass: every tick reading is 200, the trig gate input (index 1) is
high, the reset gate input and both buttons are low, the scanner reads 0. -/
def edgeAt200 : LoopInput where
  tcnt_overflow := 200
  button := fun _ => false
  tcnt_button := fun _ => 200
  gate := fun i => decide (i = 1)
  tcnt_trig := 200
  read8 := fun _ => 0
  tcnt_update := fun _ => 200
  tcnt_exec := fun _ => 200

/-- Example state: the last action of channel 0 was stamped at tick 20000 and
button 0 is held (pressed flag set). -/
def overflowExample : State :=
  { State.initial 255 with
    adc_counter := 1
    channel_last_action_at := fun c => if c = 0 then 20000 else 0
    button_state := fun c => decide (c = 0) }

/-- Example pass: every tick reading is 10000, button 0 reads pressed, both
gate inputs are low, the scanner reads 0. -/
def passAt10000 : LoopInput where
  tcnt_overflow := 10000
  button := fun c => decide (c = 0)
  tcnt_button := fun _ => 10000
  gate := fun _ => false
  tcnt_trig := 10000
  read8 := fun _ => 0
  tcnt_update := fun _ => 10000
  tcnt_exec := fun _ => 10000

/-- The state after polling `MultiplyExec` once at each elapsed value
0, 1, ..., n-1 past the last input edge: the tick reading of the poll at
elapsed `e` is the newer INPUT timestamp plus `e`. -/
def multiplyPolls (s : State) (channel : Channel) : Nat → Option State
  | 0 => some s
  | n + 1 =>
    match multiplyPolls s channel n with
    | none => none
    | some polled =>
      MultiplyExec polled channel (s.pulse_tracker_buffer PULSE_TRACKER_INPUT_INDEX 1 + n)

/-- Does the poll at elapsed `e`, after the polls at 0..e-1, strike?  This is
the answer of `MultiplyShouldStrike` in that poll (`none` if a poll hits a zero
interval). -/
def multiplyStrikesAt (s : State) (channel : Channel) (e : Nat) : Option Bool :=
  match multiplyPolls s channel e with
  | none => none
  | some polled =>
    (MultiplyShouldStrike polled channel
      (PulseTrackerGetElapsed polled PULSE_TRACKER_INPUT_INDEX
        (s.pulse_tracker_buffer PULSE_TRACKER_INPUT_INDEX 1 + e))).map Prod.fst

/-- Example state: both channels factorer with multiply factor -2, the INPUT
tracker holding edges at ticks 100 and `100 + period`, no channel debouncing. -/
def multiplyPeriodExample (period : Nat) : State :=
  { State.initial 255 with
    channel_function_ := fun _ => CHANNEL_FUNCTION_FACTORER
    factor := fun _ => -2
    pulse_tracker_buffer := fun id k => if id = 0 then (if k = 0 then 100 else 100 + period) else 0 }

/-- The state after a run of passes of `Loop`, one `LoopInput` per pass; `none`
as soon as a pass is undefined. -/
def runLoop (s : State) : List LoopInput → Option State
  | [] => some s
  | inp :: rest =>
    match Loop s inp with
    | none => none
    | some s => runLoop s rest

/-- The action taken for a button in one iteration of the loop of
`ButtonsScanAndExec`. -/
inductive ButtonAction where
  | noAction
  | shortPress
  | longPress
deriving DecidableEq, Repr

/-- Which branch iteration `i` of the loop of `ButtonsScanAndExec` takes: the
long press (`ChannelFunctionToggle` then `SystemStateSave`), the short press
(`FunctionReset`) or neither.  The conditions are those of
`ButtonsScanAndExecChannel`. -/
def buttonAction (s : State) (i : Channel) (input_state : Bool) (tcnt : Nat) : ButtonAction :=
  match ButtonIsNewState s i input_state tcnt with
  | (new_input_state, s) =>
    if s.button_state i && !s.button_is_inhibited i then
      if sub16 tcnt (s.button_last_press_at i) ≥ BUTTON_LONG_PRESS_DURATION then
        ButtonAction.longPress
      else if new_input_state then ButtonAction.shortPress
      else ButtonAction.noAction
    else ButtonAction.noAction

/-- The readings of one pass of `ButtonsScanAndExec`: the level of each button
and the tick reading while it is handled. -/
structure ButtonPass where
  button : Channel → Bool
  tcnt : Channel → Nat

/-- The state after a run of passes of `ButtonsScanAndExec`. -/
def buttonPasses (s : State) : List ButtonPass → State
  | [] => s
  | p :: rest => buttonPasses (ButtonsScanAndExec s p.button p.tcnt) rest

/-- The state in which iteration `i` of the loop of `ButtonsScanAndExec`
starts, in a pass that starts in `s`. -/
def passStart (s : State) (i : Channel) (p : ButtonPass) : State :=
  if i = 0 then s else ButtonsScanAndExecChannel s 0 (p.button 0) (p.tcnt 0)

/-- The action taken for button `i` in a pass that starts in `s`. -/
def passAction (s : State) (i : Channel) (p : ButtonPass) : ButtonAction :=
  buttonAction (passStart s i p) i (p.button i) (p.tcnt i)

/-- Example state: power-on state with swing amount `amount` on both channels
and the INPUT tracker holding edges at ticks 100 and `100 + period`. -/
def swingPeriodExample (amount : Int) (period : Nat) : State :=
  { State.initial 255 with
    swing := fun _ => amount
    pulse_tracker_buffer := fun id k => if id = 0 then (if k = 0 then 100 else 100 + period) else 0 }

/-- Example state: the power-on state (channel 1 factorer) with button 1 held
since tick 100, not inhibited, and the divide counter of channel 1 at 2. -/
def heldButtonExample : State :=
  { State.initial 255 with
    button_state := fun c => decide (c = 1)
    button_last_press_at := fun c => if c = 1 then 100 else 0
    divide_counter := fun c => if c = 1 then 2 else 0 }

/-- Example pass: every tick reading is `t`, the trig gate input (index 1)
reads `trig`, the reset gate input and both buttons are low, the scanner reads
`raw` on both pins. -/
def plainPass (t : Nat) (trig : Bool) (raw : Nat) : LoopInput where
  tcnt_overflow := t
  button := fun _ => false
  tcnt_button := fun _ => t
  gate := fun i => decide (i = 1) && trig
  tcnt_trig := t
  read8 := fun _ => raw
  tcnt_update := fun _ => t
  tcnt_exec := fun _ => t

/-- Example run from power on: four passes until the scanner is due, with the
control inputs reading 255 (factor -8 on the factorer channel 1), then an input
edge at tick 100 and a pass with the gate low. -/
def shortPeriodRun : List LoopInput :=
  [plainPass 10 false 255, plainPass 20 false 255, plainPass 30 false 255,
    plainPass 40 false 255, plainPass 100 true 255, plainPass 102 false 255]

/-- A call that can move a swing phase: the swing edge handler, the swing
poll, the two resets, the function toggle and the chained swing of a factorer
outcome. -/
inductive SwingOp where
  | handleInput (c : Channel) (tcnt : Nat)
  | exec (c : Channel) (tcnt : Nat)
  | swingReset (c : Channel)
  | functionReset (c : Channel)
  | toggle (c : Channel)
  | chained (c : Channel) (tcnt : Nat)

/-- One call of a `SwingOp`. -/
def swingOpStep (s : State) : SwingOp → Option State
  | SwingOp.handleInput c tcnt => some (SwingHandleInput s c tcnt)
  | SwingOp.exec c tcnt => SwingExec s c tcnt
  | SwingOp.swingReset c => some (SwingReset s c)
  | SwingOp.functionReset c => some (FunctionReset s c)
  | SwingOp.toggle c => some (ChannelFunctionToggle s c)
  | SwingOp.chained c tcnt => some (FactorerExecChainedSwing s c tcnt)

/-- A sequence of calls of `SwingOp`s; `none` as soon as a call is undefined. -/
def swingOps (s : State) : List SwingOp → Option State
  | [] => some s
  | op :: rest =>
    match swingOpStep s op with
    | none => none
    | some s => swingOps s rest

/-- Example state: the power-on state with swing amount 60 on both channels. -/
def swingSixtyExample : State :=
  { State.initial 255 with swing := fun _ => 60 }

/-- Polls of `MultiplyExec` on a channel, one at each of the given tick
readings; `none` as soon as a poll is undefined. -/
def multiplyExecAt (s : State) (channel : Channel) : List Nat → Option State
  | [] => some s
  | tcnt :: rest =>
    match MultiplyExec s channel tcnt with
    | none => none
    | some s => multiplyExecAt s channel rest

/-- The three outcomes of the factorer, each of which runs the chained swing
when the other channel is in swing mode. -/
inductive FactorerOutcome where
  | multiplyThru
  | multiplyStrike
  | divideStrike

/-- The function of the source that produces the outcome. -/
def factorerOutcome (s : State) (channel : Channel) (k : FactorerOutcome) (tcnt : Nat) : State :=
  match k with
  | FactorerOutcome.multiplyThru => MultiplyExecThru s channel tcnt
  | FactorerOutcome.multiplyStrike => MultiplyExecStrike s channel tcnt
  | FactorerOutcome.divideStrike => DivideExecStrike s channel tcnt

/-- The value of `exec_state` that the outcome function itself stores before it
runs the chained swing: 1 (thru) for `MultiplyExecThru`, 2 (strike) for
`MultiplyExecStrike` and `DivideExecStrike`. -/
def ownOutcome : FactorerOutcome → Nat
  | FactorerOutcome.multiplyThru => 1
  | FactorerOutcome.multiplyStrike => 2
  | FactorerOutcome.divideStrike => 2

/-- What happens to a factorer channel between resets: an outcome of the
factorer at some tick reading, or the output stage of `FunctionExec`. -/
inductive ChainEvent where
  | outcome (k : FactorerOutcome) (tcnt : Nat)
  | output

/-- One `ChainEvent` on a channel. -/
def chainStep (s : State) (channel : Channel) : ChainEvent → State
  | ChainEvent.outcome k tcnt => factorerOutcome s channel k tcnt
  | ChainEvent.output => FunctionExecOutput s channel

/-- A sequence of `ChainEvent`s on a channel. -/
def chainRun (s : State) (channel : Channel) : List ChainEvent → State
  | [] => s
  | ev :: rest => chainRun (chainStep s channel ev) channel rest

/-- The number of factorer outcomes in a sequence of `ChainEvent`s. -/
def countOutcomes : List ChainEvent → Nat
  | [] => 0
  | ChainEvent.outcome _ _ :: rest => countOutcomes rest + 1
  | ChainEvent.output :: rest => countOutcomes rest

/-- Example state: channel 0 factorer, channel 1 swing, the swing amount slot
of channel 0 holding 60. -/
def chainedSixtyExample : State :=
  { State.initial 255 with
    channel_function_ := fun c => if c = 0 then CHANNEL_FUNCTION_FACTORER else CHANNEL_FUNCTION_SWING
    swing := fun _ => 60 }

/-- One pass of a factorer channel that sees an input rising edge: the edge
handler at tick reading `p.1`, then `FunctionExec` at tick reading `p.2`. -/
def dividePass (s : State) (channel : Channel) (p : Nat × Nat) : Option State :=
  FunctionExec (FactorerHandleInputGateRisingEdge s channel p.1) channel p.2

/-- A run of passes of a factorer channel, each with an input rising edge;
`none` as soon as a pass is undefined. -/
def dividePasses (s : State) (channel : Channel) : List (Nat × Nat) → Option State
  | [] => some s
  | p :: rest =>
    match dividePass s channel p with
    | none => none
    | some s => dividePasses s channel rest

/-- Example state: the power-on state (channel 0 swing, channel 1 factorer)
with divide factor 2 and swing amount 60 on both channels. -/
def chainedSixtyDivideExample : State :=
  { State.initial 255 with
    factor := fun _ => 2
    swing := fun _ => 60 }

/-- The state after running `FunctionExec` on the channel once at each elapsed
value 0, 1, ..., n-1 past the last input edge: the tick reading of the pass at
elapsed `e` is the newer INPUT timestamp plus `e`. -/
def multiplyPasses (s : State) (channel : Channel) : Nat → Option State
  | 0 => some s
  | n + 1 =>
    match multiplyPasses s channel n with
    | none => none
    | some polled =>
      FunctionExec polled channel (s.pulse_tracker_buffer PULSE_TRACKER_INPUT_INDEX 1 + n)

/-- The outcome (`exec_state`) that the poll of `FunctionExec` at elapsed `e`
leaves for the channel, after the passes at 0..e-1 and before the output stage
of that pass. -/
def multiplyOutcomeAt (s : State) (channel : Channel) (e : Nat) : Option Nat :=
  match multiplyPasses s channel e with
  | none => none
  | some polled =>
    (FunctionExecPoll polled channel
      (s.pulse_tracker_buffer PULSE_TRACKER_INPUT_INDEX 1 + e)).map (fun p => p.exec_state channel)

/-- The gate output of the channel after the pass at elapsed `e`. -/
def multiplyGateAt (s : State) (channel : Channel) (e : Nat) : Option Bool :=
  (multiplyPasses s channel (e + 1)).map (fun p => p.gate_out channel)

/-- Example state: channel 0 factorer with multiply factor -2, channel 1
swing, swing amount 60 in both slots, the INPUT tracker holding edges at ticks
100 and 200 (period 100), no channel debouncing. -/
def chainedMultiplyExample : State :=
  { State.initial 255 with
    channel_function_ := fun c => if c = 0 then CHANNEL_FUNCTION_FACTORER else CHANNEL_FUNCTION_SWING
    factor := fun _ => -2
    swing := fun _ => 60
    pulse_tracker_buffer := fun id k => if id = 0 then (if k = 0 then 100 else 200) else 0 }

/-- Example pass: every tick reading is `t`, button 1 reads pressed and button
0 released, the trig gate input (index 1) reads `trig`, the reset gate input is
low, the scanner reads 125 on both pins. -/
def heldPass (t : Nat) (trig : Bool) : LoopInput where
  tcnt_overflow := t
  button := fun c => decide (c = 1)
  tcnt_button := fun _ => t
  gate := fun i => decide (i = 1) && trig
  tcnt_trig := t
  read8 := fun _ => 125
  tcnt_update := fun _ => t
  tcnt_exec := fun _ => t

/-- Example run from power on with button 1 held throughout: an input edge at
tick 100, a pass at tick 9475, a pass at tick 50 after the tick counter has
wrapped, and a pass at tick 9375. -/
def heldButtonRun : List LoopInput :=
  [heldPass 100 true, heldPass 9475 false, heldPass 50 false, heldPass 9375 false]

/-! ## Basic lemmas -/

@[simp] theorem upd_same {α : Type} (a : Fin 2 → α) (i : Fin 2) (v : α) : upd a i v i = v := by
  simp [upd]

@[simp] theorem upd_other {α : Type} (a : Fin 2 → α) (i j : Fin 2) (v : α) (h : j ≠ i) :
    upd a i v j = a j := by
  simp [upd, h]

/-! ## Divide mode -/

theorem FactorerExecChainedSwing_frame (s : State) (c : Channel) (t : Nat) :
    (FactorerExecChainedSwing s c t).factor = s.factor ∧
    (FactorerExecChainedSwing s c t).divide_counter = s.divide_counter := by
  unfold FactorerExecChainedSwing SwingHandleInput PulseTrackerRecord SwingReset SwingExecStrike
    SwingExecThru
  constructor <;> (split_ifs <;> rfl)

theorem DivideExecStrike_frame (s : State) (c : Channel) (t : Nat) :
    (DivideExecStrike s c t).factor = s.factor ∧
    (DivideExecStrike s c t).divide_counter = s.divide_counter := by
  unfold DivideExecStrike
  simp only []
  split_ifs
  · exact FactorerExecChainedSwing_frame _ c t
  · exact ⟨rfl, rfl⟩

theorem divide_edge_step (s : State) (c : Channel) (t : Nat) (F k : Nat)
    (hF : 2 ≤ F) (hF8 : F ≤ 8) (hf : s.factor c = (F : Int))
    (hk : s.divide_counter c = (k : Int)) (hkF : k < F) :
    (FactorerHandleInputGateRisingEdge s c t).factor = s.factor ∧
    (FactorerHandleInputGateRisingEdge s c t).divide_counter c = (((k + 1) % F : Nat) : Int) := by
  have hen : DivideIsEnabled s c = true := by
    simp only [DivideIsEnabled, hf, decide_eq_true_eq]; omega
  obtain ⟨h1, h2⟩ := DivideExecStrike_frame s c t
  unfold FactorerHandleInputGateRisingEdge
  rw [if_pos hen]
  dsimp only
  generalize hs1 : (if DivideShouldStrike s c = true then DivideExecStrike s c t else s) = s1
  have e1 : s1.factor = s.factor := by
    rw [← hs1]; split_ifs
    · exact h1
    · rfl
  have e2 : s1.divide_counter = s.divide_counter := by
    rw [← hs1]; split_ifs
    · exact h2
    · rfl
  by_cases hr : DivideShouldReset s1 c = true
  · rw [if_pos hr]
    simp only [DivideShouldReset, e1, e2, hf, hk, decide_eq_true_eq] at hr
    have hkF1 : k + 1 = F := by omega
    simp only [DivideReset, e1, upd_same, true_and, hkF1, Nat.mod_self]
    rfl
  · rw [if_neg hr]
    simp only [DivideShouldReset, e1, e2, hf, hk, decide_eq_true_eq] at hr
    simp only [e1, e2, hk, upd_same, true_and]
    rw [Nat.mod_eq_of_lt (by omega)]
    simp only [toInt8]; push_cast; omega

theorem factorerEdges_counter (c : Channel) (F : Nat) (hF : 2 ≤ F) (hF8 : F ≤ 8) :
    ∀ (ts : List Nat) (s : State) (k : Nat), s.factor c = (F : Int) →
      s.divide_counter c = (k : Int) → k < F →
      (factorerEdges s c ts).factor c = (F : Int) ∧
      (factorerEdges s c ts).divide_counter c = (((k + ts.length) % F : Nat) : Int) := by
  intro ts
  induction ts with
  | nil =>
    intro s k hf hk hkF
    simp [factorerEdges, hf, hk, Nat.mod_eq_of_lt hkF]
  | cons t rest ih =>
    intro s k hf hk hkF
    obtain ⟨h1, h2⟩ := divide_edge_step s c t F k hF hF8 hf hk hkF
    have := ih (FactorerHandleInputGateRisingEdge s c t) ((k + 1) % F) (by rw [h1, hf]) h2
      (Nat.mod_lt _ (by omega))
    simp only [factorerEdges, List.length_cons]
    rw [this.1, this.2]
    refine ⟨rfl, ?_⟩
    congr 1
    rw [Nat.mod_add_mod]; congr 1; omega

theorem window_count (F m : Nat) (hF : 2 ≤ F) (hF8 : F ≤ 8) :
    ((Finset.range F).filter (fun j => (m + j) % F = 0)).card = 1 := by
  rw [Finset.card_eq_one]
  refine ⟨(F - m % F) % F, ?_⟩
  ext j
  simp only [Finset.mem_filter, Finset.mem_range, Finset.mem_singleton]
  interval_cases F <;> omega

/-! ## Factor derivation -/

theorem FactorGet_eq (s : State) (c : Channel) (h0 : 0 ≤ s.adc_value c)
    (h1 : s.adc_value c ≤ 250) :
    FactorGet s c =
      if s.adc_value c / 17 - 7 = 0 then 0
      else if s.adc_value c / 17 - 7 < 0 then s.adc_value c / 17 - 8
      else s.adc_value c / 17 - 6 := by
  have hd : Int.tdiv ADC_MAX_VALUE (FACTORER_NUM_FACTORS - 1) = 17 := by decide
  have ht : Int.tdiv (s.adc_value c) 17 = s.adc_value c / 17 :=
    Int.tdiv_eq_ediv h0 (by decide)
  unfold FactorGet
  rw [hd, ht]
  simp only [toInt16, FACTORER_BYPASS_INDEX]
  split_ifs <;> omega

/-- C5: for control values in 0..250, `FactorGet` lies in -8..8 and is never
1 or -1; it is non-decreasing in the control value; it is 0 exactly on the
bypass bucket 119..135, and its magnitude is non-decreasing when the control
value moves away from that bucket on either side; each of the 15 values
-8..-2, 0, 2..8 is attained at some control value in 0..250. -/
theorem FactorGet_fifteen_values_monotone (s s' : State) (c : Channel)
    (h0 : 0 ≤ s.adc_value c) (h1 : s.adc_value c ≤ 250)
    (h0' : 0 ≤ s'.adc_value c) (h1' : s'.adc_value c ≤ 250) :
    (-8 ≤ FactorGet s c ∧ FactorGet s c ≤ 8 ∧ FactorGet s c ≠ 1 ∧ FactorGet s c ≠ -1) ∧
    (s.adc_value c ≤ s'.adc_value c → FactorGet s c ≤ FactorGet s' c) ∧
    (FactorGet s c = 0 ↔ 119 ≤ s.adc_value c ∧ s.adc_value c ≤ 135) ∧
    (135 ≤ s.adc_value c → s.adc_value c ≤ s'.adc_value c →
      |FactorGet s c| ≤ |FactorGet s' c|) ∧
    (s'.adc_value c ≤ s.adc_value c → s.adc_value c ≤ 119 →
      |FactorGet s c| ≤ |FactorGet s' c|) ∧
    (∀ f : Int, -8 ≤ f → f ≤ 8 → f ≠ 1 → f ≠ -1 →
      ∃ v : Int, 0 ≤ v ∧ v ≤ 250 ∧
        FactorGet { s with adc_value := upd s.adc_value c v } c = f) := by
  have e := FactorGet_eq s c h0 h1
  have e' := FactorGet_eq s' c h0' h1'
  refine ⟨?_, ?_, ?_, ?_, ?_, ?_⟩
  · rw [e]; split_ifs <;> omega
  · intro hle; rw [e, e']; split_ifs <;> omega
  · rw [e]; split_ifs <;> omega
  · intro ha hle
    rw [e, e']
    split_ifs <;> simp only [abs_le, le_abs] <;> omega
  · intro hle ha
    rw [e, e']
    split_ifs <;> simp only [abs_le, le_abs] <;> omega
  · intro f hf8 hf8' hf1 hf1'
    refine ⟨if f < 0 then 17 * (f + 8) else if f = 0 then 119 else 17 * (f + 6), ?_, ?_, ?_⟩
    · split_ifs <;> omega
    · split_ifs <;> omega
    · rw [FactorGet_eq _ c (by simp only [upd_same]; split_ifs <;> omega)
        (by simp only [upd_same]; split_ifs <;> omega)]
      simp only [upd_same]
      split_ifs <;> omega

/-- C5 witness: control values 0 and 250 on channel 0 of the power-on state. -/
theorem FactorGet_fifteen_values_monotone_witness :
    (-8 ≤ FactorGet (State.initial 255) 0 ∧ FactorGet (State.initial 255) 0 ≤ 8 ∧
      FactorGet (State.initial 255) 0 ≠ 1 ∧ FactorGet (State.initial 255) 0 ≠ -1) ∧
    ((State.initial 255).adc_value 0 ≤ (adcExample 250).adc_value 0 →
      FactorGet (State.initial 255) 0 ≤ FactorGet (adcExample 250) 0) :=
  have h := FactorGet_fifteen_values_monotone (State.initial 255) (adcExample 250) 0
    (by decide) (by decide) (by decide) (by decide)
  ⟨h.1, h.2.1⟩

/-! ## Persistence -/

/-- C6: for every pair of function selections of the two channels, each
factorer or swing, `SystemStateSave` keeps the selections in memory, and
`SystemLoadState` run on any state whose eeprom byte is the byte that was
written (whatever selections that state holds) yields exactly the saved
selections. -/
theorem save_then_load_roundtrip (s mem : State)
    (h0 : s.channel_function_ 0 ≠ CHANNEL_FUNCTION_LAST)
    (h1 : s.channel_function_ 1 ≠ CHANNEL_FUNCTION_LAST)
    (hbyte : mem.eeprom_byte = (SystemStateSave s).eeprom_byte) :
    (SystemStateSave s).channel_function_ = s.channel_function_ ∧
    (SystemLoadState mem).channel_function_ = s.channel_function_ := by
  refine ⟨rfl, ?_⟩
  funext i
  unfold SystemLoadState
  rw [hbyte]
  unfold SystemStateSave SystemStateSaveChannel SystemLoadStateChannel
  cases e0 : s.channel_function_ 0 <;> cases e1 : s.channel_function_ 1 <;>
    first
    | exact absurd e0 h0
    | exact absurd e1 h1
    | (fin_cases i <;> simp +decide [e0, e1, upd])

/-- C6 witness: the power-on selections (channel 0 swing, channel 1 factorer)
saved, then loaded into a state that holds factorer on both channels. -/
theorem save_then_load_roundtrip_witness :
    (SystemLoadState { divideExample with
        eeprom_byte := (SystemStateSave (State.initial 255)).eeprom_byte }).channel_function_
      = (State.initial 255).channel_function_ :=
  (save_then_load_roundtrip (State.initial 255)
    { divideExample with eeprom_byte := (SystemStateSave (State.initial 255)).eeprom_byte }
    (by decide) (by decide) rfl).2

/-! ## Swing -/

theorem SwingShouldStrike_flat (s : State) (c : Channel) (elapsed : Nat)
    (hsw : s.swing c ≤ SWING_FACTOR_MIN) : SwingShouldStrike s c elapsed = some false := by
  unfold SwingShouldStrike
  rw [if_neg]
  intro h
  exact absurd hsw (not_le.mpr h.2)

theorem SwingExec_flat (s : State) (c : Channel) (t : Nat)
    (hsw : s.swing c ≤ SWING_FACTOR_MIN) : SwingExec s c t = some s := by
  unfold SwingExec
  rw [SwingShouldStrike_flat s c _ hsw]

theorem SwingHandleInput_flat (s : State) (c : Channel) (t k : Nat)
    (hsw : s.swing c ≤ SWING_FACTOR_MIN) (hk : s.swing_counter c = (k : Int)) (hk2 : k < 2) :
    (SwingHandleInput s c t).swing = s.swing ∧
    (SwingHandleInput s c t).swing_counter c = (((k + 1) % 2 : Nat) : Int) ∧
    (SwingHandleInput s c t).exec_state c = (if k = 0 then 1 else 2) := by
  unfold SwingHandleInput
  interval_cases k
  · simp [hk, SwingExecThru]
  · simp [hk, hsw, SwingExecStrike, SwingReset]

theorem swingRun_flat (c : Channel) :
    ∀ (evs : List SwingEvent) (s : State) (k : Nat), s.swing c ≤ SWING_FACTOR_MIN →
      s.swing_counter c = (k : Int) → k < 2 →
      ∃ b, swingRun s c evs = some b ∧ b.swing c = s.swing c ∧
        b.swing_counter c = (((k + countEdges evs) % 2 : Nat) : Int) := by
  intro evs
  induction evs with
  | nil =>
    intro s k _ hk hk2
    exact ⟨s, rfl, rfl, by simpa [countEdges, Nat.mod_eq_of_lt hk2] using hk⟩
  | cons ev rest ih =>
    intro s k hsw hk hk2
    cases ev with
    | edge t =>
      obtain ⟨h1, h2, _⟩ := SwingHandleInput_flat s c t k hsw hk hk2
      obtain ⟨b, hb, hb1, hb2⟩ := ih (SwingHandleInput s c t) ((k + 1) % 2)
        (by rw [h1]; exact hsw) h2 (Nat.mod_lt _ (by decide))
      refine ⟨b, ?_, ?_, ?_⟩
      · simpa [swingRun, swingStep, SwingHandleInputGateRisingEdge] using hb
      · rw [hb1, h1]
      · rw [hb2]; simp only [countEdges]; congr 1; omega
    | poll t =>
      obtain ⟨b, hb, hb1, hb2⟩ := ih s k hsw hk hk2
      refine ⟨b, ?_, hb1, ?_⟩
      · simpa [swingRun, swingStep, SwingExec_flat s c t hsw] using hb
      · rw [hb2]; simp only [countEdges]

/-- C4: flat mode.  With a swing amount of at most 50 and phase 0 initially,
after any run of input edges and `SwingExec` polls the run is defined, the
phase is the parity of the number `n` of edges handled so far (0 or 1, never
2), a `SwingExec` poll at any tick reading does not strike (`SwingShouldStrike`
is false for every elapsed value and the poll leaves the state unchanged), and
the next edge, edge number `n`, handled by `SwingHandleInput` yields
pass-through (outcome 1) when `n` is even and a strike (outcome 2) when `n` is
odd. -/
theorem swing_flat_alternates (s : State) (c : Channel) (evs : List SwingEvent) (t elapsed : Nat)
    (hsw : s.swing c ≤ SWING_FACTOR_MIN) (h0 : s.swing_counter c = 0) :
    ∃ b, swingRun s c evs = some b ∧
      b.swing_counter c = ((countEdges evs % 2 : Nat) : Int) ∧
      b.swing_counter c ≠ 2 ∧
      SwingShouldStrike b c elapsed = some false ∧
      SwingExec b c t = some b ∧
      (SwingHandleInput b c t).exec_state c = (if countEdges evs % 2 = 0 then 1 else 2) := by
  obtain ⟨b, hb, hb1, hb2⟩ := swingRun_flat c evs s 0 hsw (by simpa using h0) (by decide)
  rw [Nat.zero_add] at hb2
  have hbsw : b.swing c ≤ SWING_FACTOR_MIN := by rw [hb1]; exact hsw
  refine ⟨b, hb, hb2, ?_, SwingShouldStrike_flat b c elapsed hbsw, SwingExec_flat b c t hbsw, ?_⟩
  · rw [hb2]; omega
  · exact (SwingHandleInput_flat b c t (countEdges evs % 2) hbsw hb2
      (Nat.mod_lt _ (by decide))).2.2

/-- C4 witness: swing amount 50, a run of three edges with polls in between. -/
theorem swing_flat_alternates_witness :
    ∃ b, swingRun (swingExample 50) 1
        [SwingEvent.edge 100, SwingEvent.poll 120, SwingEvent.edge 200, SwingEvent.poll 225,
          SwingEvent.edge 300] = some b ∧
      b.swing_counter 1 = ((3 % 2 : Nat) : Int) ∧
      b.swing_counter 1 ≠ 2 ∧
      SwingShouldStrike b 1 25 = some false ∧
      SwingExec b 1 325 = some b ∧
      (SwingHandleInput b 1 325).exec_state 1 = 2 :=
  swing_flat_alternates (swingExample 50) 1
    [SwingEvent.edge 100, SwingEvent.poll 120, SwingEvent.edge 200, SwingEvent.poll 225,
      SwingEvent.edge 300] 325 25 (by decide) rfl

theorem swing_divisor (sw : Int) (h : SWING_FACTOR_MIN < sw) (h' : sw ≤ SWING_FACTOR_MAX) :
    ∃ d : Nat, 14 ≤ d ∧ d ≤ 19 ∧ intToU16 (Int.tdiv 1000 sw) = d := by
  have h1 : 51 ≤ sw := h
  have h2 : sw ≤ 70 := h'
  interval_cases sw <;> exact ⟨_, by decide, by decide, rfl⟩

theorem swing_quotient_not_just_below (p d : Nat) (h : p < 65536) (hd : 14 ≤ d) (hd' : d ≤ 19) :
    ¬ (10 * (p * 2 % 65536) % 65536 / d < p ∧ p ≤ 10 * (p * 2 % 65536) % 65536 / d + 12) := by
  have hg : 10 * (p * 2 % 65536) / 65536 ≤ 9 := by omega
  generalize hG : 10 * (p * 2 % 65536) / 65536 = g at hg
  have hf : p * 2 / 65536 ≤ 1 := by omega
  generalize hF : p * 2 / 65536 = f at hf
  interval_cases d <;> interval_cases g <;> interval_cases f <;> omega

theorem sub16_lt (a b : Nat) : sub16 a b < 65536 := by
  unfold sub16; omega

theorem sub16_window (q p : Nat) (hp : p < 65536) (hq : q ≤ 4681)
    (key : ¬ (q < p ∧ p ≤ q + 12)) : sub16 q p + 12 < 65536 := by
  unfold sub16; omega

/-- For a swing amount in 51..70 the swing interval is defined and adding the
12-tick window to it does not wrap. -/
theorem SwingInterval_defined (s : State) (c : Channel) (h : SWING_FACTOR_MIN < s.swing c)
    (h' : s.swing c ≤ SWING_FACTOR_MAX) :
    ∃ interval, SwingInterval s c = some interval ∧
      interval + FUNCTION_TIMING_ERROR_CORRECTION_AMOUNT < 65536 := by
  obtain ⟨d, hd, hd', hdiv⟩ := swing_divisor (s.swing c) h h'
  have hne : s.swing c ≠ 0 := by
    intro h0; rw [h0] at h; exact absurd h (by decide)
  unfold SwingInterval
  simp only [hne, if_false, hdiv]
  rw [if_neg (by omega)]
  refine ⟨_, rfl, ?_⟩
  have hp : PulseTrackerGetPeriod s PULSE_TRACKER_INPUT_INDEX < 65536 := sub16_lt _ _
  have key := swing_quotient_not_just_below (PulseTrackerGetPeriod s PULSE_TRACKER_INPUT_INDEX)
    d hp hd hd'
  revert key
  generalize PulseTrackerGetPeriod s PULSE_TRACKER_INPUT_INDEX = p at hp ⊢
  intro key
  have hq : 10 * (p * 2 % 65536) % 65536 / d ≤ 4681 :=
    le_trans (Nat.div_le_div_left hd (by decide)) (by omega)
  revert key hq
  simp only [u16]
  generalize 10 * (p * 2 % 65536) % 65536 / d = q
  intro key hq
  exact sub16_window q p hp hq key

/-- C3: swing with an amount above 50 (in the range 51..70 of the swing
control), starting from phase 0.  The first input edge yields pass-through
(outcome 1) and phase 1; the second yields no outcome and phase 2.  From then
on the interval `SwingInterval` is defined, the window `[interval, interval +
12]` does not wrap, and a `SwingExec` poll at tick reading `t` with
`elapsed = PulseTrackerGetElapsed` emits a strike (outcome 2) and resets the
phase to 0 when `interval ≤ elapsed ≤ interval + 12`, and otherwise leaves the
state unchanged (no outcome, phase 2). -/
theorem swing_thru_rest_then_delayed_strike (s : State) (c : Channel) (t1 t2 t : Nat)
    (hsw : SWING_FACTOR_MIN < s.swing c) (hmax : s.swing c ≤ SWING_FACTOR_MAX)
    (h0 : s.swing_counter c = 0) :
    ((SwingHandleInput s c t1).exec_state c = 1 ∧ (SwingHandleInput s c t1).swing_counter c = 1) ∧
    ((SwingHandleInput (SwingHandleInput s c t1) c t2).exec_state c = 0 ∧
      (SwingHandleInput (SwingHandleInput s c t1) c t2).swing_counter c = 2) ∧
    ∃ interval, SwingInterval (SwingHandleInput (SwingHandleInput s c t1) c t2) c = some interval ∧
      interval + 12 < 65536 ∧
      (interval ≤ PulseTrackerGetElapsed (SwingHandleInput (SwingHandleInput s c t1) c t2)
          PULSE_TRACKER_INPUT_INDEX t ∧
        PulseTrackerGetElapsed (SwingHandleInput (SwingHandleInput s c t1) c t2)
          PULSE_TRACKER_INPUT_INDEX t ≤ interval + 12 →
        ∃ s3, SwingExec (SwingHandleInput (SwingHandleInput s c t1) c t2) c t = some s3 ∧
          s3.exec_state c = 2 ∧ s3.swing_counter c = 0 ∧ s3.channel_last_action_at c = u16 t) ∧
      (¬ (interval ≤ PulseTrackerGetElapsed (SwingHandleInput (SwingHandleInput s c t1) c t2)
            PULSE_TRACKER_INPUT_INDEX t ∧
          PulseTrackerGetElapsed (SwingHandleInput (SwingHandleInput s c t1) c t2)
            PULSE_TRACKER_INPUT_INDEX t ≤ interval + 12) →
        SwingExec (SwingHandleInput (SwingHandleInput s c t1) c t2) c t =
          some (SwingHandleInput (SwingHandleInput s c t1) c t2)) := by
  have e1 : SwingHandleInput s c t1 =
      { SwingExecThru s c t1 with swing_counter := upd s.swing_counter c 1 } := by
    unfold SwingHandleInput; rw [if_pos h0]; rfl
  have hsw1 : ¬ (SwingHandleInput s c t1).swing c ≤ SWING_FACTOR_MIN := by
    rw [e1]; exact not_le.mpr hsw
  have hc1 : (SwingHandleInput s c t1).swing_counter c = 1 := by rw [e1]; simp
  have e2 : SwingHandleInput (SwingHandleInput s c t1) c t2 =
      { SwingHandleInput s c t1 with
        exec_state := upd (SwingHandleInput s c t1).exec_state c 0
        swing_counter := upd (SwingHandleInput s c t1).swing_counter c 2 } := by
    generalize SwingHandleInput s c t1 = s1 at hsw1 hc1
    unfold SwingHandleInput
    rw [if_neg (by rw [hc1]; decide), if_pos hc1, if_neg hsw1]
  have hsw2 : (SwingHandleInput (SwingHandleInput s c t1) c t2).swing c = s.swing c := by
    rw [e2, e1]; rfl
  have hc2 : (SwingHandleInput (SwingHandleInput s c t1) c t2).swing_counter c = 2 := by
    rw [e2]; simp
  have hx2 : (SwingHandleInput (SwingHandleInput s c t1) c t2).exec_state c = 0 := by
    rw [e2]; simp
  refine ⟨⟨by rw [e1]; simp [SwingExecThru], hc1⟩, ⟨hx2, hc2⟩, ?_⟩
  generalize SwingHandleInput (SwingHandleInput s c t1) c t2 = s2 at hsw2 hc2 hx2
  obtain ⟨interval, hi, hwin⟩ := SwingInterval_defined s2 c (by rw [hsw2]; exact hsw)
    (by rw [hsw2]; exact hmax)
  have hcond : s2.swing_counter c ≥ 2 ∧ s2.swing c > SWING_FACTOR_MIN :=
    ⟨by rw [hc2], by rw [hsw2]; exact hsw⟩
  have hss : ∀ elapsed, SwingShouldStrike s2 c elapsed =
      some (decide (elapsed ≥ interval) && decide (elapsed ≤ interval + 12)) := by
    intro elapsed
    unfold SwingShouldStrike
    rw [if_pos hcond, hi]
    have e : (interval + FUNCTION_TIMING_ERROR_CORRECTION_AMOUNT) % 65536 = interval + 12 :=
      Nat.mod_eq_of_lt hwin
    simp only [u16, e]
  refine ⟨interval, hi, hwin, ?_, ?_⟩
  · intro hin
    refine ⟨SwingReset (SwingExecStrike s2 c t) c, ?_, ?_, ?_, ?_⟩
    · unfold SwingExec
      rw [hss]
      simp [hin.1, hin.2]
    · simp [SwingReset, SwingExecStrike]
    · simp [SwingReset, SwingExecStrike]
    · simp [SwingReset, SwingExecStrike]
  · intro hout
    unfold SwingExec
    rw [hss]
    have : (decide (PulseTrackerGetElapsed s2 PULSE_TRACKER_INPUT_INDEX t ≥ interval) &&
        decide (PulseTrackerGetElapsed s2 PULSE_TRACKER_INPUT_INDEX t ≤ interval + 12)) = false := by
      simpa using hout
    rw [this]

/-- C3 witness: period 100 and swing amount 60 give the interval 25; after
edges at ticks 100 and 200 the poll at tick 225 (elapsed 25) strikes. -/
theorem swing_thru_rest_then_delayed_strike_witness :
    SwingInterval (swingExample 60) 0 = some 25 ∧
    ∃ interval,
      SwingInterval (SwingHandleInput (SwingHandleInput (swingExample 60) 0 100) 0 200) 0
        = some interval ∧
      interval + 12 < 65536 ∧
      (interval ≤ PulseTrackerGetElapsed
          (SwingHandleInput (SwingHandleInput (swingExample 60) 0 100) 0 200)
          PULSE_TRACKER_INPUT_INDEX 225 ∧
        PulseTrackerGetElapsed (SwingHandleInput (SwingHandleInput (swingExample 60) 0 100) 0 200)
          PULSE_TRACKER_INPUT_INDEX 225 ≤ interval + 12 →
        ∃ s3, SwingExec (SwingHandleInput (SwingHandleInput (swingExample 60) 0 100) 0 200) 0 225
            = some s3 ∧
          s3.exec_state 0 = 2 ∧ s3.swing_counter 0 = 0 ∧ s3.channel_last_action_at 0 = u16 225) :=
  have h := swing_thru_rest_then_delayed_strike (swingExample 60) 0 100 200 225
    (by decide) (by decide) rfl
  ⟨by decide, h.2.2.imp (fun _ hi => ⟨hi.1, hi.2.1, hi.2.2.1⟩)⟩

/-! ## Chained swing -/

theorem other_ne (c : Channel) : (if c = 0 then 1 else 0 : Channel) ≠ c := by
  fin_cases c <;> decide

/-- What `FactorerExecChainedSwing` leaves alone: the INPUT tracker and the
swing phase, outcome and last-action timestamp of the other channel. -/
theorem FactorerExecChainedSwing_other (s : State) (c o : Channel) (t : Nat) (ho : o ≠ c) :
    (FactorerExecChainedSwing s c t).pulse_tracker_buffer PULSE_TRACKER_INPUT_INDEX
      = s.pulse_tracker_buffer PULSE_TRACKER_INPUT_INDEX ∧
    (FactorerExecChainedSwing s c t).swing_counter o = s.swing_counter o ∧
    (FactorerExecChainedSwing s c t).exec_state o = s.exec_state o ∧
    (FactorerExecChainedSwing s c t).channel_last_action_at o = s.channel_last_action_at o := by
  unfold FactorerExecChainedSwing SwingHandleInput PulseTrackerRecord SwingReset SwingExecStrike
    SwingExecThru
  dsimp only
  split_ifs <;> simp [upd_other _ c o _ ho]

theorem chained_or_not_other (s base : State) (c o : Channel) (t : Nat) (ho : o ≠ c)
    (h1 : base.pulse_tracker_buffer = s.pulse_tracker_buffer)
    (h2 : base.swing_counter = s.swing_counter)
    (h3 : base.exec_state o = s.exec_state o)
    (h4 : base.channel_last_action_at o = s.channel_last_action_at o) :
    (if FactorerHasChainedSwing base c then FactorerExecChainedSwing base c t
      else base).pulse_tracker_buffer PULSE_TRACKER_INPUT_INDEX
      = s.pulse_tracker_buffer PULSE_TRACKER_INPUT_INDEX ∧
    (if FactorerHasChainedSwing base c then FactorerExecChainedSwing base c t
      else base).swing_counter o = s.swing_counter o ∧
    (if FactorerHasChainedSwing base c then FactorerExecChainedSwing base c t
      else base).exec_state o = s.exec_state o ∧
    (if FactorerHasChainedSwing base c then FactorerExecChainedSwing base c t
      else base).channel_last_action_at o = s.channel_last_action_at o := by
  obtain ⟨g1, g2, g3, g4⟩ := FactorerExecChainedSwing_other base c o t ho
  split_ifs
  · exact ⟨by rw [g1, h1], by rw [g2, h2], by rw [g3, h3], by rw [g4, h4]⟩
  · exact ⟨by rw [h1], by rw [h2], h3, h4⟩

/-- The CHAIN tracker after `FactorerExecChainedSwing`: newer shifted into
older, the tick reading stored as newer. -/
theorem FactorerExecChainedSwing_chain (s : State) (c : Channel) (t : Nat) :
    (FactorerExecChainedSwing s c t).pulse_tracker_buffer PULSE_TRACKER_CHAIN_INDEX 0
      = s.pulse_tracker_buffer PULSE_TRACKER_CHAIN_INDEX 1 ∧
    (FactorerExecChainedSwing s c t).pulse_tracker_buffer PULSE_TRACKER_CHAIN_INDEX 1 = u16 t := by
  unfold FactorerExecChainedSwing SwingHandleInput PulseTrackerRecord SwingReset SwingExecStrike
    SwingExecThru
  dsimp only
  split_ifs <;> simp

theorem chained_of_other_swing (s s' : State) (c : Channel)
    (hs' : s'.channel_function_ = s.channel_function_)
    (hsw : s.channel_function_ (if c = 0 then 1 else 0) = CHANNEL_FUNCTION_SWING) :
    FactorerHasChainedSwing s' c = true := by
  simp only [FactorerHasChainedSwing, hs', hsw, decide_True]

theorem not_chained_of_other_not_swing (s s' : State) (c : Channel)
    (hs' : s'.channel_function_ = s.channel_function_)
    (hsw : s.channel_function_ (if c = 0 then 1 else 0) ≠ CHANNEL_FUNCTION_SWING) :
    ¬ FactorerHasChainedSwing s' c = true := by
  simp only [FactorerHasChainedSwing, hs', hsw, decide_False, not_false_eq_true,
    Bool.false_eq_true]

theorem MultiplyExecThru_chained (s : State) (c : Channel) (t : Nat)
    (hsw : s.channel_function_ (if c = 0 then 1 else 0) = CHANNEL_FUNCTION_SWING) :
    MultiplyExecThru s c t = FactorerExecChainedSwing
      { s with exec_state := upd s.exec_state c 1
               channel_last_action_at := upd s.channel_last_action_at c (u16 t) } c t := by
  unfold MultiplyExecThru
  dsimp only
  rw [if_pos]
  exact chained_of_other_swing s _ c rfl hsw

theorem MultiplyExecStrike_chained (s : State) (c : Channel) (t : Nat)
    (hsw : s.channel_function_ (if c = 0 then 1 else 0) = CHANNEL_FUNCTION_SWING) :
    MultiplyExecStrike s c t = FactorerExecChainedSwing
      { s with channel_last_action_at := upd s.channel_last_action_at c (u16 t)
               exec_state := upd s.exec_state c 2
               multiply_is_debouncing := upd s.multiply_is_debouncing c true } c t := by
  unfold MultiplyExecStrike
  dsimp only
  rw [if_pos]
  exact chained_of_other_swing s _ c rfl hsw

theorem DivideExecStrike_chained (s : State) (c : Channel) (t : Nat)
    (hsw : s.channel_function_ (if c = 0 then 1 else 0) = CHANNEL_FUNCTION_SWING) :
    DivideExecStrike s c t = FactorerExecChainedSwing
      { s with channel_last_action_at := upd s.channel_last_action_at c (u16 t)
               exec_state := upd s.exec_state c 2 } c t := by
  unfold DivideExecStrike
  dsimp only
  rw [if_pos]
  exact chained_of_other_swing s _ c rfl hsw

theorem MultiplyExecThru_unchained (s : State) (c : Channel) (t : Nat)
    (hsw : s.channel_function_ (if c = 0 then 1 else 0) ≠ CHANNEL_FUNCTION_SWING) :
    MultiplyExecThru s c t =
      { s with exec_state := upd s.exec_state c 1
               channel_last_action_at := upd s.channel_last_action_at c (u16 t) } := by
  unfold MultiplyExecThru
  dsimp only
  rw [if_neg]
  exact not_chained_of_other_not_swing s _ c rfl hsw

theorem MultiplyExecStrike_unchained (s : State) (c : Channel) (t : Nat)
    (hsw : s.channel_function_ (if c = 0 then 1 else 0) ≠ CHANNEL_FUNCTION_SWING) :
    MultiplyExecStrike s c t =
      { s with channel_last_action_at := upd s.channel_last_action_at c (u16 t)
               exec_state := upd s.exec_state c 2
               multiply_is_debouncing := upd s.multiply_is_debouncing c true } := by
  unfold MultiplyExecStrike
  dsimp only
  rw [if_neg]
  exact not_chained_of_other_not_swing s _ c rfl hsw

theorem DivideExecStrike_unchained (s : State) (c : Channel) (t : Nat)
    (hsw : s.channel_function_ (if c = 0 then 1 else 0) ≠ CHANNEL_FUNCTION_SWING) :
    DivideExecStrike s c t =
      { s with channel_last_action_at := upd s.channel_last_action_at c (u16 t)
               exec_state := upd s.exec_state c 2 } := by
  unfold DivideExecStrike
  dsimp only
  rw [if_neg]
  exact not_chained_of_other_not_swing s _ c rfl hsw

/-- C9: chained swing.  Each factorer outcome of channel `c`
(`MultiplyExecThru`, `MultiplyExecStrike`, `DivideExecStrike`) first stores its
own outcome and last-action timestamp.  If the other channel runs the swing
function, it then records the tick into the CHAIN tracker (newer shifted to
older, the tick stored as newer) and applies `SwingHandleInput` to channel `c`;
if the other channel does not, nothing more happens: the CHAIN tracker and the
swing phase of channel `c` are unchanged.  In both cases the INPUT tracker and
the swing phase, outcome and last-action timestamp of the other channel are
unchanged. -/
theorem chained_swing_mechanism (s : State) (c : Channel) (t : Nat) :
    (s.channel_function_ (if c = 0 then 1 else 0) = CHANNEL_FUNCTION_SWING →
      (MultiplyExecThru s c t =
          SwingHandleInput (PulseTrackerRecord
            { s with exec_state := upd s.exec_state c 1
                     channel_last_action_at := upd s.channel_last_action_at c (u16 t) }
            PULSE_TRACKER_CHAIN_INDEX t) c t ∧
        MultiplyExecStrike s c t =
          SwingHandleInput (PulseTrackerRecord
            { s with channel_last_action_at := upd s.channel_last_action_at c (u16 t)
                     exec_state := upd s.exec_state c 2
                     multiply_is_debouncing := upd s.multiply_is_debouncing c true }
            PULSE_TRACKER_CHAIN_INDEX t) c t ∧
        DivideExecStrike s c t =
          SwingHandleInput (PulseTrackerRecord
            { s with channel_last_action_at := upd s.channel_last_action_at c (u16 t)
                     exec_state := upd s.exec_state c 2 }
            PULSE_TRACKER_CHAIN_INDEX t) c t) ∧
      ∀ f ∈ [MultiplyExecThru, MultiplyExecStrike, DivideExecStrike],
        (f s c t).pulse_tracker_buffer PULSE_TRACKER_CHAIN_INDEX 0
          = s.pulse_tracker_buffer PULSE_TRACKER_CHAIN_INDEX 1 ∧
        (f s c t).pulse_tracker_buffer PULSE_TRACKER_CHAIN_INDEX 1 = u16 t ∧
        (f s c t).swing_counter c = (SwingHandleInput s c t).swing_counter c) ∧
    (s.channel_function_ (if c = 0 then 1 else 0) ≠ CHANNEL_FUNCTION_SWING →
      (MultiplyExecThru s c t =
          { s with exec_state := upd s.exec_state c 1
                   channel_last_action_at := upd s.channel_last_action_at c (u16 t) } ∧
        MultiplyExecStrike s c t =
          { s with channel_last_action_at := upd s.channel_last_action_at c (u16 t)
                   exec_state := upd s.exec_state c 2
                   multiply_is_debouncing := upd s.multiply_is_debouncing c true } ∧
        DivideExecStrike s c t =
          { s with channel_last_action_at := upd s.channel_last_action_at c (u16 t)
                   exec_state := upd s.exec_state c 2 }) ∧
      ∀ f ∈ [MultiplyExecThru, MultiplyExecStrike, DivideExecStrike],
        (f s c t).pulse_tracker_buffer PULSE_TRACKER_CHAIN_INDEX
          = s.pulse_tracker_buffer PULSE_TRACKER_CHAIN_INDEX ∧
        (f s c t).swing_counter = s.swing_counter) ∧
    (∀ f ∈ [MultiplyExecThru, MultiplyExecStrike, DivideExecStrike],
      (f s c t).pulse_tracker_buffer PULSE_TRACKER_INPUT_INDEX
        = s.pulse_tracker_buffer PULSE_TRACKER_INPUT_INDEX ∧
      (f s c t).swing_counter (if c = 0 then 1 else 0) = s.swing_counter (if c = 0 then 1 else 0) ∧
      (f s c t).exec_state (if c = 0 then 1 else 0) = s.exec_state (if c = 0 then 1 else 0) ∧
      (f s c t).channel_last_action_at (if c = 0 then 1 else 0)
        = s.channel_last_action_at (if c = 0 then 1 else 0)) := by
  have ho := other_ne c
  refine ⟨?_, ?_, ?_⟩
  · intro hsw
    have e1 := MultiplyExecThru_chained s c t hsw
    have e2 := MultiplyExecStrike_chained s c t hsw
    have e3 := DivideExecStrike_chained s c t hsw
    unfold FactorerExecChainedSwing at e1 e2 e3
    refine ⟨⟨e1, e2, e3⟩, ?_⟩
    intro f hf
    simp only [List.mem_cons, List.mem_singleton, List.not_mem_nil, or_false] at hf
    have hsc : ∀ s' : State, s'.swing_counter = s.swing_counter → s'.swing = s.swing →
        (FactorerExecChainedSwing s' c t).swing_counter c = (SwingHandleInput s c t).swing_counter c := by
      intro s' h1 h2
      unfold FactorerExecChainedSwing SwingHandleInput PulseTrackerRecord SwingReset
        SwingExecStrike SwingExecThru
      dsimp only
      rw [h1, h2]
      split_ifs <;> simp
    rcases hf with hf | hf | hf <;> subst hf
    · rw [e1]; exact ⟨(FactorerExecChainedSwing_chain _ c t).1,
        (FactorerExecChainedSwing_chain _ c t).2, hsc _ rfl rfl⟩
    · rw [e2]; exact ⟨(FactorerExecChainedSwing_chain _ c t).1,
        (FactorerExecChainedSwing_chain _ c t).2, hsc _ rfl rfl⟩
    · rw [e3]; exact ⟨(FactorerExecChainedSwing_chain _ c t).1,
        (FactorerExecChainedSwing_chain _ c t).2, hsc _ rfl rfl⟩
  · intro hsw
    have e1 := MultiplyExecThru_unchained s c t hsw
    have e2 := MultiplyExecStrike_unchained s c t hsw
    have e3 := DivideExecStrike_unchained s c t hsw
    refine ⟨⟨e1, e2, e3⟩, ?_⟩
    intro f hf
    simp only [List.mem_cons, List.mem_singleton, List.not_mem_nil, or_false] at hf
    rcases hf with hf | hf | hf <;> subst hf
    · rw [e1]; exact ⟨rfl, rfl⟩
    · rw [e2]; exact ⟨rfl, rfl⟩
    · rw [e3]; exact ⟨rfl, rfl⟩
  · intro f hf
    simp only [List.mem_cons, List.mem_singleton, List.not_mem_nil, or_false] at hf
    rcases hf with hf | hf | hf <;> subst hf
    · exact chained_or_not_other s
        { s with exec_state := upd s.exec_state c 1
                 channel_last_action_at := upd s.channel_last_action_at c (u16 t) }
        c _ t ho rfl rfl (upd_other _ c _ _ ho) (upd_other _ c _ _ ho)
    · exact chained_or_not_other s
        { s with channel_last_action_at := upd s.channel_last_action_at c (u16 t)
                 exec_state := upd s.exec_state c 2
                 multiply_is_debouncing := upd s.multiply_is_debouncing c true }
        c _ t ho rfl rfl (upd_other _ c _ _ ho) (upd_other _ c _ _ ho)
    · exact chained_or_not_other s
        { s with channel_last_action_at := upd s.channel_last_action_at c (u16 t)
                 exec_state := upd s.exec_state c 2 }
        c _ t ho rfl rfl (upd_other _ c _ _ ho) (upd_other _ c _ _ ho)

/-! ## Divided outputs -/

theorem divide_edge_fields (s : State) (c : Channel) (t : Nat)
    (hen : DivideIsEnabled s c = true) (hs : DivideShouldStrike s c = true) :
    (FactorerHandleInputGateRisingEdge s c t).exec_state = (DivideExecStrike s c t).exec_state ∧
    (FactorerHandleInputGateRisingEdge s c t).channel_function_
      = (DivideExecStrike s c t).channel_function_ ∧
    (FactorerHandleInputGateRisingEdge s c t).factor = (DivideExecStrike s c t).factor := by
  unfold FactorerHandleInputGateRisingEdge
  rw [if_pos hen]
  dsimp only
  rw [if_pos hs]
  split_ifs <;> exact ⟨rfl, rfl, rfl⟩

/-- C8 counterexample: in the power-on configuration (channel 0 swing, channel
1 factorer) with divide factor 3, the first input edge on channel 1 makes the
divider fire, yet the outcome of channel 1 is pass-through (1), and
`FunctionExec` then shows the thru LED state (1) with the thru duration. -/
theorem divided_output_thru_when_chained :
    DivideIsEnabled chainedDivideExample 1 = true ∧
    DivideShouldStrike chainedDivideExample 1 = true ∧
    (FactorerHandleInputGateRisingEdge chainedDivideExample 1 100).exec_state 1 = 1 ∧
    (FunctionExec (FactorerHandleInputGateRisingEdge chainedDivideExample 1 100) 1 100).map
      (fun s => (s.gate_out 1, s.led_state 1, s.led_gate_duration 1))
      = some (true, 1, LED_THRU_GATE_DURATION) := by
  decide

/-- C8 as amended: on a factorer channel in divide mode whose divider fires on
an input edge, if the other channel does not run the swing function the
outcome after the edge handler is a strike (2), and `FunctionExec` then sets
the gate high and the strike LED state (2) with the strike duration; if the
other channel runs the swing function the outcome is the one chosen by
`SwingHandleInput` from the swing phase of the channel: pass-through (1) at
phase 0, at phase 1 a strike (2) for a swing amount of at most 50 and no
outcome (0) above 50, and the strike (2) of the divider at any other phase. -/
theorem divided_output_strike_unless_chained (s : State) (c : Channel) (t t' : Nat)
    (hfun : s.channel_function_ c = CHANNEL_FUNCTION_FACTORER)
    (hen : DivideIsEnabled s c = true) (hs : DivideShouldStrike s c = true) :
    (s.channel_function_ (if c = 0 then 1 else 0) ≠ CHANNEL_FUNCTION_SWING →
      (FactorerHandleInputGateRisingEdge s c t).exec_state c = 2 ∧
      ∃ s', FunctionExec (FactorerHandleInputGateRisingEdge s c t) c t' = some s' ∧
        s'.gate_out c = true ∧ s'.led_state c = 2 ∧
        s'.led_gate_duration c = LED_FACTORED_GATE_DURATION) ∧
    (s.channel_function_ (if c = 0 then 1 else 0) = CHANNEL_FUNCTION_SWING →
      (FactorerHandleInputGateRisingEdge s c t).exec_state c =
        if s.swing_counter c = 0 then 1
        else if s.swing_counter c = 1 then (if s.swing c ≤ SWING_FACTOR_MIN then 2 else 0)
        else 2) := by
  obtain ⟨hex, hcf, hfa⟩ := divide_edge_fields s c t hen hs
  have hfac : s.factor c > 0 := by simpa [DivideIsEnabled] using hen
  constructor
  · intro hother
    have hd := DivideExecStrike_unchained s c t hother
    have hx : (FactorerHandleInputGateRisingEdge s c t).exec_state c = 2 := by
      rw [hex, hd]; simp
    refine ⟨hx, ?_⟩
    have hf2 : (FactorerHandleInputGateRisingEdge s c t).channel_function_ c
        = CHANNEL_FUNCTION_FACTORER := by
      rw [hcf, hd]; exact hfun
    have hfac2 : ¬ (FactorerHandleInputGateRisingEdge s c t).factor c < 0 := by
      rw [hfa, hd]; exact not_lt.mpr (le_of_lt hfac)
    generalize FactorerHandleInputGateRisingEdge s c t = s1 at hx hf2 hfac2
    unfold FunctionExec FunctionExecPoll
    simp only [hf2, MultiplyExec, MultiplyIsEnabled, hfac2, decide_False, Bool.false_and,
      Bool.false_eq_true, if_false]
    simp [FunctionExecOutput, GateOutputOn, LedExecStrike, hx]
  · intro hother
    have hd := DivideExecStrike_chained s c t hother
    rw [hex, hd]
    unfold FactorerExecChainedSwing SwingHandleInput PulseTrackerRecord SwingReset SwingExecStrike SwingExecThru
    dsimp only
    split_ifs <;> simp

/-- C8 witness: both channels factorer, divide factor 3, first edge on channel 0. -/
theorem divided_output_strike_unless_chained_witness :
    (FactorerHandleInputGateRisingEdge divideExample 0 100).exec_state 0 = 2 ∧
    ∃ s', FunctionExec (FactorerHandleInputGateRisingEdge divideExample 0 100) 0 101 = some s' ∧
      s'.gate_out 0 = true ∧ s'.led_state 0 = 2 ∧
      s'.led_gate_duration 0 = LED_FACTORED_GATE_DURATION :=
  (divided_output_strike_unless_chained divideExample 0 100 101 rfl (by decide) (by decide)).1
    (by decide)

/-! ## Multiply mode and the input edge -/

/-- C7, the code at the failing input: channel 1 is a factorer with factor -2
and no chained swing, the second input edge arrives at tick 200 (period 100).
`ChannelStateUpdate` sets the outcome to pass-through (1), but `FunctionExec`
in the same pass polls `MultiplyExec` at elapsed 0, which strikes: the gate is
high and the LED state is the strike state (2, red) with the strike duration.
The whole pass `Loop` ends the same way. -/
theorem multiply_edge_shown_as_strike :
    FactorerHasChainedSwing multiplyExample 1 = false ∧
    (ChannelStateUpdate (PulseTrackerRecord multiplyExample PULSE_TRACKER_INPUT_INDEX 200)
      1 true false (fun _ => 0) 200).exec_state 1 = 1 ∧
    (FunctionExec (ChannelStateUpdate
        (PulseTrackerRecord multiplyExample PULSE_TRACKER_INPUT_INDEX 200)
        1 true false (fun _ => 0) 200) 1 200).map
      (fun s => (s.gate_out 1, s.led_state 1, s.led_gate_duration 1))
      = some (true, 2, LED_FACTORED_GATE_DURATION) ∧
    (Loop multiplyExample edgeAt200).map (fun s => (s.gate_out 1, s.led_state 1, s.led_pin 1))
      = some (true, 2, LedColor.red) := by
  decide

/-! ## Overflow guard -/

theorem ClockHandleOverflow_effect (s : State) :
    (∀ id k, (ClockHandleOverflow s).pulse_tracker_buffer id k = 0) ∧
    (∀ i, (ClockHandleOverflow s).button_is_inhibited i = false) ∧
    (∀ i, (ClockHandleOverflow s).button_last_press_at i = 0) ∧
    (ClockHandleOverflow s).button_state = s.button_state ∧
    (ClockHandleOverflow s).swing = s.swing := by
  unfold ClockHandleOverflow ClockHandleOverflowChannel PulseTrackerClear
  refine ⟨?_, ?_, ?_, rfl, rfl⟩
  · intro id k; fin_cases id <;> fin_cases k <;> simp [upd]
  · intro i; fin_cases i <;> simp [upd]
  · intro i; fin_cases i <;> simp [upd]

theorem sub16_zero (t : Nat) : sub16 t 0 = u16 t := by
  unfold sub16 u16; omega

theorem ButtonsScanAndExecChannel_effect (s : State) (i : Channel) (b : Bool) (t : Nat) :
    (ButtonsScanAndExecChannel s i b t).pulse_tracker_buffer = s.pulse_tracker_buffer ∧
    (ButtonsScanAndExecChannel s i b t).swing = s.swing ∧
    (∀ j, j ≠ i →
      (ButtonsScanAndExecChannel s i b t).button_is_inhibited j = s.button_is_inhibited j ∧
      (ButtonsScanAndExecChannel s i b t).button_state j = s.button_state j ∧
      (ButtonsScanAndExecChannel s i b t).button_last_press_at j = s.button_last_press_at j) ∧
    (s.button_is_inhibited i = false → s.button_last_press_at i = 0 →
      (ButtonsScanAndExecChannel s i b t).button_is_inhibited i =
        (s.button_state i && decide (u16 t ≥ BUTTON_LONG_PRESS_DURATION))) := by
  unfold ButtonsScanAndExecChannel ButtonIsNewState ButtonHandleNewlyPressed SystemStateSave
    ChannelFunctionToggle FunctionReset DivideReset SwingReset
  refine ⟨?_, ?_, ?_, ?_⟩
  · cases hb : s.button_state i <;> cases b <;> cases hf : s.channel_function_ i <;>
      simp [hb, hf] <;> split_ifs <;> rfl
  · cases hb : s.button_state i <;> cases b <;> cases hf : s.channel_function_ i <;>
      simp [hb, hf] <;> split_ifs <;> rfl
  · intro j hj
    cases hb : s.button_state i <;> cases b <;> cases hf : s.channel_function_ i <;>
      simp [hb, hf, hj] <;> split_ifs <;> simp [hj]
  · intro hi hl
    cases hb : s.button_state i <;> cases b <;> cases hf : s.channel_function_ i <;>
      simp [hb, hf, hi, hl, sub16_zero] <;> split_ifs <;> simp [*]

theorem SwingHandleInput_keeps (s : State) (c : Channel) (t : Nat) :
    (SwingHandleInput s c t).pulse_tracker_buffer = s.pulse_tracker_buffer ∧
    (SwingHandleInput s c t).channel_function_ = s.channel_function_ ∧
    (SwingHandleInput s c t).button_is_inhibited = s.button_is_inhibited ∧
    (SwingHandleInput s c t).swing = s.swing := by
  unfold SwingHandleInput SwingReset SwingExecStrike SwingExecThru
  dsimp only
  split_ifs <;> exact ⟨rfl, rfl, rfl, rfl⟩

theorem chained_or_not_keeps (base : State) (c : Channel) (t : Nat) :
    (if FactorerHasChainedSwing base c then FactorerExecChainedSwing base c t
      else base).pulse_tracker_buffer PULSE_TRACKER_INPUT_INDEX
      = base.pulse_tracker_buffer PULSE_TRACKER_INPUT_INDEX ∧
    (if FactorerHasChainedSwing base c then FactorerExecChainedSwing base c t
      else base).channel_function_ = base.channel_function_ ∧
    (if FactorerHasChainedSwing base c then FactorerExecChainedSwing base c t
      else base).button_is_inhibited = base.button_is_inhibited ∧
    (if FactorerHasChainedSwing base c then FactorerExecChainedSwing base c t
      else base).swing = base.swing ∧
    ((if FactorerHasChainedSwing base c then FactorerExecChainedSwing base c t
        else base).pulse_tracker_buffer PULSE_TRACKER_CHAIN_INDEX
        = base.pulse_tracker_buffer PULSE_TRACKER_CHAIN_INDEX ∨
      (base.channel_function_ (if c = 0 then 1 else 0) = CHANNEL_FUNCTION_SWING ∧
        (if FactorerHasChainedSwing base c then FactorerExecChainedSwing base c t
          else base).pulse_tracker_buffer PULSE_TRACKER_CHAIN_INDEX 0
          = base.pulse_tracker_buffer PULSE_TRACKER_CHAIN_INDEX 1)) := by
  by_cases h : FactorerHasChainedSwing base c = true
  · simp only [h, if_true]
    obtain ⟨k1, k2, k3, k4⟩ := SwingHandleInput_keeps
      (PulseTrackerRecord base PULSE_TRACKER_CHAIN_INDEX t) c t
    refine ⟨?_, ?_, ?_, ?_, Or.inr ⟨?_, (FactorerExecChainedSwing_chain base c t).1⟩⟩
    · unfold FactorerExecChainedSwing; rw [k1]; simp [PulseTrackerRecord, upd]
    · unfold FactorerExecChainedSwing; rw [k2]; rfl
    · unfold FactorerExecChainedSwing; rw [k3]; rfl
    · unfold FactorerExecChainedSwing; rw [k4]; rfl
    · simpa [FactorerHasChainedSwing] using h
  · simp only [h]
    exact ⟨rfl, rfl, rfl, rfl, Or.inl rfl⟩

theorem FunctionHandleInputGateRisingEdge_effect (s : State) (i : Channel) (t : Nat) :
    (FunctionHandleInputGateRisingEdge s i t).pulse_tracker_buffer PULSE_TRACKER_INPUT_INDEX
      = s.pulse_tracker_buffer PULSE_TRACKER_INPUT_INDEX ∧
    (FunctionHandleInputGateRisingEdge s i t).channel_function_ = s.channel_function_ ∧
    (FunctionHandleInputGateRisingEdge s i t).button_is_inhibited = s.button_is_inhibited ∧
    (FunctionHandleInputGateRisingEdge s i t).swing = s.swing ∧
    ((FunctionHandleInputGateRisingEdge s i t).pulse_tracker_buffer PULSE_TRACKER_CHAIN_INDEX
        = s.pulse_tracker_buffer PULSE_TRACKER_CHAIN_INDEX ∨
      (s.channel_function_ i = CHANNEL_FUNCTION_FACTORER ∧
        s.channel_function_ (if i = 0 then 1 else 0) = CHANNEL_FUNCTION_SWING ∧
        (FunctionHandleInputGateRisingEdge s i t).pulse_tracker_buffer PULSE_TRACKER_CHAIN_INDEX 0
          = s.pulse_tracker_buffer PULSE_TRACKER_CHAIN_INDEX 1)) := by
  unfold FunctionHandleInputGateRisingEdge
  cases hf : s.channel_function_ i
  · dsimp only
    have hd := chained_or_not_keeps
      { s with channel_last_action_at := upd s.channel_last_action_at i (u16 t)
               exec_state := upd s.exec_state i 2 } i t
    have hm := chained_or_not_keeps
      { s with exec_state := upd s.exec_state i 1
               channel_last_action_at := upd s.channel_last_action_at i (u16 t) } i t
    change (DivideExecStrike s i t).pulse_tracker_buffer _ = _ ∧ (DivideExecStrike s i t).channel_function_ = _ ∧
      (DivideExecStrike s i t).button_is_inhibited = _ ∧ (DivideExecStrike s i t).swing = _ ∧
      ((DivideExecStrike s i t).pulse_tracker_buffer _ = _ ∨ _ ∧ (DivideExecStrike s i t).pulse_tracker_buffer _ _ = _) at hd
    change (MultiplyExecThru s i t).pulse_tracker_buffer _ = _ ∧ (MultiplyExecThru s i t).channel_function_ = _ ∧
      (MultiplyExecThru s i t).button_is_inhibited = _ ∧ (MultiplyExecThru s i t).swing = _ ∧
      ((MultiplyExecThru s i t).pulse_tracker_buffer _ = _ ∨ _ ∧ (MultiplyExecThru s i t).pulse_tracker_buffer _ _ = _) at hm
    obtain ⟨d1, d2, d3, d4, d5⟩ := hd
    obtain ⟨m1, m2, m3, m4, m5⟩ := hm
    revert d5 m5
    generalize (if i = 0 then 1 else 0 : Channel) = o
    intro d5 m5
    unfold FactorerHandleInputGateRisingEdge DivideReset
    dsimp only
    split_ifs
    · exact ⟨d1, d2, d3, d4, d5.imp id (fun h => ⟨rfl, h⟩)⟩
    · exact ⟨d1, d2, d3, d4, d5.imp id (fun h => ⟨rfl, h⟩)⟩
    · exact ⟨rfl, rfl, rfl, rfl, Or.inl rfl⟩
    · exact ⟨rfl, rfl, rfl, rfl, Or.inl rfl⟩
    · exact ⟨m1, m2, m3, m4, m5.imp id (fun h => ⟨rfl, h⟩)⟩
  · dsimp only
    obtain ⟨k1, k2, k3, k4⟩ := SwingHandleInput_keeps s i t
    unfold SwingHandleInputGateRisingEdge
    exact ⟨by rw [k1], k2, k3, k4, Or.inl (by rw [k1])⟩
  · exact ⟨rfl, rfl, rfl, rfl, Or.inl rfl⟩

theorem AdcHasNewValue_cases (s : State) (i : Channel) (r : Fin 2 → Nat) :
    AdcHasNewValue s i r = (false, s) ∨
    ∃ v : Int, 0 ≤ v ∧ v ≤ 250 ∧
      AdcHasNewValue s i r = (true, { s with adc_value := upd s.adc_value i v }) := by
  unfold AdcHasNewValue
  dsimp only
  split_ifs <;>
    first
    | exact Or.inl rfl
    | exact Or.inr ⟨0, le_refl _, by decide, rfl⟩
    | exact Or.inr ⟨250, by decide, le_refl _, rfl⟩
    | exact Or.inr ⟨_, by omega, by simp only [ADC_MAX_VALUE] at *; omega, rfl⟩

theorem SwingGet_range (s : State) (i : Channel) (h0 : 0 ≤ s.adc_value i)
    (h1 : s.adc_value i ≤ 250) :
    SWING_FACTOR_MIN ≤ SwingGet s i ∧ SwingGet s i ≤ SWING_FACTOR_MAX := by
  have hd : Int.tdiv ADC_MAX_VALUE (SWING_FACTOR_MAX - SWING_FACTOR_MIN) = 12 := by decide
  have ht : Int.tdiv (s.adc_value i) 12 = s.adc_value i / 12 := Int.tdiv_eq_ediv h0 (by decide)
  unfold SwingGet
  rw [hd, ht]
  simp only [toInt16, SWING_FACTOR_MIN, SWING_FACTOR_MAX]
  omega

theorem adc_update_effect (s : State) (i : Channel) (r : Fin 2 → Nat) :
    ∃ s0, (∀ (is_trig is_reset : Bool) (t : Nat),
        ChannelStateUpdate s i is_trig is_reset r t =
          if is_reset = true then
            FunctionReset (if is_trig = true then FunctionHandleInputGateRisingEdge s0 i t else s0) i
          else (if is_trig = true then FunctionHandleInputGateRisingEdge s0 i t else s0)) ∧
      s0.pulse_tracker_buffer = s.pulse_tracker_buffer ∧
      s0.channel_function_ = s.channel_function_ ∧
      s0.button_is_inhibited = s.button_is_inhibited ∧
      (∀ j, j ≠ i → s0.swing j = s.swing j) ∧
      (s.swing i ≤ 1000 → s0.swing i ≤ 1000) := by
  rcases AdcHasNewValue_cases s i r with h | ⟨v, hv0, hv1, h⟩
  · refine ⟨s, ?_, rfl, rfl, rfl, fun _ _ => rfl, id⟩
    intro is_trig is_reset t
    unfold ChannelStateUpdate
    rw [h]
  · refine ⟨FunctionHandleNewAdcValue { s with adc_value := upd s.adc_value i v } i, ?_, ?_⟩
    · intro is_trig is_reset t
      unfold ChannelStateUpdate
      rw [h]
    have hr := SwingGet_range { s with adc_value := upd s.adc_value i v } i
      (by simpa using hv0) (by simpa using hv1)
    unfold FunctionHandleNewAdcValue
    cases hf : s.channel_function_ i
    · exact ⟨rfl, rfl, rfl, fun _ _ => rfl, id⟩
    · refine ⟨rfl, rfl, rfl, fun j hj => ?_, fun _ => ?_⟩
      · simp [hj]
      · dsimp only
        rw [upd_same]
        exact le_trans hr.2 (by decide)
    · exact ⟨rfl, rfl, rfl, fun _ _ => rfl, id⟩

theorem FunctionReset_keeps (s : State) (i : Channel) :
    (FunctionReset s i).pulse_tracker_buffer = s.pulse_tracker_buffer ∧
    (FunctionReset s i).channel_function_ = s.channel_function_ ∧
    (FunctionReset s i).button_is_inhibited = s.button_is_inhibited ∧
    (FunctionReset s i).swing = s.swing := by
  unfold FunctionReset DivideReset SwingReset
  cases s.channel_function_ i <;> exact ⟨rfl, rfl, rfl, rfl⟩

theorem ChannelStateUpdate_effect (s : State) (i : Channel) (is_trig is_reset : Bool)
    (r : Fin 2 → Nat) (t : Nat) :
    (ChannelStateUpdate s i is_trig is_reset r t).pulse_tracker_buffer PULSE_TRACKER_INPUT_INDEX
      = s.pulse_tracker_buffer PULSE_TRACKER_INPUT_INDEX ∧
    (ChannelStateUpdate s i is_trig is_reset r t).channel_function_ = s.channel_function_ ∧
    (ChannelStateUpdate s i is_trig is_reset r t).button_is_inhibited = s.button_is_inhibited ∧
    (∀ j, j ≠ i → (ChannelStateUpdate s i is_trig is_reset r t).swing j = s.swing j) ∧
    (s.swing i ≤ 1000 → (ChannelStateUpdate s i is_trig is_reset r t).swing i ≤ 1000) ∧
    ((ChannelStateUpdate s i is_trig is_reset r t).pulse_tracker_buffer PULSE_TRACKER_CHAIN_INDEX
        = s.pulse_tracker_buffer PULSE_TRACKER_CHAIN_INDEX ∨
      (s.channel_function_ i = CHANNEL_FUNCTION_FACTORER ∧
        s.channel_function_ (if i = 0 then 1 else 0) = CHANNEL_FUNCTION_SWING ∧
        (ChannelStateUpdate s i is_trig is_reset r t).pulse_tracker_buffer
          PULSE_TRACKER_CHAIN_INDEX 0 = s.pulse_tracker_buffer PULSE_TRACKER_CHAIN_INDEX 1)) := by
  obtain ⟨s0, h0, a1, a2, a3, a4, a5⟩ := adc_update_effect s i r
  rw [h0]
  obtain ⟨e1, e2, e3, e4, e5⟩ := FunctionHandleInputGateRisingEdge_effect s0 i t
  have hs1 : ∃ s1, (if is_trig = true then FunctionHandleInputGateRisingEdge s0 i t else s0) = s1 ∧
      s1.pulse_tracker_buffer PULSE_TRACKER_INPUT_INDEX
        = s.pulse_tracker_buffer PULSE_TRACKER_INPUT_INDEX ∧
      s1.channel_function_ = s.channel_function_ ∧
      s1.button_is_inhibited = s.button_is_inhibited ∧
      s1.swing = s0.swing ∧
      (s1.pulse_tracker_buffer PULSE_TRACKER_CHAIN_INDEX
          = s.pulse_tracker_buffer PULSE_TRACKER_CHAIN_INDEX ∨
        (s.channel_function_ i = CHANNEL_FUNCTION_FACTORER ∧
          s.channel_function_ (if i = 0 then 1 else 0) = CHANNEL_FUNCTION_SWING ∧
          s1.pulse_tracker_buffer PULSE_TRACKER_CHAIN_INDEX 0
            = s.pulse_tracker_buffer PULSE_TRACKER_CHAIN_INDEX 1)) := by
    cases is_trig
    · exact ⟨s0, by simp, by rw [a1], a2, a3, rfl, Or.inl (by rw [a1])⟩
    · refine ⟨FunctionHandleInputGateRisingEdge s0 i t, by simp, by rw [e1, a1], by rw [e2, a2],
        by rw [e3, a3], e4, ?_⟩
      rw [a2, a1] at e5
      exact e5
  obtain ⟨s1, h1, b1, b2, b3, b4, b5⟩ := hs1
  rw [h1]
  obtain ⟨r1, r2, r3, r4⟩ := FunctionReset_keeps s1 i
  cases is_reset
  · simp only [Bool.false_eq_true, if_false]
    exact ⟨b1, b2, b3, fun j hj => by rw [b4]; exact a4 j hj, fun h => by rw [b4]; exact a5 h, b5⟩
  · simp only [if_true]
    refine ⟨by rw [r1, b1], by rw [r2, b2], by rw [r3, b3], fun j hj => ?_, fun h => ?_, ?_⟩
    · rw [r4, b4]; exact a4 j hj
    · rw [r4, b4]; exact a5 h
    · rw [r1]; exact b5

theorem swing_divisor_ne_zero (sw : Int) (h : 50 < sw) (h' : sw ≤ 1000) :
    intToU16 (Int.tdiv 1000 sw) ≠ 0 := by
  rw [Int.tdiv_eq_ediv (by decide) (by omega)]
  have q1 : 1 ≤ 1000 / sw := Int.le_ediv_of_mul_le (by omega) (by omega)
  have q2 : 1000 / sw ≤ 1000 := Int.ediv_le_self _ (by decide)
  unfold intToU16
  omega

theorem SwingExec_defined (u : State) (i : Channel) (t : Nat) (hsw : u.swing i ≤ 1000) :
    ∃ p, SwingExec u i t = some p ∧ (p = u ∨ p = SwingReset (SwingExecStrike u i t) i) := by
  unfold SwingExec SwingShouldStrike
  by_cases hc : u.swing_counter i ≥ 2 ∧ u.swing i > SWING_FACTOR_MIN
  · rw [if_pos hc]
    have hne : u.swing i ≠ 0 := by
      intro h0; rw [h0] at hc; exact absurd hc.2 (by decide)
    have hd := swing_divisor_ne_zero (u.swing i) hc.2 hsw
    unfold SwingInterval
    simp only [hne, if_false, hd]
    split
    · rename_i h; simp at h
    · exact ⟨_, rfl, Or.inr rfl⟩
    · exact ⟨_, rfl, Or.inl rfl⟩
  · rw [if_neg hc]
    exact ⟨_, rfl, Or.inl rfl⟩

theorem MultiplyExec_unpopulated (u : State) (i : Channel) (t : Nat)
    (hin : u.pulse_tracker_buffer PULSE_TRACKER_INPUT_INDEX 0 = 0) :
    MultiplyExec u i t = some u := by
  unfold MultiplyExec
  have : MultiplyIsPossible u i = false := by
    simp [MultiplyIsPossible, PulseTrackerIsPopulated, hin]
  rw [this]
  simp

theorem LedUpdate_keeps (s : State) (i : Channel) :
    (LedUpdate s i).pulse_tracker_buffer = s.pulse_tracker_buffer ∧
    (LedUpdate s i).channel_function_ = s.channel_function_ ∧
    (LedUpdate s i).button_is_inhibited = s.button_is_inhibited ∧
    (LedUpdate s i).swing = s.swing := by
  unfold LedUpdate LedOff LedGreen LedRed
  dsimp only
  split_ifs <;> (split <;> exact ⟨rfl, rfl, rfl, rfl⟩)

theorem FunctionExecOutput_keeps (p : State) (i : Channel) :
    (FunctionExecOutput p i).pulse_tracker_buffer = p.pulse_tracker_buffer ∧
    (FunctionExecOutput p i).channel_function_ = p.channel_function_ ∧
    (FunctionExecOutput p i).button_is_inhibited = p.button_is_inhibited ∧
    (FunctionExecOutput p i).swing = p.swing := by
  unfold FunctionExecOutput LedExecThru LedExecStrike GateOutputOn GateOutputOff
  dsimp only
  split_ifs <;> exact ⟨rfl, rfl, rfl, rfl⟩

theorem ChannelExec_effect (u : State) (i : Channel) (t : Nat)
    (hin : u.pulse_tracker_buffer PULSE_TRACKER_INPUT_INDEX 0 = 0) (hsw : u.swing i ≤ 1000) :
    ∃ s', ChannelExec u i t = some s' ∧
      s'.pulse_tracker_buffer = u.pulse_tracker_buffer ∧
      s'.channel_function_ = u.channel_function_ ∧
      s'.button_is_inhibited = u.button_is_inhibited ∧
      s'.swing = u.swing := by
  have hpoll : ∃ p, FunctionExecPoll u i t = some p ∧
      p.pulse_tracker_buffer = u.pulse_tracker_buffer ∧
      p.channel_function_ = u.channel_function_ ∧
      p.button_is_inhibited = u.button_is_inhibited ∧
      p.swing = u.swing := by
    unfold FunctionExecPoll
    cases u.channel_function_ i
    · exact ⟨u, MultiplyExec_unpopulated u i t hin, rfl, rfl, rfl, rfl⟩
    · obtain ⟨p, hp, hp' | hp'⟩ := SwingExec_defined u i t hsw
      · exact ⟨p, hp, by rw [hp'], by rw [hp'], by rw [hp'], by rw [hp']⟩
      · exact ⟨p, hp, by rw [hp']; rfl, by rw [hp']; rfl, by rw [hp']; rfl, by rw [hp']; rfl⟩
    · exact ⟨u, rfl, rfl, rfl, rfl, rfl⟩
  obtain ⟨p, hp, p1, p2, p3, p4⟩ := hpoll
  obtain ⟨o1, o2, o3, o4⟩ := FunctionExecOutput_keeps p i
  obtain ⟨l1, l2, l3, l4⟩ := LedUpdate_keeps (FunctionExecOutput p i) i
  unfold ChannelExec FunctionExec
  rw [hp]
  exact ⟨_, rfl, by rw [l1, o1, p1], by rw [l2, o2, p2], by rw [l3, o3, p3], by rw [l4, o4, p4]⟩

theorem LoopChannel_effect (s : State) (i : Channel) (is_trig is_reset : Bool) (inp : LoopInput)
    (hin : s.pulse_tracker_buffer PULSE_TRACKER_INPUT_INDEX 0 = 0) (hsw : s.swing i ≤ 1000) :
    ∃ s', LoopChannel s i is_trig is_reset inp = some s' ∧
      s'.pulse_tracker_buffer PULSE_TRACKER_INPUT_INDEX
        = s.pulse_tracker_buffer PULSE_TRACKER_INPUT_INDEX ∧
      s'.channel_function_ = s.channel_function_ ∧
      s'.button_is_inhibited = s.button_is_inhibited ∧
      (∀ j, j ≠ i → s'.swing j = s.swing j) ∧
      (s'.pulse_tracker_buffer PULSE_TRACKER_CHAIN_INDEX
          = s.pulse_tracker_buffer PULSE_TRACKER_CHAIN_INDEX ∨
        (s.channel_function_ i = CHANNEL_FUNCTION_FACTORER ∧
          s.channel_function_ (if i = 0 then 1 else 0) = CHANNEL_FUNCTION_SWING ∧
          s'.pulse_tracker_buffer PULSE_TRACKER_CHAIN_INDEX 0
            = s.pulse_tracker_buffer PULSE_TRACKER_CHAIN_INDEX 1)) := by
  obtain ⟨u1, u2, u3, u4, u5, u6⟩ :=
    ChannelStateUpdate_effect s i is_trig is_reset inp.read8 (inp.tcnt_update i)
  obtain ⟨s', hs', e1, e2, e3, e4⟩ := ChannelExec_effect
    (ChannelStateUpdate s i is_trig is_reset inp.read8 (inp.tcnt_update i)) i (inp.tcnt_exec i)
    (by rw [u1]; exact hin) (u5 hsw)
  refine ⟨s', hs', by rw [e1, u1], by rw [e2, u2], by rw [e3, u3],
    fun j hj => by rw [e4]; exact u4 j hj, ?_⟩
  rw [e1]
  exact u6

theorem AdcScan_keeps (s : State) :
    (AdcScan s).pulse_tracker_buffer = s.pulse_tracker_buffer ∧
    (AdcScan s).swing = s.swing ∧
    (AdcScan s).button_is_inhibited = s.button_is_inhibited ∧
    (AdcScan s).button_state = s.button_state ∧
    (AdcScan s).button_last_press_at = s.button_last_press_at := by
  unfold AdcScan
  split_ifs <;> exact ⟨rfl, rfl, rfl, rfl, rfl⟩

theorem overflow_then_buttons (s : State) (button : Channel → Bool) (tcnt : Channel → Nat) :
    (∀ id k, (ButtonsScanAndExec (AdcScan (ClockHandleOverflow s)) button tcnt).pulse_tracker_buffer
      id k = 0) ∧
    (ButtonsScanAndExec (AdcScan (ClockHandleOverflow s)) button tcnt).swing = s.swing ∧
    (∀ i, (ButtonsScanAndExec (AdcScan (ClockHandleOverflow s)) button tcnt).button_is_inhibited i
      = (s.button_state i && decide (u16 (tcnt i) ≥ BUTTON_LONG_PRESS_DURATION))) := by
  obtain ⟨c1, c2, c3, c4, c5⟩ := ClockHandleOverflow_effect s
  obtain ⟨a1, a2, a3, a4, a5⟩ := AdcScan_keeps (ClockHandleOverflow s)
  obtain ⟨b1, b2, b3, b4⟩ :=
    ButtonsScanAndExecChannel_effect (AdcScan (ClockHandleOverflow s)) 0 (button 0) (tcnt 0)
  obtain ⟨d1, d2, d3, d4⟩ := ButtonsScanAndExecChannel_effect
    (ButtonsScanAndExecChannel (AdcScan (ClockHandleOverflow s)) 0 (button 0) (tcnt 0))
    1 (button 1) (tcnt 1)
  have h10 : (1 : Channel) ≠ 0 := by decide
  have h01 : (0 : Channel) ≠ 1 := by decide
  unfold ButtonsScanAndExec
  refine ⟨fun id k => by rw [d1, b1, a1]; exact c1 id k, by rw [d2, b2, a2, c5], ?_⟩
  have g0 : (ButtonsScanAndExecChannel (ButtonsScanAndExecChannel (AdcScan (ClockHandleOverflow s))
      0 (button 0) (tcnt 0)) 1 (button 1) (tcnt 1)).button_is_inhibited 0
      = (s.button_state 0 && decide (u16 (tcnt 0) ≥ BUTTON_LONG_PRESS_DURATION)) := by
    rw [(d3 0 h01).1, b4 (by rw [a3]; exact c2 0) (by rw [a5]; exact c3 0), a4, c4]
  have g1 : (ButtonsScanAndExecChannel (ButtonsScanAndExecChannel (AdcScan (ClockHandleOverflow s))
      0 (button 0) (tcnt 0)) 1 (button 1) (tcnt 1)).button_is_inhibited 1
      = (s.button_state 1 && decide (u16 (tcnt 1) ≥ BUTTON_LONG_PRESS_DURATION)) := by
    rw [d4 (by rw [(b3 1 h10).1, a3]; exact c2 1) (by rw [(b3 1 h10).2.2, a5]; exact c3 1),
      (b3 1 h10).2.1, a4, c4]
  intro i
  fin_cases i
  · exact g0
  · exact g1

/-- The scan of the two gate inputs in `Loop`, between the button scan and the
channel loop: the result of the two `GateInputIsRisingEdge` calls and of the
`PulseTrackerRecord` between them. -/
theorem Loop_eq (s : State) (inp : LoopInput) :
    ∃ (s5 : State) (is_trig is_reset : Bool),
      Loop s inp =
        (match LoopChannel s5 0 is_trig is_reset inp with
          | none => none
          | some s => LoopChannel s 1 is_trig is_reset inp) ∧
      (∀ id, id ≠ PULSE_TRACKER_INPUT_INDEX → s5.pulse_tracker_buffer id =
        (ButtonsScanAndExec (AdcScan (if ClockIsOverflow s inp.tcnt_overflow = true
          then ClockHandleOverflow s else s)) inp.button inp.tcnt_button).pulse_tracker_buffer id) ∧
      (s5.pulse_tracker_buffer PULSE_TRACKER_INPUT_INDEX 0 =
          (ButtonsScanAndExec (AdcScan (if ClockIsOverflow s inp.tcnt_overflow = true
            then ClockHandleOverflow s else s)) inp.button inp.tcnt_button).pulse_tracker_buffer
            PULSE_TRACKER_INPUT_INDEX 0 ∨
        s5.pulse_tracker_buffer PULSE_TRACKER_INPUT_INDEX 0 =
          (ButtonsScanAndExec (AdcScan (if ClockIsOverflow s inp.tcnt_overflow = true
            then ClockHandleOverflow s else s)) inp.button inp.tcnt_button).pulse_tracker_buffer
            PULSE_TRACKER_INPUT_INDEX 1) ∧
      s5.swing = (ButtonsScanAndExec (AdcScan (if ClockIsOverflow s inp.tcnt_overflow = true
          then ClockHandleOverflow s else s)) inp.button inp.tcnt_button).swing ∧
      s5.button_is_inhibited = (ButtonsScanAndExec (AdcScan (if ClockIsOverflow s inp.tcnt_overflow
          = true then ClockHandleOverflow s else s)) inp.button inp.tcnt_button).button_is_inhibited := by
  unfold Loop GateInputIsRisingEdge
  dsimp only
  generalize (ButtonsScanAndExec (AdcScan (if ClockIsOverflow s inp.tcnt_overflow = true
    then ClockHandleOverflow s else s)) inp.button inp.tcnt_button) = s3
  refine ⟨_, _, _, rfl, ?_, ?_, ?_, ?_⟩
  · intro id hid
    unfold PulseTrackerRecord
    split_ifs <;> simp [hid]
  · unfold PulseTrackerRecord
    split_ifs
    · right; simp
    · left; rfl
  · unfold PulseTrackerRecord
    split_ifs <;> rfl
  · unfold PulseTrackerRecord
    split_ifs <;> rfl

/-- C10 counterexample: the last-action timestamp of channel 0 (20000) is
greater than the tick reading 10000 at the start of the pass, and button 0 is
held.  The overflow handler clears the flags and the press-start timestamp, the
button scan of the same pass then measures a held duration of 10000 ticks,
fires the long press, and the pass ends with `button_is_inhibited[0]` true. -/
theorem overflow_pass_sets_inhibited :
    ClockIsOverflow overflowExample passAt10000.tcnt_overflow = true ∧
    (ClockHandleOverflow overflowExample).button_is_inhibited 0 = false ∧
    (Loop overflowExample passAt10000).map (fun s => s.button_is_inhibited 0) = some true := by
  decide


/-- C10 as amended: if a last-action timestamp is greater than the tick reading
at the start of a `Loop` pass (and the swing amounts are at most 1000, as they
are in every state the firmware reaches), then for every combination of
button, gate, scanner and tick readings during the pass: the overflow handler
leaves both inhibition flags false; the pass is defined and when it ends both
pulse trackers report unpopulated; and at the end of the pass
`button_is_inhibited[i]` is true exactly when button `i` was already held at
the start of the pass (`button_state[i]`) and the tick reading at its scan is
at least 9375, the case in which the button scan of the same pass fires the
long press. -/
theorem overflow_pass_clears_trackers (s : State) (inp : LoopInput)
    (hov : s.channel_last_action_at 0 > u16 inp.tcnt_overflow ∨
      s.channel_last_action_at 1 > u16 inp.tcnt_overflow)
    (hsw : ∀ c, s.swing c ≤ 1000) :
    (∀ i, (ClockHandleOverflow s).button_is_inhibited i = false) ∧
    ∃ s', Loop s inp = some s' ∧
      PulseTrackerIsPopulated s' PULSE_TRACKER_INPUT_INDEX = false ∧
      PulseTrackerIsPopulated s' PULSE_TRACKER_CHAIN_INDEX = false ∧
      ∀ i, s'.button_is_inhibited i =
        (s.button_state i && decide (u16 (inp.tcnt_button i) ≥ BUTTON_LONG_PRESS_DURATION)) := by
  refine ⟨(ClockHandleOverflow_effect s).2.1, ?_⟩
  have hov' : ClockIsOverflow s inp.tcnt_overflow = true := by
    simpa [ClockIsOverflow] using hov
  obtain ⟨s5, is_trig, is_reset, hL, k1, k2, k3, k4⟩ := Loop_eq s inp
  rw [if_pos hov'] at k1 k2 k3 k4
  obtain ⟨o1, o2, o3⟩ := overflow_then_buttons s inp.button inp.tcnt_button
  have hin5 : s5.pulse_tracker_buffer PULSE_TRACKER_INPUT_INDEX 0 = 0 := by
    rcases k2 with h | h <;> rw [h] <;> exact o1 _ _
  have hch5 : ∀ k, s5.pulse_tracker_buffer PULSE_TRACKER_CHAIN_INDEX k = 0 := by
    intro k; rw [k1 PULSE_TRACKER_CHAIN_INDEX (by decide)]; exact o1 _ _
  obtain ⟨s6, h6, a1, a2, a3, a4, a5⟩ := LoopChannel_effect s5 0 is_trig is_reset inp hin5
    (by rw [k3, o2]; exact hsw 0)
  obtain ⟨s7, h7, b1, b2, b3, b4, b5⟩ := LoopChannel_effect s6 1 is_trig is_reset inp
    (by rw [a1]; exact hin5) (by rw [a4 1 (by decide), k3, o2]; exact hsw 1)
  refine ⟨s7, ?_, ?_, ?_, ?_⟩
  · rw [hL, h6]
    exact h7
  · simp [PulseTrackerIsPopulated, b1, a1, hin5]
  · have hc : s7.pulse_tracker_buffer PULSE_TRACKER_CHAIN_INDEX 0 = 0 := by
      rcases b5 with h | ⟨hf1, hf0, h⟩
      · rw [h]
        rcases a5 with h' | ⟨_, _, h'⟩
        · rw [h']; exact hch5 0
        · rw [h']; exact hch5 1
      · rw [h]
        rcases a5 with h' | ⟨hg0, _, _⟩
        · rw [h']; exact hch5 1
        · rw [a2] at hf0
          have hf0' : s5.channel_function_ 0 = CHANNEL_FUNCTION_SWING := hf0
          rw [hg0] at hf0'
          exact absurd hf0' (by decide)
    simp [PulseTrackerIsPopulated, hc]
  · intro i
    rw [b3, a3, k4]
    exact o3 i

/-- C10 witness: the pass of the counterexample. -/
theorem overflow_pass_clears_trackers_witness :
    ∃ s', Loop overflowExample passAt10000 = some s' ∧
      PulseTrackerIsPopulated s' PULSE_TRACKER_INPUT_INDEX = false ∧
      PulseTrackerIsPopulated s' PULSE_TRACKER_CHAIN_INDEX = false ∧
      ∀ i, s'.button_is_inhibited i =
        (overflowExample.button_state i &&
          decide (u16 (passAt10000.tcnt_button i) ≥ BUTTON_LONG_PRESS_DURATION)) :=
  (overflow_pass_clears_trackers overflowExample passAt10000 (Or.inl (by decide))
    (fun c => by fin_cases c <;> decide)).2


/-! ## Multiply mode -/

theorem pred_mod_of_mod_pos (n I : Nat) (h : 0 < n % I) : (n - 1) % I = n % I - 1 := by
  rcases Nat.eq_zero_or_pos I with h0 | hI
  · subst h0; simp
  · have hn := Nat.div_add_mod n I
    have hlt := Nat.mod_lt n hI
    have e : n - 1 = (n % I - 1) + I * (n / I) := by omega
    rw [e, Nat.add_mul_mod_self_left, Nat.mod_eq_of_lt (by omega)]

theorem pred_mod_of_mod_zero (n I : Nat) (hI : 0 < I) (hn0 : 0 < n) (h : n % I = 0) :
    (n - 1) % I = I - 1 := by
  have hn := Nat.div_add_mod n I
  rw [h, Nat.add_zero] at hn
  have hq : 0 < n / I := by
    rcases Nat.eq_zero_or_pos (n / I) with h0 | h0
    · rw [h0] at hn; omega
    · exact h0
  have e : n - 1 = (I - 1) + I * (n / I - 1) := by
    have : I * (n / I) = I * (n / I - 1) + I := by
      conv_lhs => rw [show n / I = (n / I - 1) + 1 by omega]
      rw [Nat.mul_add, Nat.mul_one]
    omega
  rw [e, Nat.add_mul_mod_self_left, Nat.mod_eq_of_lt (by omega)]

/-- Within the window and not debounced after the previous poll: exactly the
multiples of the interval. -/
theorem window_and_clear_iff (n I : Nat) (hI : 14 ≤ I) :
    (n % I ≤ 12 ∧ ¬ (n ≠ 0 ∧ (n - 1) % I ≤ 12)) ↔ n % I = 0 := by
  constructor
  · rintro ⟨h1, h2⟩
    by_contra hne
    have hpos : 0 < n % I := Nat.pos_of_ne_zero hne
    have := pred_mod_of_mod_pos n I hpos
    apply h2
    refine ⟨?_, by omega⟩
    intro h0; subst h0; simp at hpos
  · intro h
    refine ⟨by omega, ?_⟩
    rintro ⟨hn0, h2⟩
    have := pred_mod_of_mod_zero n I (by omega) (Nat.pos_of_ne_zero hn0) h
    omega

theorem FactorerExecChainedSwing_multiply (s : State) (c : Channel) (t : Nat) :
    (FactorerExecChainedSwing s c t).multiply_is_debouncing = s.multiply_is_debouncing := by
  unfold FactorerExecChainedSwing SwingHandleInput PulseTrackerRecord SwingReset SwingExecStrike
    SwingExecThru
  dsimp only
  split_ifs <;> rfl

theorem MultiplyExecStrike_fields (s : State) (c : Channel) (t : Nat) :
    (MultiplyExecStrike s c t).factor = s.factor ∧
    (MultiplyExecStrike s c t).pulse_tracker_buffer PULSE_TRACKER_INPUT_INDEX
      = s.pulse_tracker_buffer PULSE_TRACKER_INPUT_INDEX ∧
    (MultiplyExecStrike s c t).multiply_is_debouncing c = true := by
  have hk := chained_or_not_keeps
    { s with channel_last_action_at := upd s.channel_last_action_at c (u16 t)
             exec_state := upd s.exec_state c 2
             multiply_is_debouncing := upd s.multiply_is_debouncing c true } c t
  unfold MultiplyExecStrike
  dsimp only
  refine ⟨?_, hk.1, ?_⟩
  · split_ifs
    · rw [(FactorerExecChainedSwing_frame _ c t).1]
    · rfl
  · split_ifs
    · rw [FactorerExecChainedSwing_multiply]; simp
    · simp

theorem MultiplyInterval_of_factor (p : State) (c : Channel) (M : Nat) (hM : 2 ≤ M) (hM8 : M ≤ 8)
    (hf : p.factor c = -(M : Int)) :
    MultiplyInterval p c = some (PulseTrackerGetPeriod p PULSE_TRACKER_INPUT_INDEX / M) := by
  have hd : intToU16 (-(p.factor c)) = M := by
    rw [hf]; unfold intToU16; omega
  unfold MultiplyInterval
  simp only [hd]
  rw [if_neg (by omega)]

theorem elapsed_after (p : State) (n : Nat) (hn : n < 65536) :
    PulseTrackerGetElapsed p PULSE_TRACKER_INPUT_INDEX
      (p.pulse_tracker_buffer PULSE_TRACKER_INPUT_INDEX 1 + n) = n := by
  unfold PulseTrackerGetElapsed sub16
  omega

/-- One poll of `MultiplyExec` at elapsed `n`, in multiply mode with a
populated INPUT tracker and a non-zero interval `I`. -/
theorem multiply_poll_step (p : State) (c : Channel) (M n : Nat) (hM : 2 ≤ M) (hM8 : M ≤ 8)
    (hf : p.factor c = -(M : Int))
    (hpop : PulseTrackerIsPopulated p PULSE_TRACKER_INPUT_INDEX = true)
    (hI : 0 < PulseTrackerGetPeriod p PULSE_TRACKER_INPUT_INDEX / M) (hn : n < 65536) :
    (MultiplyShouldStrike p c (PulseTrackerGetElapsed p PULSE_TRACKER_INPUT_INDEX
        (p.pulse_tracker_buffer PULSE_TRACKER_INPUT_INDEX 1 + n))).map Prod.fst =
      some (decide (n % (PulseTrackerGetPeriod p PULSE_TRACKER_INPUT_INDEX / M) ≤ 12) &&
        !p.multiply_is_debouncing c) ∧
    ∃ p', MultiplyExec p c (p.pulse_tracker_buffer PULSE_TRACKER_INPUT_INDEX 1 + n) = some p' ∧
      p'.factor = p.factor ∧
      p'.pulse_tracker_buffer PULSE_TRACKER_INPUT_INDEX
        = p.pulse_tracker_buffer PULSE_TRACKER_INPUT_INDEX ∧
      p'.multiply_is_debouncing c =
        decide (n % (PulseTrackerGetPeriod p PULSE_TRACKER_INPUT_INDEX / M) ≤ 12) := by
  have hint := MultiplyInterval_of_factor p c M hM hM8 hf
  have hel := elapsed_after p n hn
  have hen : MultiplyIsEnabled p c = true := by
    simp only [MultiplyIsEnabled, hf, decide_eq_true_eq]; omega
  have hpos : MultiplyIsPossible p c = true := hpop
  generalize PulseTrackerGetPeriod p PULSE_TRACKER_INPUT_INDEX / M = I at hint hI ⊢
  have hss : MultiplyShouldStrike p c n =
      if n % I ≤ 12 then
        (if p.multiply_is_debouncing c = true then some (false, p) else some (true, p))
      else some (false, { p with multiply_is_debouncing := upd p.multiply_is_debouncing c false }) := by
    unfold MultiplyShouldStrike
    rw [hint]
    dsimp only
    rw [if_neg (by omega)]
    split_ifs <;> simp_all
  unfold MultiplyExec
  rw [hen, hpos, hel, hss]
  obtain ⟨k1, k2, k3⟩ := MultiplyExecStrike_fields p c (p.pulse_tracker_buffer PULSE_TRACKER_INPUT_INDEX 1 + n)
  by_cases hw : n % I ≤ 12
  · by_cases hd : p.multiply_is_debouncing c = true
    · simp only [hw, hd, if_true]
      exact ⟨by simp, p, by simp, rfl, rfl, by simp [hd]⟩
    · simp only [hw, hd, if_true]
      exact ⟨by simp [hd],
        MultiplyExecStrike p c (p.pulse_tracker_buffer PULSE_TRACKER_INPUT_INDEX 1 + n),
        by simp, k1, k2, by simp [k3]⟩
  · simp only [hw, if_false]
    exact ⟨by simp,
      { p with multiply_is_debouncing := upd p.multiply_is_debouncing c false },
      by simp, rfl, rfl, by simp⟩

theorem multiplyPolls_invariant (s : State) (c : Channel) (M : Nat) (hM : 2 ≤ M) (hM8 : M ≤ 8)
    (hf : s.factor c = -(M : Int))
    (hpop : PulseTrackerIsPopulated s PULSE_TRACKER_INPUT_INDEX = true)
    (hI : 0 < PulseTrackerGetPeriod s PULSE_TRACKER_INPUT_INDEX / M) :
    ∀ n, n ≤ 65536 → ∃ p, multiplyPolls s c n = some p ∧
      p.factor = s.factor ∧
      p.pulse_tracker_buffer PULSE_TRACKER_INPUT_INDEX
        = s.pulse_tracker_buffer PULSE_TRACKER_INPUT_INDEX ∧
      p.multiply_is_debouncing c =
        (if n = 0 then s.multiply_is_debouncing c
          else decide ((n - 1) % (PulseTrackerGetPeriod s PULSE_TRACKER_INPUT_INDEX / M) ≤ 12)) := by
  intro n
  induction n with
  | zero =>
    intro _
    exact ⟨s, rfl, rfl, rfl, by simp⟩
  | succ n ih =>
    intro hn
    obtain ⟨p, hp, p1, p2, _⟩ := ih (by omega)
    have hper : PulseTrackerGetPeriod p PULSE_TRACKER_INPUT_INDEX
        = PulseTrackerGetPeriod s PULSE_TRACKER_INPUT_INDEX := by
      unfold PulseTrackerGetPeriod; rw [p2]
    have hpop' : PulseTrackerIsPopulated p PULSE_TRACKER_INPUT_INDEX = true := by
      unfold PulseTrackerIsPopulated at hpop ⊢; rw [p2]; exact hpop
    obtain ⟨_, p', hp', q1, q2, q3⟩ := multiply_poll_step p c M n hM hM8 (by rw [p1]; exact hf)
      hpop' (by rw [hper]; exact hI) (by omega)
    refine ⟨p', ?_, by rw [q1, p1], by rw [q2, p2], ?_⟩
    · simp only [multiplyPolls, hp]
      rw [← p2]; exact hp'
    · rw [q3, hper]
      simp

theorem multiplyStrikesAt_eq (s : State) (c : Channel) (M e : Nat) (hM : 2 ≤ M) (hM8 : M ≤ 8)
    (hf : s.factor c = -(M : Int))
    (hpop : PulseTrackerIsPopulated s PULSE_TRACKER_INPUT_INDEX = true)
    (hI : 14 ≤ PulseTrackerGetPeriod s PULSE_TRACKER_INPUT_INDEX / M)
    (hdeb : s.multiply_is_debouncing c = false) (he : e < 65536) :
    multiplyStrikesAt s c e =
      some (decide (e % (PulseTrackerGetPeriod s PULSE_TRACKER_INPUT_INDEX / M) = 0)) := by
  obtain ⟨p, hp, p1, p2, p3⟩ :=
    multiplyPolls_invariant s c M hM hM8 hf hpop (by omega) e (by omega)
  have hper : PulseTrackerGetPeriod p PULSE_TRACKER_INPUT_INDEX
      = PulseTrackerGetPeriod s PULSE_TRACKER_INPUT_INDEX := by
    unfold PulseTrackerGetPeriod; rw [p2]
  have hpop' : PulseTrackerIsPopulated p PULSE_TRACKER_INPUT_INDEX = true := by
    unfold PulseTrackerIsPopulated at hpop ⊢; rw [p2]; exact hpop
  obtain ⟨hs, _⟩ := multiply_poll_step p c M e hM hM8 (by rw [p1]; exact hf) hpop'
    (by rw [hper]; omega) he
  unfold multiplyStrikesAt
  rw [hp]
  dsimp only
  rw [← p2, hs, hper, p3]
  have key := window_and_clear_iff e (PulseTrackerGetPeriod s PULSE_TRACKER_INPUT_INDEX / M) hI
  generalize PulseTrackerGetPeriod s PULSE_TRACKER_INPUT_INDEX / M = I at key ⊢
  congr 1
  by_cases h0 : e = 0
  · subst h0; simp [hdeb]
  · simp only [h0, if_false]
    have key' : (e % I ≤ 12 ∧ ¬ (e - 1) % I ≤ 12) ↔ e % I = 0 := by
      rw [← key]; simp [h0]
    by_cases hz : e % I = 0
    · have := key'.mpr hz
      simp [hz, this.2]
    · have hn : ¬ (e % I ≤ 12 ∧ ¬ (e - 1) % I ≤ 12) := fun h => hz (key'.mp h)
      simp only [hz, decide_False]
      by_cases hw : e % I ≤ 12
      · have : (e - 1) % I ≤ 12 := by
          by_contra h; exact hn ⟨hw, h⟩
        simp [hw, this]
      · simp [hw]

theorem multiples_apart (e e' I : Nat) (h : e % I = 0) (h' : e' % I = 0) (hlt : e < e') :
    e + I ≤ e' := by
  obtain ⟨a, ha⟩ := Nat.dvd_of_mod_eq_zero h
  obtain ⟨b, hb⟩ := Nat.dvd_of_mod_eq_zero h'
  subst ha hb
  have hab : a < b := by
    by_contra hcon
    have : I * b ≤ I * a := Nat.mul_le_mul_left I (by omega)
    omega
  calc I * a + I = I * (a + 1) := by rw [Nat.mul_add, Nat.mul_one]
    _ ≤ I * b := Nat.mul_le_mul_left I hab

/-- C2 counterexample.  Factor -2 and period 26: the interval 13 exceeds the
12-tick window, yet the polls at elapsed 0..25 strike once only, at 0 (every
remainder modulo 13 is within the window, so the debounce flag is never
cleared).  Factor -2 and period 29: the interval is 14 and the polls at elapsed
0..28 strike three times, at 0, 14 and 28, not twice.  Factor -2 and period 100
on a channel whose other channel runs the swing function, with swing amount 60:
the polls at elapsed 0 and 50 strike, but the chained swing turns the first
strike into a pass-through (outcome 1) and clears the second (outcome 0, gate
output low). -/
theorem multiply_strike_count_off :
    (PulseTrackerIsPopulated (multiplyPeriodExample 26) PULSE_TRACKER_INPUT_INDEX = true ∧
      PulseTrackerGetPeriod (multiplyPeriodExample 26) PULSE_TRACKER_INPUT_INDEX = 26 ∧
      MultiplyInterval (multiplyPeriodExample 26) 0 = some 13 ∧
      (List.range 26).filter (fun e => multiplyStrikesAt (multiplyPeriodExample 26) 0 e = some true)
        = [0]) ∧
    (PulseTrackerIsPopulated (multiplyPeriodExample 29) PULSE_TRACKER_INPUT_INDEX = true ∧
      PulseTrackerGetPeriod (multiplyPeriodExample 29) PULSE_TRACKER_INPUT_INDEX = 29 ∧
      MultiplyInterval (multiplyPeriodExample 29) 0 = some 14 ∧
      (List.range 29).filter (fun e => multiplyStrikesAt (multiplyPeriodExample 29) 0 e = some true)
        = [0, 14, 28]) ∧
    (PulseTrackerIsPopulated chainedMultiplyExample PULSE_TRACKER_INPUT_INDEX = true ∧
      PulseTrackerGetPeriod chainedMultiplyExample PULSE_TRACKER_INPUT_INDEX = 100 ∧
      MultiplyInterval chainedMultiplyExample 0 = some 50 ∧
      chainedMultiplyExample.multiply_is_debouncing 0 = false ∧
      multiplyStrikesAt chainedMultiplyExample 0 0 = some true ∧
      multiplyOutcomeAt chainedMultiplyExample 0 0 = some 1 ∧
      multiplyGateAt chainedMultiplyExample 0 0 = some true ∧
      multiplyStrikesAt chainedMultiplyExample 0 50 = some true ∧
      multiplyOutcomeAt chainedMultiplyExample 0 50 = some 0 ∧
      multiplyGateAt chainedMultiplyExample 0 50 = some false) := by
  decide

/-! ## Pulse tracker -/

/-- C13: pulse tracker semantics.  `PulseTrackerRecord` shifts newer into
older and stores the tick reading as newer (other trackers untouched);
`PulseTrackerGetPeriod` is newer minus older modulo `2^16`; with newer
timestamp `n` and the tick counter reading `(n + d) mod 2^16`, `d` in
0..65535, `PulseTrackerGetElapsed` is exactly `d`; `PulseTrackerIsPopulated`
holds iff both slots are non-zero, and after `PulseTrackerClear` and records at
tick readings `t1` then `t2` it holds iff `t1 ≠ 0` and `t2 ≠ 0`. -/
theorem pulse_tracker_semantics (s : State) (id : Fin 2) (t1 t2 d : Nat)
    (h1 : t1 < 65536) (h2 : t2 < 65536) (hd : d < 65536) :
    ((PulseTrackerRecord s id t1).pulse_tracker_buffer id 0 = s.pulse_tracker_buffer id 1 ∧
      (PulseTrackerRecord s id t1).pulse_tracker_buffer id 1 = t1 ∧
      ∀ id', id' ≠ id →
        (PulseTrackerRecord s id t1).pulse_tracker_buffer id' = s.pulse_tracker_buffer id') ∧
    ((PulseTrackerGetPeriod s id : Int) =
      ((s.pulse_tracker_buffer id 1 : Int) - (s.pulse_tracker_buffer id 0 : Int)) % 65536) ∧
    PulseTrackerGetElapsed s id ((s.pulse_tracker_buffer id 1 + d) % 65536) = d ∧
    (PulseTrackerIsPopulated s id = true ↔
      s.pulse_tracker_buffer id 1 ≠ 0 ∧ s.pulse_tracker_buffer id 0 ≠ 0) ∧
    (∀ k, (PulseTrackerClear s id).pulse_tracker_buffer id k = 0) ∧
    (PulseTrackerIsPopulated
        (PulseTrackerRecord (PulseTrackerRecord (PulseTrackerClear s id) id t1) id t2) id = true
      ↔ t1 ≠ 0 ∧ t2 ≠ 0) := by
  refine ⟨⟨?_, ?_, ?_⟩, ?_, ?_, ?_, ?_, ?_⟩
  · simp [PulseTrackerRecord, upd]
  · simp [PulseTrackerRecord, upd, u16, Nat.mod_eq_of_lt h1]
  · intro id' hid
    simp [PulseTrackerRecord, hid]
  · unfold PulseTrackerGetPeriod sub16
    omega
  · unfold PulseTrackerGetElapsed sub16
    omega
  · simp [PulseTrackerIsPopulated, Nat.pos_iff_ne_zero]
  · intro k
    fin_cases k <;> simp [PulseTrackerClear, upd]
  · simp [PulseTrackerIsPopulated, PulseTrackerRecord, PulseTrackerClear, upd, u16,
      Nat.mod_eq_of_lt h1, Nat.mod_eq_of_lt h2, Nat.pos_iff_ne_zero]
    tauto

/-- C13 witness: the INPUT tracker of the power-on state, records at ticks
65000 and 200 (the counter wrapped in between), elapsed 736. -/
theorem pulse_tracker_semantics_witness :
    PulseTrackerGetElapsed (State.initial 255) 0
      (((State.initial 255).pulse_tracker_buffer 0 1 + 736) % 65536) = 736 ∧
    (PulseTrackerIsPopulated
        (PulseTrackerRecord (PulseTrackerRecord (PulseTrackerClear (State.initial 255) 0) 0 65000)
          0 200) 0 = true
      ↔ 65000 ≠ 0 ∧ 200 ≠ 0) :=
  have h := pulse_tracker_semantics (State.initial 255) 0 65000 200 736
    (by decide) (by decide) (by decide)
  ⟨h.2.2.1, h.2.2.2.2.2⟩


/-! ## Control input -/

/-- C16: the stored control value stays clamped.  The raw reading
`AdcReadValue` is an 8-bit value (0..255).  If the stored control value of the
channel is in 0..250, then after `AdcHasNewValue` it is again in 0..250; when
the call returns true the state is the old one with the control value of the
channel set to `250 - raw` clamped into 0..250, and when it returns false the
state is unchanged. -/
theorem adc_value_stays_clamped (s : State) (c : Channel) (read8 : Fin 2 → Nat)
    (h0 : 0 ≤ s.adc_value c) (h1 : s.adc_value c ≤ 250) :
    (0 ≤ AdcReadValue read8 c ∧ AdcReadValue read8 c ≤ 255) ∧
    (0 ≤ (AdcHasNewValue s c read8).2.adc_value c ∧
      (AdcHasNewValue s c read8).2.adc_value c ≤ 250) ∧
    ((AdcHasNewValue s c read8).1 = true →
      (AdcHasNewValue s c read8).2 =
        { s with adc_value := upd s.adc_value c (max 0 (min 250 (250 - AdcReadValue read8 c))) }) ∧
    ((AdcHasNewValue s c read8).1 = false → (AdcHasNewValue s c read8).2 = s) := by
  have hr : 0 ≤ AdcReadValue read8 c ∧ AdcReadValue read8 c ≤ 255 := by
    unfold AdcReadValue
    dsimp only
    constructor <;> omega
  have hst : (if toInt16 (ADC_MAX_VALUE - AdcReadValue read8 c) < 0 then (0 : Int)
      else if toInt16 (ADC_MAX_VALUE - AdcReadValue read8 c) > ADC_MAX_VALUE then ADC_MAX_VALUE
      else toInt16 (ADC_MAX_VALUE - AdcReadValue read8 c))
      = max 0 (min 250 (250 - AdcReadValue read8 c)) := by
    obtain ⟨r0, r1⟩ := hr
    simp only [toInt16, ADC_MAX_VALUE]
    split_ifs <;> omega
  refine ⟨hr, ?_, ?_, ?_⟩
  · unfold AdcHasNewValue
    dsimp only
    rw [hst]
    split_ifs <;> simp only [upd_same] <;> omega
  · unfold AdcHasNewValue
    dsimp only
    rw [hst]
    split_ifs <;> simp
  · unfold AdcHasNewValue
    dsimp only
    split_ifs <;> simp

/-- C16 witness: stored control value 0, raw reading 255 on a due poll. -/
theorem adc_value_stays_clamped_witness :
    (0 ≤ (AdcHasNewValue (State.initial 255) 1 (fun _ => 255)).2.adc_value 1 ∧
      (AdcHasNewValue (State.initial 255) 1 (fun _ => 255)).2.adc_value 1 ≤ 250) ∧
    (AdcHasNewValue (State.initial 255) 1 (fun _ => 255)).1 = true :=
  ⟨(adc_value_stays_clamped (State.initial 255) 1 (fun _ => 255) (by decide) (by decide)).2.1,
    by decide⟩

/-- C15, the code at the failing input: polls that are due (`adc_counter` is
0) on channel 0.  The raw reading 100 is reported as new and stores the control
value 150; the same raw reading 100 on the next poll is compared with the
stored 150 and is reported as new again.  In the other direction, the raw
reading 10 stores 240, and the raw reading 238 that follows, 228 units away
from the last reading, is compared with the stored 240 and is not reported. -/
theorem adc_compares_reading_with_stored_value :
    (State.initial 255).adc_counter = 0 ∧
    (AdcHasNewValue (State.initial 255) 0 (fun _ => 100)).1 = true ∧
    (AdcHasNewValue (State.initial 255) 0 (fun _ => 100)).2.adc_value 0 = 150 ∧
    (AdcHasNewValue (AdcHasNewValue (State.initial 255) 0 (fun _ => 100)).2 0
      (fun _ => 100)).1 = true ∧
    (AdcHasNewValue (State.initial 255) 0 (fun _ => 10)).1 = true ∧
    (AdcHasNewValue (State.initial 255) 0 (fun _ => 10)).2.adc_value 0 = 240 ∧
    (AdcHasNewValue (AdcHasNewValue (State.initial 255) 0 (fun _ => 10)).2 0
      (fun _ => 238)).1 = false := by
  decide


/-! ## Overflow handler, blank storage -/

/-- C19: `ClockHandleOverflow` sets both slots of both pulse trackers, both
last-action timestamps and both button press-start timestamps to 0 and both
inhibition flags to false, so that `ClockIsOverflow` is false afterwards for
every tick reading; the function selections, factors, swing amounts, control
values, divide counters, swing phase counters, multiply-debounce flags, LED
states and all other variables are unchanged. -/
theorem overflow_handler_effect_and_frame (s : State) (tcnt : Nat) :
    (∀ id k, (ClockHandleOverflow s).pulse_tracker_buffer id k = 0) ∧
    (∀ i, (ClockHandleOverflow s).channel_last_action_at i = 0 ∧
      (ClockHandleOverflow s).button_last_press_at i = 0 ∧
      (ClockHandleOverflow s).button_is_inhibited i = false) ∧
    ClockIsOverflow (ClockHandleOverflow s) tcnt = false ∧
    ((ClockHandleOverflow s).channel_function_ = s.channel_function_ ∧
      (ClockHandleOverflow s).factor = s.factor ∧
      (ClockHandleOverflow s).swing = s.swing ∧
      (ClockHandleOverflow s).adc_value = s.adc_value ∧
      (ClockHandleOverflow s).divide_counter = s.divide_counter ∧
      (ClockHandleOverflow s).swing_counter = s.swing_counter ∧
      (ClockHandleOverflow s).multiply_is_debouncing = s.multiply_is_debouncing ∧
      (ClockHandleOverflow s).led_state = s.led_state ∧
      (ClockHandleOverflow s).led_gate_duration = s.led_gate_duration) ∧
    ((ClockHandleOverflow s).adc_counter = s.adc_counter ∧
      (ClockHandleOverflow s).gate_input_state = s.gate_input_state ∧
      (ClockHandleOverflow s).button_state = s.button_state ∧
      (ClockHandleOverflow s).exec_state = s.exec_state ∧
      (ClockHandleOverflow s).gate_out = s.gate_out ∧
      (ClockHandleOverflow s).led_pin = s.led_pin ∧
      (ClockHandleOverflow s).eeprom_byte = s.eeprom_byte) := by
  have hz : ∀ i, (ClockHandleOverflow s).channel_last_action_at i = 0 ∧
      (ClockHandleOverflow s).button_last_press_at i = 0 ∧
      (ClockHandleOverflow s).button_is_inhibited i = false := by
    intro i
    unfold ClockHandleOverflow ClockHandleOverflowChannel PulseTrackerClear
    fin_cases i <;> simp [upd]
  refine ⟨?_, hz, ?_, ⟨rfl, rfl, rfl, rfl, rfl, rfl, rfl, rfl, rfl⟩,
    ⟨rfl, rfl, rfl, rfl, rfl, rfl, rfl⟩⟩
  · intro id k
    unfold ClockHandleOverflow ClockHandleOverflowChannel PulseTrackerClear
    fin_cases id <;> fin_cases k <;> simp [upd]
  · unfold ClockIsOverflow
    rw [(hz 0).1, (hz 1).1]
    simp

/-- C20: when the persisted byte reads as all-ones, `SystemLoadState` works
with the configuration byte 0 (every bit clear) and leaves the state, so both
function selections, unchanged; loaded into the power-on state it leaves the
defaults, channel 0 swing and channel 1 factorer, also through `SystemInit`. -/
theorem blank_storage_keeps_defaults (s : State) (h : s.eeprom_byte = 0xFF) :
    255 - s.eeprom_byte % 256 = 0 ∧
    SystemLoadState s = SystemLoadStateChannel 0 (SystemLoadStateChannel 0 s 0) 1 ∧
    SystemLoadState s = s ∧
    (SystemLoadState s).channel_function_ = s.channel_function_ ∧
    (SystemLoadState (State.initial 0xFF)).channel_function_ 0 = CHANNEL_FUNCTION_SWING ∧
    (SystemLoadState (State.initial 0xFF)).channel_function_ 1 = CHANNEL_FUNCTION_FACTORER ∧
    (SystemInit (State.initial 0xFF)).channel_function_ 0 = CHANNEL_FUNCTION_SWING ∧
    (SystemInit (State.initial 0xFF)).channel_function_ 1 = CHANNEL_FUNCTION_FACTORER := by
  have hcfg : 255 - s.eeprom_byte % 256 = 0 := by rw [h]
  have hload : SystemLoadState s = SystemLoadStateChannel 0 (SystemLoadStateChannel 0 s 0) 1 := by
    unfold SystemLoadState
    rw [hcfg]
  have hnone : ∀ (u : State) (i : Channel), SystemLoadStateChannel 0 u i = u := by
    intro u i
    unfold SystemLoadStateChannel
    simp
  have hs : SystemLoadState s = s := by rw [hload, hnone, hnone]
  exact ⟨hcfg, hload, hs, by rw [hs], by decide, by decide, by decide, by decide⟩

/-- C20 witness: the power-on state with a blank eeprom. -/
theorem blank_storage_keeps_defaults_witness :
    SystemLoadState (State.initial 0xFF) = State.initial 0xFF :=
  (blank_storage_keeps_defaults (State.initial 0xFF) rfl).2.2.1


/-! ## Outcome translation -/

/-- C18: `FunctionExec` is the polling check `FunctionExecPoll` followed by the
translation `FunctionExecOutput` of the outcome `exec_state` left by the poll.
The translation sets the gate output high iff the outcome is not 0 (low
otherwise); for pass-through (1) it sets LED state 1 with hold counter 0x100,
which `LedUpdate` shows as green; for a strike (2) it sets LED state 2 with
hold counter 0x080, which `LedUpdate` shows as red; for no outcome (0) LED
state and hold counter stay as they were; and it leaves the outcome at 0, so
whenever `FunctionExec` returns a state its outcome is 0. -/
theorem function_exec_translates_outcome (s p : State) (c : Channel) (tcnt : Nat) :
    FunctionExec s c tcnt = (FunctionExecPoll s c tcnt).map (fun p => FunctionExecOutput p c) ∧
    ((FunctionExecOutput p c).gate_out c = true ↔ p.exec_state c ≠ 0) ∧
    ((FunctionExecOutput p c).gate_out c = false ↔ p.exec_state c = 0) ∧
    (p.exec_state c = 1 →
      (FunctionExecOutput p c).led_state c = 1 ∧
      (FunctionExecOutput p c).led_gate_duration c = LED_THRU_GATE_DURATION ∧
      (LedUpdate (FunctionExecOutput p c) c).led_pin c = LedColor.green) ∧
    (p.exec_state c = 2 →
      (FunctionExecOutput p c).led_state c = 2 ∧
      (FunctionExecOutput p c).led_gate_duration c = LED_FACTORED_GATE_DURATION ∧
      (LedUpdate (FunctionExecOutput p c) c).led_pin c = LedColor.red) ∧
    (p.exec_state c = 0 →
      (FunctionExecOutput p c).led_state = p.led_state ∧
      (FunctionExecOutput p c).led_gate_duration = p.led_gate_duration) ∧
    (FunctionExecOutput p c).exec_state c = 0 ∧
    (∀ s', FunctionExec s c tcnt = some s' → s'.exec_state c = 0) := by
  have hx : (FunctionExecOutput p c).exec_state c = 0 := by
    simp [FunctionExecOutput]
  have hfe : FunctionExec s c tcnt
      = (FunctionExecPoll s c tcnt).map (fun p => FunctionExecOutput p c) := by
    unfold FunctionExec
    cases FunctionExecPoll s c tcnt <;> rfl
  refine ⟨hfe, ?_, ?_, ?_, ?_, ?_, hx, ?_⟩
  · unfold FunctionExecOutput GateOutputOn GateOutputOff LedExecThru LedExecStrike
    dsimp only
    split_ifs <;> simp <;> omega
  · unfold FunctionExecOutput GateOutputOn GateOutputOff LedExecThru LedExecStrike
    dsimp only
    split_ifs <;> simp <;> omega
  · intro h1
    have e : FunctionExecOutput p c =
        { LedExecThru (GateOutputOn p c) c with
          exec_state := upd (LedExecThru (GateOutputOn p c) c).exec_state c 0 } := by
      simp [FunctionExecOutput, GateOutputOn, h1]
    rw [e]
    simp [LedExecThru, GateOutputOn, LedUpdate, LedGreen, sub16]
  · intro h2
    have e : FunctionExecOutput p c =
        { LedExecStrike (GateOutputOn p c) c with
          exec_state := upd (LedExecStrike (GateOutputOn p c) c).exec_state c 0 } := by
      simp [FunctionExecOutput, GateOutputOn, h2]
    rw [e]
    simp [LedExecStrike, GateOutputOn, LedUpdate, LedRed, sub16]
  · intro h0
    simp [FunctionExecOutput, GateOutputOff, h0]
  · intro s' hs'
    rw [hfe] at hs'
    cases hp : FunctionExecPoll s c tcnt with
    | none => rw [hp] at hs'; simp at hs'
    | some q =>
      rw [hp] at hs'
      simp only [Option.map_some', Option.some.injEq] at hs'
      rw [← hs']
      simp [FunctionExecOutput]


/-! ## Swing delay formula -/

/-- While `20 * period` fits in 16 bits (period at most 3276), `SwingInterval`
is the integer `(20 * period) / (1000 / swing) - period` for swing amounts
51..70. -/
theorem SwingInterval_small_period (s : State) (c : Channel)
    (h : SWING_FACTOR_MIN < s.swing c) (h' : s.swing c ≤ SWING_FACTOR_MAX)
    (hp : PulseTrackerGetPeriod s PULSE_TRACKER_INPUT_INDEX ≤ 3276) :
    ∃ d : Nat, ((d : Int) = Int.tdiv 1000 (s.swing c)) ∧
      SwingInterval s c = some (20 * PulseTrackerGetPeriod s PULSE_TRACKER_INPUT_INDEX / d
        - PulseTrackerGetPeriod s PULSE_TRACKER_INPUT_INDEX) := by
  obtain ⟨d, hd, hd', hdiv⟩ := swing_divisor (s.swing c) h h'
  have hne : s.swing c ≠ 0 := by
    intro h0; rw [h0] at h; exact absurd h (by decide)
  have hdInt : (d : Int) = Int.tdiv 1000 (s.swing c) := by
    have h1 : (51 : Int) ≤ s.swing c := h
    have h2 : s.swing c ≤ (70 : Int) := h'
    revert hdiv
    generalize s.swing c = sw at h1 h2
    intro hdiv
    rw [← hdiv]
    interval_cases sw <;> decide
  refine ⟨d, hdInt, ?_⟩
  unfold SwingInterval
  simp only [hne, if_false, hdiv]
  rw [if_neg (by omega)]
  generalize PulseTrackerGetPeriod s PULSE_TRACKER_INPUT_INDEX = p at hp ⊢
  have e1 : u16 (10 * u16 (p * 2)) = 20 * p := by unfold u16; omega
  rw [e1]
  have hq : p ≤ 20 * p / d := by
    rw [Nat.le_div_iff_mul_le (by omega)]
    calc p * d ≤ p * 20 := Nat.mul_le_mul_left p (by omega)
      _ = 20 * p := Nat.mul_comm _ _
  have hq2 : 20 * p / d ≤ 20 * p := Nat.div_le_self _ _
  congr 1
  unfold sub16
  omega

/-- C14, the code at the failing input: swing amount 60 and input period 4000.
The integer formula gives `(20 * 4000) / (1000 / 60) - 4000 = 1000`, but
`20 * 4000` does not fit in 16 bits and `SwingInterval` returns 62440; the value
is not the formula modulo `2^16` either. -/
theorem swing_interval_wraps :
    PulseTrackerGetPeriod (swingPeriodExample 60 4000) PULSE_TRACKER_INPUT_INDEX = 4000 ∧
    (20 * 4000) / (1000 / 60) - 4000 = 1000 ∧
    SwingInterval (swingPeriodExample 60 4000) 0 = some 62440 ∧
    SwingInterval (swingPeriodExample 60 4000) 0 ≠ some (((20 * 4000) / (1000 / 60) - 4000) % 65536) := by
  decide


/-! ## Buttons -/

/-- `ButtonsScanAndExecChannel` written with the action it takes: after
`ButtonIsNewState`, the long press sets the inhibition flag, toggles the
function and saves; the short press resets the function; then the pressed flag
is stored. -/
theorem ButtonsScanAndExecChannel_by_action (s : State) (i : Channel) (b : Bool) (t : Nat) :
    ButtonsScanAndExecChannel s i b t =
      (match buttonAction s i b t with
        | ButtonAction.longPress =>
          { SystemStateSave (ChannelFunctionToggle
              { (ButtonIsNewState s i b t).2 with
                button_is_inhibited := upd (ButtonIsNewState s i b t).2.button_is_inhibited i true } i)
            with button_state := upd s.button_state i b }
        | ButtonAction.shortPress =>
          { FunctionReset (ButtonIsNewState s i b t).2 i with
            button_state := upd s.button_state i b }
        | ButtonAction.noAction =>
          { (ButtonIsNewState s i b t).2 with button_state := upd s.button_state i b }) := by
  unfold ButtonsScanAndExecChannel buttonAction ButtonIsNewState ButtonHandleNewlyPressed
    SystemStateSave ChannelFunctionToggle FunctionReset DivideReset SwingReset
  cases hb : s.button_state i <;> cases b <;> cases hf : s.channel_function_ i <;>
    simp [hb, hf] <;> split_ifs <;> simp_all

/-- One iteration of the loop of `ButtonsScanAndExec` for button `i`: the
pressed flag becomes the reading; a long press is taken only from a pressed,
uninhibited state with a held duration of at least 9375 and leaves the
inhibition flag set; from an inhibited state no action is taken, and the flag
stays set unless the button is newly pressed. -/
theorem button_iteration (s : State) (i : Channel) (b : Bool) (t : Nat) :
    (ButtonsScanAndExecChannel s i b t).button_state i = b ∧
    (buttonAction s i b t = ButtonAction.longPress →
      s.button_state i = true ∧ s.button_is_inhibited i = false ∧
      sub16 t (s.button_last_press_at i) ≥ BUTTON_LONG_PRESS_DURATION ∧
      (ButtonsScanAndExecChannel s i b t).button_is_inhibited i = true) ∧
    (s.button_is_inhibited i = true → buttonAction s i b t = ButtonAction.noAction) ∧
    (s.button_is_inhibited i = true → ¬ (s.button_state i = false ∧ b = true) →
      (ButtonsScanAndExecChannel s i b t).button_is_inhibited i = true) := by
  unfold ButtonsScanAndExecChannel buttonAction ButtonIsNewState ButtonHandleNewlyPressed
    SystemStateSave ChannelFunctionToggle FunctionReset DivideReset SwingReset
  refine ⟨?_, ?_, ?_, ?_⟩
  · cases hb : s.button_state i <;> cases b <;> cases hf : s.channel_function_ i <;>
      simp [hb, hf]
  · cases hb : s.button_state i <;> cases b <;> cases hf : s.channel_function_ i <;>
      cases hi : s.button_is_inhibited i <;>
      simp [hb, hf, hi] <;> split_ifs <;> simp_all
  · intro hi
    cases hb : s.button_state i <;> cases b <;> simp [hb, hi]
  · intro hi hnp
    cases hb : s.button_state i <;> cases b <;> cases hf : s.channel_function_ i <;>
      simp [hb, hf, hi] <;> simp_all

/-- Within a pass of `ButtonsScanAndExec`, the iteration of the other button
does not touch the pressed flag, the inhibition flag or the press-start
timestamp of button `i`. -/
theorem pass_button_fields (s : State) (i : Channel) (p : ButtonPass) :
    ((passStart s i p).button_state i = s.button_state i ∧
      (passStart s i p).button_is_inhibited i = s.button_is_inhibited i ∧
      (passStart s i p).button_last_press_at i = s.button_last_press_at i) ∧
    (ButtonsScanAndExec s p.button p.tcnt).button_state i =
      (ButtonsScanAndExecChannel (passStart s i p) i (p.button i) (p.tcnt i)).button_state i ∧
    (ButtonsScanAndExec s p.button p.tcnt).button_is_inhibited i =
      (ButtonsScanAndExecChannel (passStart s i p) i (p.button i) (p.tcnt i)).button_is_inhibited i := by
  have h10 : (1 : Channel) ≠ 0 := by decide
  have h01 : (0 : Channel) ≠ 1 := by decide
  have f0 := (ButtonsScanAndExecChannel_effect s 0 (p.button 0) (p.tcnt 0)).2.2.1 1 h10
  have f1 := (ButtonsScanAndExecChannel_effect
    (ButtonsScanAndExecChannel s 0 (p.button 0) (p.tcnt 0)) 1 (p.button 1) (p.tcnt 1)).2.2.1 0 h01
  unfold ButtonsScanAndExec passStart
  fin_cases i
  · exact ⟨⟨rfl, rfl, rfl⟩, f1.2.1, f1.1⟩
  · exact ⟨⟨f0.2.1, f0.1, f0.2.2⟩, rfl, rfl⟩

theorem buttonPasses_append (s : State) (ps qs : List ButtonPass) :
    buttonPasses s (ps ++ qs) = buttonPasses (buttonPasses s ps) qs := by
  induction ps generalizing s with
  | nil => rfl
  | cons p rest ih => simp only [List.cons_append, buttonPasses]; exact ih _

theorem buttonPasses_take_succ (s : State) (ps : List ButtonPass) (n : Nat) (hn : n < ps.length) :
    buttonPasses s (ps.take (n + 1)) =
      ButtonsScanAndExec (buttonPasses s (ps.take n)) ps[n].button ps[n].tcnt := by
  rw [List.take_succ, buttonPasses_append]
  simp [List.getElem?_eq_getElem hn, buttonPasses]

/-- After a pass the pressed flag of button `i` is its reading in that pass. -/
theorem button_state_after_pass (s : State) (i : Channel) (ps : List ButtonPass) (n : Nat)
    (hn : n < ps.length) :
    (buttonPasses s (ps.take (n + 1))).button_state i = ps[n].button i := by
  rw [buttonPasses_take_succ s ps n hn, (pass_button_fields _ i ps[n]).2.1]
  exact (button_iteration _ i _ _).1

/-- The inhibition flag of button `i`, once set, stays set over passes in which
the button is not newly pressed. -/
theorem inhibited_stays (s : State) (i : Channel) (ps : List ButtonPass) (j : Nat)
    (hinh : (buttonPasses s (ps.take j)).button_is_inhibited i = true) :
    ∀ k, j ≤ k → k ≤ ps.length →
      (∀ m (hm : m < ps.length), j ≤ m → m < k →
        ¬ ((buttonPasses s (ps.take m)).button_state i = false ∧ ps[m].button i = true)) →
      (buttonPasses s (ps.take k)).button_is_inhibited i = true := by
  intro k
  induction k with
  | zero =>
    intro hj _ _
    have : j = 0 := by omega
    subst this
    exact hinh
  | succ k ih =>
    intro hj hk hno
    rcases Nat.eq_or_lt_of_le hj with heq | hlt
    · rw [← heq]; exact hinh
    · have hk' : k < ps.length := by omega
      have hprev := ih (by omega) (by omega) (fun m hm h1 h2 => hno m hm h1 (by omega))
      obtain ⟨⟨p1, p2, _⟩, _, p5⟩ := pass_button_fields (buttonPasses s (ps.take k)) i ps[k]
      rw [buttonPasses_take_succ s ps k hk', p5]
      apply (button_iteration _ i _ _).2.2.2
      · rw [p2]; exact hprev
      · rw [p1]; exact hno k hk' (by omega) (by omega)

/-! ## Long press between overflows -/

/-- Unless the button is newly pressed, `ButtonIsNewState` changes nothing. -/
theorem ButtonIsNewState_not_new (s : State) (i : Channel) (b : Bool) (t : Nat)
    (hnp : ¬ (s.button_state i = false ∧ b = true)) :
    ButtonIsNewState s i b t = (b, s) := by
  unfold ButtonIsNewState
  cases hb : s.button_state i <;> cases b <;> simp_all

/-- The iteration of button `i` that takes the long press sets the inhibition
flag, runs `ChannelFunctionToggle` and `SystemStateSave`, and stores the
reading. -/
theorem ButtonsScanAndExecChannel_long (s : State) (i : Channel) (b : Bool) (t : Nat)
    (hfire : buttonAction s i b t = ButtonAction.longPress) :
    ButtonsScanAndExecChannel s i b t =
      { SystemStateSave (ChannelFunctionToggle
          { s with button_is_inhibited := upd s.button_is_inhibited i true } i)
        with button_state := upd s.button_state i b } := by
  have hpre := ((button_iteration s i b t).2.1 hfire).1
  have hnew := ButtonIsNewState_not_new s i b t (by rw [hpre]; simp)
  rw [ButtonsScanAndExecChannel_by_action, hfire]
  dsimp only
  rw [hnew]

/-- The iteration of an inhibited button runs the press bookkeeping of
`ButtonIsNewState` and stores the reading, nothing else. -/
theorem ButtonsScanAndExecChannel_inhibited (s : State) (i : Channel) (b : Bool) (t : Nat)
    (hinh : s.button_is_inhibited i = true) :
    ButtonsScanAndExecChannel s i b t =
      { (ButtonIsNewState s i b t).2 with button_state := upd s.button_state i b } := by
  rw [ButtonsScanAndExecChannel_by_action, (button_iteration s i b t).2.2.1 hinh]

/-- The iteration of one button leaves the function and the counters of the
other channel alone. -/
theorem ButtonsScanAndExecChannel_other_channel (s : State) (o i : Channel) (b : Bool) (t : Nat)
    (hio : i ≠ o) :
    (ButtonsScanAndExecChannel s o b t).channel_function_ i = s.channel_function_ i ∧
    (ButtonsScanAndExecChannel s o b t).divide_counter i = s.divide_counter i ∧
    (ButtonsScanAndExecChannel s o b t).swing_counter i = s.swing_counter i := by
  unfold ButtonsScanAndExecChannel ButtonIsNewState ButtonHandleNewlyPressed SystemStateSave
    ChannelFunctionToggle FunctionReset DivideReset SwingReset
  cases hb : s.button_state o <;> cases b <;> cases hf : s.channel_function_ o <;>
    simp [hb, hf, hio] <;> split_ifs <;> simp [hio]

theorem pass_keeps_channel_zero (s : State) (p : ButtonPass)
    (hinh : s.button_is_inhibited 0 = true)
    (hnp : ¬ (s.button_state 0 = false ∧ p.button 0 = true)) :
    (ButtonsScanAndExec s p.button p.tcnt).channel_function_ 0 = s.channel_function_ 0 ∧
    (ButtonsScanAndExec s p.button p.tcnt).divide_counter 0 = s.divide_counter 0 ∧
    (ButtonsScanAndExec s p.button p.tcnt).swing_counter 0 = s.swing_counter 0 := by
  have hown : ButtonsScanAndExecChannel s 0 (p.button 0) (p.tcnt 0) =
      { s with button_state := upd s.button_state 0 (p.button 0) } := by
    rw [ButtonsScanAndExecChannel_inhibited _ 0 _ _ hinh, ButtonIsNewState_not_new _ 0 _ _ hnp]
  have h := ButtonsScanAndExecChannel_other_channel
    (ButtonsScanAndExecChannel s 0 (p.button 0) (p.tcnt 0)) 1 0 (p.button 1) (p.tcnt 1)
    (by decide)
  unfold ButtonsScanAndExec
  rw [h.1, h.2.1, h.2.2, hown]
  exact ⟨rfl, rfl, rfl⟩

theorem pass_keeps_channel_one (s : State) (p : ButtonPass)
    (hinh : s.button_is_inhibited 1 = true)
    (hnp : ¬ (s.button_state 1 = false ∧ p.button 1 = true)) :
    (ButtonsScanAndExec s p.button p.tcnt).channel_function_ 1 = s.channel_function_ 1 ∧
    (ButtonsScanAndExec s p.button p.tcnt).divide_counter 1 = s.divide_counter 1 ∧
    (ButtonsScanAndExec s p.button p.tcnt).swing_counter 1 = s.swing_counter 1 := by
  have h := ButtonsScanAndExecChannel_other_channel s 0 1 (p.button 0) (p.tcnt 0) (by decide)
  have hf := (ButtonsScanAndExecChannel_effect s 0 (p.button 0) (p.tcnt 0)).2.2.1 1 (by decide)
  have hown : ButtonsScanAndExecChannel (ButtonsScanAndExecChannel s 0 (p.button 0) (p.tcnt 0))
      1 (p.button 1) (p.tcnt 1) =
      { ButtonsScanAndExecChannel s 0 (p.button 0) (p.tcnt 0) with
        button_state := upd (ButtonsScanAndExecChannel s 0 (p.button 0) (p.tcnt 0)).button_state
          1 (p.button 1) } := by
    rw [ButtonsScanAndExecChannel_inhibited _ 1 _ _ (by rw [hf.1]; exact hinh),
      ButtonIsNewState_not_new _ 1 _ _ (by rw [hf.2.1]; exact hnp)]
  unfold ButtonsScanAndExec
  rw [hown]
  exact h

/-- A pass of `ButtonsScanAndExec` in which button `i` is inhibited and not
newly pressed leaves the function and the counters of channel `i` alone. -/
theorem pass_keeps_channel (s : State) (i : Channel) (p : ButtonPass)
    (hinh : s.button_is_inhibited i = true)
    (hnp : ¬ (s.button_state i = false ∧ p.button i = true)) :
    (ButtonsScanAndExec s p.button p.tcnt).channel_function_ i = s.channel_function_ i ∧
    (ButtonsScanAndExec s p.button p.tcnt).divide_counter i = s.divide_counter i ∧
    (ButtonsScanAndExec s p.button p.tcnt).swing_counter i = s.swing_counter i := by
  fin_cases i
  · exact pass_keeps_channel_zero s p hinh hnp
  · exact pass_keeps_channel_one s p hinh hnp

/-- The long-press branch is taken exactly from a pressed, uninhibited state
with a held duration of at least 9375. -/
theorem buttonAction_long_iff (s : State) (i : Channel) (b : Bool) (t : Nat) :
    buttonAction s i b t = ButtonAction.longPress ↔
      (s.button_state i = true ∧ s.button_is_inhibited i = false ∧
        sub16 t (s.button_last_press_at i) ≥ BUTTON_LONG_PRESS_DURATION) := by
  constructor
  · intro h
    obtain ⟨h1, h2, h3, _⟩ := (button_iteration s i b t).2.1 h
    exact ⟨h1, h2, h3⟩
  · rintro ⟨h1, h2, h3⟩
    unfold buttonAction
    rw [ButtonIsNewState_not_new s i b t (by rw [h1]; simp)]
    simp [h1, h2, h3]

/-- An iteration that does not take the long-press branch neither toggles the
function of a channel nor saves the configuration. -/
theorem ButtonsScanAndExecChannel_no_long (s : State) (i : Channel) (b : Bool) (t : Nat)
    (h : buttonAction s i b t ≠ ButtonAction.longPress) :
    (ButtonsScanAndExecChannel s i b t).channel_function_ = s.channel_function_ ∧
    (ButtonsScanAndExecChannel s i b t).eeprom_byte = s.eeprom_byte := by
  rw [ButtonsScanAndExecChannel_by_action]
  cases ha : buttonAction s i b t with
  | longPress => exact absurd ha h
  | shortPress =>
    dsimp only
    unfold FunctionReset DivideReset SwingReset ButtonIsNewState ButtonHandleNewlyPressed
    split_ifs <;> (split <;> exact ⟨rfl, rfl⟩)
  | noAction =>
    dsimp only
    unfold ButtonIsNewState ButtonHandleNewlyPressed
    split_ifs <;> exact ⟨rfl, rfl⟩

/-- While button `i` stays pressed after a pass that left it inhibited, the
passes of `ButtonsScanAndExec` leave the function and the counters of channel
`i` as they were after that pass. -/
theorem held_keeps_channel (s : State) (i : Channel) (ps : List ButtonPass) (j : Nat)
    (hinh : (buttonPasses s (ps.take (j + 1))).button_is_inhibited i = true) :
    ∀ d, j + d < ps.length →
      (∀ m (hm : m < ps.length), j ≤ m → m < j + d → ps[m].button i = true) →
      (buttonPasses s (ps.take (j + d + 1))).button_is_inhibited i = true ∧
      (buttonPasses s (ps.take (j + d + 1))).channel_function_ i
        = (buttonPasses s (ps.take (j + 1))).channel_function_ i ∧
      (buttonPasses s (ps.take (j + d + 1))).divide_counter i
        = (buttonPasses s (ps.take (j + 1))).divide_counter i ∧
      (buttonPasses s (ps.take (j + d + 1))).swing_counter i
        = (buttonPasses s (ps.take (j + 1))).swing_counter i := by
  intro d
  induction d with
  | zero => intro _ _; exact ⟨hinh, rfl, rfl, rfl⟩
  | succ d ih =>
    intro hd hheld
    obtain ⟨i1, i2, i3, i4⟩ := ih (by omega) (fun m hm h1 h2 => hheld m hm h1 (by omega))
    have hst := button_state_after_pass s i ps (j + d) (by omega)
    rw [hheld (j + d) (by omega) (by omega) (by omega)] at hst
    have hnp : ¬ ((buttonPasses s (ps.take (j + d + 1))).button_state i = false ∧
        ps[j + d + 1].button i = true) := by
      rw [hst]; simp
    obtain ⟨k1, k2, k3⟩ := pass_keeps_channel (buttonPasses s (ps.take (j + d + 1))) i
      ps[j + d + 1] i1 hnp
    obtain ⟨⟨p1, p2, _⟩, _, p5⟩ :=
      pass_button_fields (buttonPasses s (ps.take (j + d + 1))) i ps[j + d + 1]
    have hstep := buttonPasses_take_succ s ps (j + d + 1) hd
    have e : j + (d + 1) + 1 = j + d + 1 + 1 := by omega
    rw [e, hstep]
    refine ⟨?_, by rw [k1, i2], by rw [k2, i3], by rw [k3, i4]⟩
    rw [p5]
    apply (button_iteration _ i _ _).2.2.2
    · rw [p2]; exact i1
    · rw [p1]; exact hnp

/-- C11 as amended: the long press fires once between overflows.  In any run
of consecutive passes of `ButtonsScanAndExec` (with no `ClockHandleOverflow` in
between), if the long-press branch is taken for button `i` in pass `j`, then
in that pass the button was in the pressed, uninhibited state with a wrapping
held duration (tick reading minus press-start timestamp, modulo `2^16`) of at
least 9375, and the iteration sets the inhibition flag and runs
`ChannelFunctionToggle` followed by `SystemStateSave`.  In every later pass
`k`, as long as the button has not been newly pressed (released flag and
pressed reading) in a pass between `j` and `k`, the iteration of button `i`
takes no action: it runs the press bookkeeping of `ButtonIsNewState` and stores
the reading, nothing else.  If the button reads pressed in all passes from `j`
up to `k`, the iteration in pass `k` changes nothing but the stored reading,
and after pass `k` the function, the divide counter and the swing phase of
channel `i` are still what the firing pass left: no further toggle or reset.
In every pass of the run the long-press branch is taken exactly from the
pressed, uninhibited state with a held duration of at least 9375, and an
iteration that does not take it neither changes a channel function nor saves
the configuration. -/
theorem long_press_fires_once_between_overflows (s : State) (i : Channel)
    (ps : List ButtonPass) (j k : Nat)
    (hj : j < ps.length) (hk : k < ps.length) (hjk : j < k)
    (hfire : passAction (buttonPasses s (ps.take j)) i ps[j] = ButtonAction.longPress) :
    ((buttonPasses s (ps.take j)).button_state i = true ∧
      (buttonPasses s (ps.take j)).button_is_inhibited i = false ∧
      sub16 (ps[j].tcnt i) ((buttonPasses s (ps.take j)).button_last_press_at i)
        ≥ BUTTON_LONG_PRESS_DURATION) ∧
    ButtonsScanAndExecChannel (passStart (buttonPasses s (ps.take j)) i ps[j]) i
        (ps[j].button i) (ps[j].tcnt i) =
      { SystemStateSave (ChannelFunctionToggle
          { passStart (buttonPasses s (ps.take j)) i ps[j] with
            button_is_inhibited :=
              upd (passStart (buttonPasses s (ps.take j)) i ps[j]).button_is_inhibited i true } i)
        with button_state :=
          upd (passStart (buttonPasses s (ps.take j)) i ps[j]).button_state i (ps[j].button i) } ∧
    ((∀ m (hm : m < ps.length), j < m → m < k →
        ¬ ((buttonPasses s (ps.take m)).button_state i = false ∧ ps[m].button i = true)) →
      passAction (buttonPasses s (ps.take k)) i ps[k] = ButtonAction.noAction ∧
      ButtonsScanAndExecChannel (passStart (buttonPasses s (ps.take k)) i ps[k]) i
          (ps[k].button i) (ps[k].tcnt i) =
        { (ButtonIsNewState (passStart (buttonPasses s (ps.take k)) i ps[k]) i
            (ps[k].button i) (ps[k].tcnt i)).2 with
          button_state :=
            upd (passStart (buttonPasses s (ps.take k)) i ps[k]).button_state i
              (ps[k].button i) }) ∧
    ((∀ m (hm : m < ps.length), j ≤ m → m < k → ps[m].button i = true) →
      passAction (buttonPasses s (ps.take k)) i ps[k] = ButtonAction.noAction ∧
      ButtonsScanAndExecChannel (passStart (buttonPasses s (ps.take k)) i ps[k]) i
          (ps[k].button i) (ps[k].tcnt i) =
        { passStart (buttonPasses s (ps.take k)) i ps[k] with
          button_state :=
            upd (passStart (buttonPasses s (ps.take k)) i ps[k]).button_state i
              (ps[k].button i) } ∧
      (buttonPasses s (ps.take (k + 1))).channel_function_ i
        = (buttonPasses s (ps.take (j + 1))).channel_function_ i ∧
      (buttonPasses s (ps.take (k + 1))).divide_counter i
        = (buttonPasses s (ps.take (j + 1))).divide_counter i ∧
      (buttonPasses s (ps.take (k + 1))).swing_counter i
        = (buttonPasses s (ps.take (j + 1))).swing_counter i) ∧
    (∀ m (hm : m < ps.length),
      (passAction (buttonPasses s (ps.take m)) i ps[m] = ButtonAction.longPress ↔
        ((buttonPasses s (ps.take m)).button_state i = true ∧
          (buttonPasses s (ps.take m)).button_is_inhibited i = false ∧
          sub16 (ps[m].tcnt i) ((buttonPasses s (ps.take m)).button_last_press_at i)
            ≥ BUTTON_LONG_PRESS_DURATION)) ∧
      (passAction (buttonPasses s (ps.take m)) i ps[m] ≠ ButtonAction.longPress →
        (ButtonsScanAndExecChannel (passStart (buttonPasses s (ps.take m)) i ps[m]) i
            (ps[m].button i) (ps[m].tcnt i)).channel_function_
          = (passStart (buttonPasses s (ps.take m)) i ps[m]).channel_function_ ∧
        (ButtonsScanAndExecChannel (passStart (buttonPasses s (ps.take m)) i ps[m]) i
            (ps[m].button i) (ps[m].tcnt i)).eeprom_byte
          = (passStart (buttonPasses s (ps.take m)) i ps[m]).eeprom_byte)) := by
  obtain ⟨⟨p1, p2, p3⟩, _, p5⟩ := pass_button_fields (buttonPasses s (ps.take j)) i ps[j]
  obtain ⟨a1, a2, a3, a4⟩ := (button_iteration (passStart (buttonPasses s (ps.take j)) i ps[j]) i
    (ps[j].button i) (ps[j].tcnt i)).2.1 hfire
  have hinh : (buttonPasses s (ps.take (j + 1))).button_is_inhibited i = true := by
    rw [buttonPasses_take_succ s ps j hj, p5]; exact a4
  have main : (∀ m (hm : m < ps.length), j < m → m < k →
        ¬ ((buttonPasses s (ps.take m)).button_state i = false ∧ ps[m].button i = true)) →
      (passStart (buttonPasses s (ps.take k)) i ps[k]).button_is_inhibited i = true := by
    intro hno
    have hk_inh := inhibited_stays s i ps (j + 1) hinh k (by omega) (by omega)
      (fun m hm h1 h2 => hno m hm (by omega) h2)
    obtain ⟨⟨_, q2, _⟩, _, _⟩ := pass_button_fields (buttonPasses s (ps.take k)) i ps[k]
    rw [q2]; exact hk_inh
  have hnew : (∀ m (hm : m < ps.length), j ≤ m → m < k → ps[m].button i = true) →
      ∀ m (hm : m < ps.length), j < m → m ≤ k →
        ¬ ((buttonPasses s (ps.take m)).button_state i = false ∧ ps[m].button i = true) := by
    intro hheld m hm h1 h2 hn
    obtain ⟨m', rfl⟩ : ∃ m', m = m' + 1 := ⟨m - 1, by omega⟩
    have hst := button_state_after_pass s i ps m' (by omega)
    rw [hheld m' (by omega) (by omega) (by omega)] at hst
    rw [hst] at hn
    exact absurd hn.1 (by decide)
  refine ⟨⟨by rw [← p1]; exact a1, by rw [← p2]; exact a2, by rw [← p3]; exact a3⟩,
    ButtonsScanAndExecChannel_long _ i _ _ hfire, fun hno => ?_, fun hheld => ?_,
    fun m hm => ?_⟩
  · have hi := main hno
    exact ⟨(button_iteration _ i _ _).2.2.1 hi, ButtonsScanAndExecChannel_inhibited _ i _ _ hi⟩
  · have hi := main (fun m hm h1 h2 => hnew hheld m hm h1 (le_of_lt h2))
    obtain ⟨⟨q1, _, _⟩, _, _⟩ := pass_button_fields (buttonPasses s (ps.take k)) i ps[k]
    have hnp := hnew hheld k hk hjk (le_refl k)
    obtain ⟨d, rfl⟩ : ∃ d, k = j + d := ⟨k - j, by omega⟩
    obtain ⟨_, c1, c2, c3⟩ := held_keeps_channel s i ps j hinh d hk hheld
    refine ⟨(button_iteration _ i _ _).2.2.1 hi, ?_, c1, c2, c3⟩
    rw [ButtonsScanAndExecChannel_inhibited _ i _ _ hi,
      ButtonIsNewState_not_new _ i _ _ (by rw [q1]; exact hnp)]
  · obtain ⟨⟨q1, q2, q3⟩, _, _⟩ := pass_button_fields (buttonPasses s (ps.take m)) i ps[m]
    refine ⟨?_, fun hne => ButtonsScanAndExecChannel_no_long _ i _ _ hne⟩
    unfold passAction
    rw [buttonAction_long_iff, q1, q2, q3]

/-- C11 counterexample: from power on, button 1 reads pressed in every pass of
`Loop` (each pass runs `ButtonsScanAndExec` once).  After the pass at tick 100
(with an input edge) channel 1 is a factorer; the pass at tick 9475 takes the
long press: channel 1 becomes swing, the configuration is saved and the button
is inhibited; in the pass at tick 50, after the tick counter has wrapped,
`ClockHandleOverflow` clears the inhibition flag and the press-start
timestamp; the pass at tick 9375 takes the long press again, with the button
never released: channel 1 is a factorer again and the configuration is saved a
second time. -/
theorem held_button_toggles_twice :
    heldButtonRun.all (fun p => p.button 1) = true ∧
    (List.range 5).map (fun n =>
      (runLoop (SystemInit (State.initial 0xFF)) (heldButtonRun.take n)).map
        (fun s => (s.channel_function_ 1, s.eeprom_byte, s.button_is_inhibited 1,
          s.button_state 1)))
      = [some (CHANNEL_FUNCTION_FACTORER, 255, false, false),
         some (CHANNEL_FUNCTION_FACTORER, 255, false, true),
         some (CHANNEL_FUNCTION_SWING, 245, true, true),
         some (CHANNEL_FUNCTION_SWING, 245, false, true),
         some (CHANNEL_FUNCTION_FACTORER, 249, true, true)] := by
  decide

/-- C11 witness: button 1 held since tick 100 on a factorer channel; the pass
at tick 9475 (held for 9375 ticks) takes the long press, the pass at tick 9500
with the button still pressed takes no action and channel 1 keeps the function
the long press gave it. -/
theorem long_press_fires_once_between_overflows_witness :
    passAction (buttonPasses heldButtonExample
        ([(⟨fun _ => true, fun _ => 9475⟩ : ButtonPass), ⟨fun _ => true, fun _ => 9500⟩].take 0))
      1 ⟨fun _ => true, fun _ => 9475⟩ = ButtonAction.longPress ∧
    (buttonPasses heldButtonExample
        ([(⟨fun _ => true, fun _ => 9475⟩ : ButtonPass), ⟨fun _ => true, fun _ => 9500⟩].take 1)
      ).channel_function_ 1 = CHANNEL_FUNCTION_SWING ∧
    passAction (buttonPasses heldButtonExample
        ([(⟨fun _ => true, fun _ => 9475⟩ : ButtonPass), ⟨fun _ => true, fun _ => 9500⟩].take 1))
      1 ⟨fun _ => true, fun _ => 9500⟩ = ButtonAction.noAction ∧
    (buttonPasses heldButtonExample
        ([(⟨fun _ => true, fun _ => 9475⟩ : ButtonPass), ⟨fun _ => true, fun _ => 9500⟩].take 2)
      ).channel_function_ 1 =
      (buttonPasses heldButtonExample
        ([(⟨fun _ => true, fun _ => 9475⟩ : ButtonPass), ⟨fun _ => true, fun _ => 9500⟩].take 1)
      ).channel_function_ 1 :=
  have h := (long_press_fires_once_between_overflows heldButtonExample 1
      [⟨fun _ => true, fun _ => 9475⟩, ⟨fun _ => true, fun _ => 9500⟩] 0 1
      (by decide) (by decide) (by decide) (by decide)).2.2.2.1
      (fun m _ _ h2 => by
        have h0 : m = 0 := by omega
        subst h0
        rfl)
  ⟨by decide, by decide, h.1, h.2.2.1⟩

/-- C12, the code at the failing input: button 1 is held since tick 100 and is
not inhibited, channel 1 is a factorer with divide counter 2.  In a pass at
tick 200 in which the button still reads pressed the short-press branch is
taken and `FunctionReset` clears the divide counter; in a pass at tick 300 in
which the button reads released (held for 200 ticks, below 9375) no action is
taken and the divide counter keeps its value. -/
theorem short_press_fires_while_held :
    passAction heldButtonExample 1 ⟨fun c => decide (c = 1), fun _ => 200⟩
      = ButtonAction.shortPress ∧
    (ButtonsScanAndExec heldButtonExample (fun c => decide (c = 1)) (fun _ => 200)).divide_counter 1
      = 0 ∧
    (ButtonsScanAndExec heldButtonExample (fun c => decide (c = 1)) (fun _ => 200)).button_state 1
      = true ∧
    passAction heldButtonExample 1 ⟨fun _ => false, fun _ => 300⟩ = ButtonAction.noAction ∧
    (ButtonsScanAndExec heldButtonExample (fun _ => false) (fun _ => 300)).divide_counter 1 = 2 ∧
    (ButtonsScanAndExec heldButtonExample (fun _ => false) (fun _ => 300)).button_state 1
      = false := by
  decide



/-! ## Division by zero in the polling -/

/-- C17, the code at the failing input.  From power on with a blank eeprom
(channel 1 factorer), the run `shortPeriodRun` is defined and reaches a state
with factor -8 on channel 1 and one edge recorded at tick 100.  The next pass
sees an input edge at tick 105: the INPUT tracker is then populated with period
5, `MultiplyInterval` is `5 / 8 = 0`, and the poll of channel 1 evaluates
`elapsed % 0`: the pass is undefined.  At function level: with period 1 and
factor -2 the multiplier is enabled and possible, the interval is 0, and
`MultiplyShouldStrike`, `MultiplyExec` and `FunctionExec` are undefined.  (With
the edge at tick 200 instead, period 100, the same pass is defined.) -/
theorem multiply_poll_divides_by_zero :
    (runLoop (SystemInit (State.initial 0xFF)) shortPeriodRun).map
      (fun s => (s.channel_function_ 1, s.factor 1, s.pulse_tracker_buffer 0 0,
        s.pulse_tracker_buffer 0 1))
      = some (CHANNEL_FUNCTION_FACTORER, -8, 0, 100) ∧
    (runLoop (SystemInit (State.initial 0xFF)) (shortPeriodRun ++ [plainPass 105 true 255])).isNone
      = true ∧
    (runLoop (SystemInit (State.initial 0xFF)) (shortPeriodRun ++ [plainPass 200 true 255])).isSome
      = true ∧
    (MultiplyIsEnabled (multiplyPeriodExample 1) 0 = true ∧
      MultiplyIsPossible (multiplyPeriodExample 1) 0 = true ∧
      PulseTrackerGetPeriod (multiplyPeriodExample 1) PULSE_TRACKER_INPUT_INDEX = 1 ∧
      MultiplyInterval (multiplyPeriodExample 1) 0 = some 0 ∧
      (MultiplyShouldStrike (multiplyPeriodExample 1) 0 0).isNone = true ∧
      (MultiplyExec (multiplyPeriodExample 1) 0 101).isNone = true ∧
      (FunctionExec (multiplyPeriodExample 1) 0 101).isNone = true) := by
  decide


/-! ## Output stage -/

/-- The output stage of `FunctionExec`: the gate output of the channel is high
exactly when there is an outcome, a strike outcome shows the strike LED state,
the outcome is cleared, and the factorer and swing state is left alone. -/
theorem FunctionExecOutput_fields (b : State) (c : Channel) :
    (FunctionExecOutput b c).factor = b.factor ∧
    (FunctionExecOutput b c).divide_counter = b.divide_counter ∧
    (FunctionExecOutput b c).channel_function_ = b.channel_function_ ∧
    (FunctionExecOutput b c).multiply_is_debouncing = b.multiply_is_debouncing ∧
    (FunctionExecOutput b c).pulse_tracker_buffer = b.pulse_tracker_buffer ∧
    (FunctionExecOutput b c).exec_state c = 0 ∧
    (FunctionExecOutput b c).gate_out c = decide (b.exec_state c > 0) ∧
    (b.exec_state c = 2 → (FunctionExecOutput b c).led_state c = 2 ∧
      (FunctionExecOutput b c).led_gate_duration c = LED_FACTORED_GATE_DURATION) := by
  unfold FunctionExecOutput LedExecThru LedExecStrike GateOutputOn GateOutputOff
  dsimp only
  split_ifs with h1 h2
  · refine ⟨rfl, rfl, rfl, rfl, rfl, by simp, by simp [h1], fun h => by omega⟩
  · refine ⟨rfl, rfl, rfl, rfl, rfl, by simp, by simp [h1], fun _ => by simp⟩
  · refine ⟨rfl, rfl, rfl, rfl, rfl, by simp, by simp [h1], fun h => by omega⟩

/-! ## Divided outputs over passes -/

/-- On a factorer channel whose factor is not negative the poll of
`FunctionExec` does nothing: `FunctionExec` is its output stage. -/
theorem FunctionExec_divide (b : State) (c : Channel) (t : Nat)
    (hfun : b.channel_function_ c = CHANNEL_FUNCTION_FACTORER) (hpos : ¬ b.factor c < 0) :
    FunctionExec b c t = some (FunctionExecOutput b c) := by
  unfold FunctionExec FunctionExecPoll
  simp only [hfun, MultiplyExec, MultiplyIsEnabled, hpos, decide_False, Bool.false_and,
    Bool.false_eq_true, if_false]

/-- The edge handler in divide mode keeps the channel functions; when the
other channel does not run the swing function it leaves the strike outcome 2
if the divider fires and the outcome it found otherwise. -/
theorem divide_edge_outcome (b : State) (c : Channel) (t : Nat)
    (hen : DivideIsEnabled b c = true) :
    (FactorerHandleInputGateRisingEdge b c t).channel_function_ = b.channel_function_ ∧
    (b.channel_function_ (if c = 0 then 1 else 0) ≠ CHANNEL_FUNCTION_SWING →
      (FactorerHandleInputGateRisingEdge b c t).exec_state c
        = if DivideShouldStrike b c = true then 2 else b.exec_state c) := by
  have hk := (chained_or_not_keeps
    { b with channel_last_action_at := upd b.channel_last_action_at c (u16 t)
             exec_state := upd b.exec_state c 2 } c t).2.1
  constructor
  · unfold FactorerHandleInputGateRisingEdge
    rw [if_pos hen]
    dsimp only
    by_cases hs : DivideShouldStrike b c = true
    · rw [if_pos hs]
      have hcf : (DivideExecStrike b c t).channel_function_ = b.channel_function_ := by
        unfold DivideExecStrike; exact hk
      split_ifs <;> exact hcf
    · rw [if_neg hs]
      split_ifs <;> rfl
  · intro hother
    unfold FactorerHandleInputGateRisingEdge
    rw [if_pos hen]
    dsimp only
    by_cases hs : DivideShouldStrike b c = true
    · rw [if_pos hs, if_pos hs, DivideExecStrike_unchained b c t hother]
      split_ifs <;> simp [DivideReset]
    · rw [if_neg hs, if_neg hs]
      split_ifs <;> rfl

/-- One pass of a factorer channel in divide mode with factor `F` in 2..8 and
counter `k < F`: the pass is the edge handler followed by the output stage; it
keeps the factor and the channel functions, moves the counter to
`(k + 1) mod F` and clears the outcome. -/
theorem dividePass_step (b : State) (c : Channel) (p : Nat × Nat) (F k : Nat)
    (hF : 2 ≤ F) (hF8 : F ≤ 8) (hfun : b.channel_function_ c = CHANNEL_FUNCTION_FACTORER)
    (hf : b.factor c = (F : Int)) (hk : b.divide_counter c = (k : Int)) (hkF : k < F) :
    dividePass b c p = some (FunctionExecOutput (FactorerHandleInputGateRisingEdge b c p.1) c) ∧
    (FunctionExecOutput (FactorerHandleInputGateRisingEdge b c p.1) c).factor c = (F : Int) ∧
    (FunctionExecOutput (FactorerHandleInputGateRisingEdge b c p.1) c).channel_function_
      = b.channel_function_ ∧
    (FunctionExecOutput (FactorerHandleInputGateRisingEdge b c p.1) c).divide_counter c
      = (((k + 1) % F : Nat) : Int) ∧
    (FunctionExecOutput (FactorerHandleInputGateRisingEdge b c p.1) c).exec_state c = 0 := by
  have hen : DivideIsEnabled b c = true := by
    simp only [DivideIsEnabled, hf, decide_eq_true_eq]; omega
  obtain ⟨e1, e2⟩ := divide_edge_step b c p.1 F k hF hF8 hf hk hkF
  obtain ⟨c1, -⟩ := divide_edge_outcome b c p.1 hen
  obtain ⟨o1, o2, o3, -, -, o6, -, -⟩ :=
    FunctionExecOutput_fields (FactorerHandleInputGateRisingEdge b c p.1) c
  refine ⟨?_, by rw [o1, e1, hf], by rw [o3, c1], by rw [o2, e2], o6⟩
  unfold dividePass
  apply FunctionExec_divide
  · rw [c1]; exact hfun
  · rw [e1, hf]; omega

theorem dividePasses_append (s : State) (c : Channel) (ps qs : List (Nat × Nat)) :
    dividePasses s c (ps ++ qs) = (dividePasses s c ps).bind (fun b => dividePasses b c qs) := by
  induction ps generalizing s with
  | nil => rfl
  | cons p rest ih =>
    simp only [List.cons_append, dividePasses]
    cases dividePass s c p with
    | none => rfl
    | some s' => exact ih s'

theorem dividePasses_take_succ (s : State) (c : Channel) (ps : List (Nat × Nat)) (n : Nat)
    (hn : n < ps.length) :
    dividePasses s c (ps.take (n + 1))
      = (dividePasses s c (ps.take n)).bind (fun b => dividePass b c ps[n]) := by
  rw [List.take_succ, dividePasses_append]
  congr 1
  funext b
  simp only [List.getElem?_eq_getElem hn, Option.toList, dividePasses]
  cases dividePass b c ps[n] <;> rfl

/-- A run of passes of a factorer channel in divide mode is defined; it keeps
the factor and the channel functions, the counter is the number of passes
modulo `F` past its start, and after at least one pass the outcome is
cleared. -/
theorem dividePasses_invariant (c : Channel) (F : Nat) (hF : 2 ≤ F) (hF8 : F ≤ 8) :
    ∀ (ps : List (Nat × Nat)) (s : State) (k : Nat),
      s.channel_function_ c = CHANNEL_FUNCTION_FACTORER → s.factor c = (F : Int) →
      s.divide_counter c = (k : Int) → k < F →
      ∃ b, dividePasses s c ps = some b ∧ b.factor c = (F : Int) ∧
        b.channel_function_ = s.channel_function_ ∧
        b.divide_counter c = (((k + ps.length) % F : Nat) : Int) ∧
        (ps ≠ [] ∨ s.exec_state c = 0 → b.exec_state c = 0) := by
  intro ps
  induction ps with
  | nil =>
    intro s k _ hf hk hkF
    refine ⟨s, rfl, hf, rfl, ?_, ?_⟩
    · simp [hk, Nat.mod_eq_of_lt hkF]
    · rintro (h | h)
      · exact absurd rfl h
      · exact h
  | cons p rest ih =>
    intro s k hfun hf hk hkF
    obtain ⟨h1, h2, h3, h4, h5⟩ := dividePass_step s c p F k hF hF8 hfun hf hk hkF
    obtain ⟨b, hb, b1, b2, b3, b4⟩ :=
      ih (FunctionExecOutput (FactorerHandleInputGateRisingEdge s c p.1) c) ((k + 1) % F)
        (by rw [h3]; exact hfun) h2 h4 (Nat.mod_lt _ (by omega))
    refine ⟨b, ?_, b1, by rw [b2, h3], ?_, fun _ => b4 (Or.inr h5)⟩
    · simp only [dividePasses, h1]; exact hb
    · rw [b3, List.length_cons]
      congr 1
      rw [Nat.mod_add_mod]; congr 1; omega

/-- The edge handler in divide mode with factor `F` in 2..8 and counter
`k < F`: `DivideExecStrike` runs exactly when `k = 0`, then the counter moves to
`(k + 1) mod F`. -/
theorem divide_edge_eq (b : State) (c : Channel) (t : Nat) (F k : Nat)
    (hF : 2 ≤ F) (hF8 : F ≤ 8) (hf : b.factor c = (F : Int))
    (hk : b.divide_counter c = (k : Int)) (hkF : k < F) :
    FactorerHandleInputGateRisingEdge b c t =
      (let s1 := if k = 0 then DivideExecStrike b c t else b
       { s1 with divide_counter := upd s1.divide_counter c (((k + 1) % F : Nat) : Int) }) := by
  have hen : DivideIsEnabled b c = true := by
    simp only [DivideIsEnabled, hf, decide_eq_true_eq]; omega
  have hstep := divide_edge_step b c t F k hF hF8 hf hk hkF
  have hss : DivideShouldStrike b c = true ↔ k = 0 := by
    simp only [DivideShouldStrike, hk, decide_eq_true_eq]; omega
  have e : (if DivideShouldStrike b c = true then DivideExecStrike b c t else b) =
      (if k = 0 then DivideExecStrike b c t else b) := by
    by_cases h : k = 0
    · rw [if_pos h, if_pos (hss.mpr h)]
    · rw [if_neg h, if_neg (fun h' => h (hss.mp h'))]
  revert hstep
  unfold FactorerHandleInputGateRisingEdge
  rw [if_pos hen]
  dsimp only
  rw [e]
  generalize (if k = 0 then DivideExecStrike b c t else b) = s1
  intro hstep
  split_ifs at hstep ⊢ with hr
  · simp only [DivideReset] at hstep ⊢
    rw [← hstep.2]; simp
  · have h2 := hstep.2
    simp only [upd_same] at h2
    rw [h2]

/-- The output of one pass of a factorer channel in divide mode whose other
channel does not run the swing function, from a counter `k < F` and with the
outcome cleared unless `k = 0`: the edge handler leaves the strike outcome 2
when `k = 0` and no outcome otherwise, and after `FunctionExec` the gate output
is high exactly when `k = 0`, with the strike LED state. -/
theorem dividePass_output (b : State) (c : Channel) (p : Nat × Nat) (F k : Nat)
    (hF : 2 ≤ F) (hF8 : F ≤ 8) (hfun : b.channel_function_ c = CHANNEL_FUNCTION_FACTORER)
    (hf : b.factor c = (F : Int)) (hk : b.divide_counter c = (k : Int)) (hkF : k < F)
    (hother : b.channel_function_ (if c = 0 then 1 else 0) ≠ CHANNEL_FUNCTION_SWING)
    (hex : k ≠ 0 → b.exec_state c = 0) :
    (FactorerHandleInputGateRisingEdge b c p.1).exec_state c = (if k = 0 then 2 else 0) ∧
    ∃ q, dividePass b c p = some q ∧ q.gate_out c = decide (k = 0) ∧
      (k = 0 → q.led_state c = 2 ∧ q.led_gate_duration c = LED_FACTORED_GATE_DURATION) := by
  have hen : DivideIsEnabled b c = true := by
    simp only [DivideIsEnabled, hf, decide_eq_true_eq]; omega
  have hss : DivideShouldStrike b c = true ↔ k = 0 := by
    simp only [DivideShouldStrike, hk, decide_eq_true_eq]; omega
  have hx : (FactorerHandleInputGateRisingEdge b c p.1).exec_state c = (if k = 0 then 2 else 0) := by
    rw [(divide_edge_outcome b c p.1 hen).2 hother]
    by_cases h : k = 0
    · rw [if_pos (hss.mpr h), if_pos h]
    · rw [if_neg (fun h' => h (hss.mp h')), if_neg h]
      exact hex h
  obtain ⟨h1, -⟩ := dividePass_step b c p F k hF hF8 hfun hf hk hkF
  obtain ⟨-, -, -, -, -, -, o7, o8⟩ :=
    FunctionExecOutput_fields (FactorerHandleInputGateRisingEdge b c p.1) c
  refine ⟨hx, _, h1, ?_, ?_⟩
  · rw [o7, hx]
    by_cases h : k = 0 <;> simp [h]
  · intro h
    apply o8
    rw [hx, if_pos h]

/-- C1 as amended: a factorer channel in divide mode with factor `F` in 2..8
and a divide counter starting at 0, over any run of passes that each handle an
input rising edge with `FactorerHandleInputGateRisingEdge` and then run
`FunctionExec`.  The run up to edge number `n` (counting from 0) is defined;
before that edge the divider is enabled and its counter is `n mod F`; the
divider fires on the edge (`DivideShouldStrike` holds, and the handler is
`DivideExecStrike` followed by the counter update) if and only if
`n mod F = 0`, which is exactly when the counter is `≤ 0`.  When the other
channel does not run the swing function, the handler leaves the strike outcome
2 on a firing edge and no outcome on the other edges, `FunctionExec` of the
pass is defined and sets the gate output high exactly on a firing edge (with
the strike LED state and duration), and every `F` consecutive edges contain
exactly one pass that ends with the gate output high. -/
theorem divide_output_once_per_factor_edges (s : State) (c : Channel) (F : Nat)
    (hF : 2 ≤ F) (hF8 : F ≤ 8) (hfun : s.channel_function_ c = CHANNEL_FUNCTION_FACTORER)
    (hf : s.factor c = (F : Int)) (h0 : s.divide_counter c = 0)
    (ps : List (Nat × Nat)) (n : Nat) (hn : n < ps.length) :
    ∃ b, dividePasses s c (ps.take n) = some b ∧
      DivideIsEnabled b c = true ∧
      b.divide_counter c = ((n % F : Nat) : Int) ∧
      (DivideShouldStrike b c = true ↔ n % F = 0) ∧
      (DivideShouldStrike b c = true ↔ b.divide_counter c ≤ 0) ∧
      (FactorerHandleInputGateRisingEdge b c ps[n].1 =
        (let s1 := if n % F = 0 then DivideExecStrike b c ps[n].1 else b
         { s1 with divide_counter := upd s1.divide_counter c (((n + 1) % F : Nat) : Int) })) ∧
      (s.channel_function_ (if c = 0 then 1 else 0) ≠ CHANNEL_FUNCTION_SWING →
        (FactorerHandleInputGateRisingEdge b c ps[n].1).exec_state c
          = (if n % F = 0 then 2 else 0) ∧
        (∃ q, dividePass b c ps[n] = some q ∧ q.gate_out c = decide (n % F = 0) ∧
          (n % F = 0 → q.led_state c = 2 ∧ q.led_gate_duration c = LED_FACTORED_GATE_DURATION)) ∧
        (n + F ≤ ps.length →
          ((Finset.range F).filter (fun j =>
            (dividePasses s c (ps.take (n + j + 1))).map (fun q => q.gate_out c)
              = some true)).card = 1)) := by
  have key : ∀ m, m ≤ ps.length →
      ∃ b, dividePasses s c (ps.take m) = some b ∧ b.factor c = (F : Int) ∧
        b.channel_function_ = s.channel_function_ ∧
        b.divide_counter c = ((m % F : Nat) : Int) ∧ (m % F ≠ 0 → b.exec_state c = 0) := by
    intro m hm
    obtain ⟨b, hb, b1, b2, b3, b4⟩ := dividePasses_invariant c F hF hF8 (ps.take m) s 0 hfun hf
      (by simpa using h0) (by omega)
    rw [List.length_take, Nat.min_eq_left hm, Nat.zero_add] at b3
    refine ⟨b, hb, b1, b2, b3, fun hne => b4 (Or.inl ?_)⟩
    intro hnil
    have hlen : (ps.take m).length = 0 := by rw [hnil]; rfl
    rw [List.length_take, Nat.min_eq_left hm] at hlen
    rw [hlen] at hne
    exact hne (Nat.zero_mod F)
  have gate : s.channel_function_ (if c = 0 then 1 else 0) ≠ CHANNEL_FUNCTION_SWING →
      ∀ m, m < ps.length →
      (dividePasses s c (ps.take (m + 1))).map (fun q => q.gate_out c)
        = some (decide (m % F = 0)) := by
    intro hother m hm
    obtain ⟨b, hb, b1, b2, b3, b4⟩ := key m (le_of_lt hm)
    obtain ⟨-, q, hq, hg, -⟩ := dividePass_output b c ps[m] F (m % F) hF hF8
      (by rw [b2]; exact hfun) b1 b3 (Nat.mod_lt _ (by omega)) (by rw [b2]; exact hother) b4
    rw [dividePasses_take_succ s c ps m hm, hb]
    simp only [Option.some_bind, hq, Option.map_some', hg]
  obtain ⟨b, hb, b1, b2, b3, b4⟩ := key n (le_of_lt hn)
  have hss : DivideShouldStrike b c = true ↔ n % F = 0 := by
    simp only [DivideShouldStrike, b3, decide_eq_true_eq]; omega
  have heq := divide_edge_eq b c ps[n].1 F (n % F) hF hF8 b1 b3 (Nat.mod_lt _ (by omega))
  rw [Nat.mod_add_mod] at heq
  refine ⟨b, hb, ?_, b3, hss, ?_, heq, fun hother => ?_⟩
  · simp only [DivideIsEnabled, b1, decide_eq_true_eq]; omega
  · simp only [DivideShouldStrike, decide_eq_true_eq]
  · obtain ⟨hx, hq⟩ := dividePass_output b c ps[n] F (n % F) hF hF8
      (by rw [b2]; exact hfun) b1 b3 (Nat.mod_lt _ (by omega)) (by rw [b2]; exact hother) b4
    refine ⟨hx, hq, fun hw => ?_⟩
    have hcongr : ∀ j ∈ Finset.range F,
        ((dividePasses s c (ps.take (n + j + 1))).map (fun q => q.gate_out c) = some true
          ↔ (n + j) % F = 0) := by
      intro j hj
      rw [gate hother (n + j) (by have := Finset.mem_range.mp hj; omega)]
      simp
    rw [Finset.filter_congr hcongr]
    exact window_count F n hF hF8

/-- C1 counterexample: the power-on configuration (channel 0 swing, channel 1
factorer) with divide factor 2 and swing amount 60, passes with an input edge
on channel 1 at ticks 100, 200, 300, 400, 500.  Before edge 2 the counter is 0
and `DivideShouldStrike` holds, so the divider fires, yet the edge handler
leaves no outcome (the chained swing clears it) and the gate output stays low:
the gate outputs after the five passes are high, low, low, low, high, so the
two consecutive edges 2 and 3 produce no output at all. -/
theorem divide_output_suppressed_when_chained :
    chainedSixtyDivideExample.channel_function_ 1 = CHANNEL_FUNCTION_FACTORER ∧
    chainedSixtyDivideExample.factor 1 = 2 ∧
    chainedSixtyDivideExample.divide_counter 1 = 0 ∧
    (dividePasses chainedSixtyDivideExample 1 [(100, 100), (200, 200)]).map
      (fun b => (DivideShouldStrike b 1, b.divide_counter 1,
        (FactorerHandleInputGateRisingEdge b 1 300).exec_state 1)) = some (true, 0, 0) ∧
    (List.range 5).map (fun n =>
      (dividePasses chainedSixtyDivideExample 1
        ([(100, 100), (200, 200), (300, 300), (400, 400), (500, 500)].take (n + 1))).map
        (fun q => q.gate_out 1))
      = [some true, some false, some false, some false, some true] := by
  decide

/-- C1 witness: both channels factorer, factor 3 on channel 0, four passes with
edges at ticks 100, 200, 300, 400: edge 3 fires and ends with the gate output
high, and the edges 1, 2, 3 contain exactly one such pass. -/
theorem divide_output_once_per_factor_edges_witness :
    ∃ b, dividePasses divideExample 0
        ([(100, 101), (200, 201), (300, 301), (400, 401)].take 3) = some b ∧
      (DivideShouldStrike b 0 = true ↔ 3 % 3 = 0) ∧
      (FactorerHandleInputGateRisingEdge b 0 400).exec_state 0 = (if 3 % 3 = 0 then 2 else 0) ∧
      ∃ q, dividePass b 0 (400, 401) = some q ∧ q.gate_out 0 = decide (3 % 3 = 0) :=
  have h := divide_output_once_per_factor_edges divideExample 0 3 (by decide) (by decide) rfl rfl
    rfl [(100, 101), (200, 201), (300, 301), (400, 401)] 3 (by decide)
  h.imp (fun _ hb => ⟨hb.1, hb.2.2.2.1, (hb.2.2.2.2.2.2 (by decide)).1,
    (hb.2.2.2.2.2.2 (by decide)).2.1.imp (fun _ hq => ⟨hq.1, hq.2.1⟩)⟩)

/-! ## Multiplied outputs over passes -/

/-- The result of one poll of `MultiplyExec` at elapsed `n`, in multiply mode
with a populated INPUT tracker and a non-zero interval `I`: inside the window a
strike (`MultiplyExecStrike`) unless the channel is debouncing, outside the
window the debounce flag is cleared. -/
theorem multiply_poll_result (p : State) (c : Channel) (M n : Nat) (hM : 2 ≤ M) (hM8 : M ≤ 8)
    (hf : p.factor c = -(M : Int))
    (hpop : PulseTrackerIsPopulated p PULSE_TRACKER_INPUT_INDEX = true)
    (hI : 0 < PulseTrackerGetPeriod p PULSE_TRACKER_INPUT_INDEX / M) (hn : n < 65536) :
    MultiplyExec p c (p.pulse_tracker_buffer PULSE_TRACKER_INPUT_INDEX 1 + n) =
      some (if n % (PulseTrackerGetPeriod p PULSE_TRACKER_INPUT_INDEX / M) ≤ 12 then
          (if p.multiply_is_debouncing c = true then p
            else MultiplyExecStrike p c (p.pulse_tracker_buffer PULSE_TRACKER_INPUT_INDEX 1 + n))
        else { p with multiply_is_debouncing := upd p.multiply_is_debouncing c false }) := by
  have hint := MultiplyInterval_of_factor p c M hM hM8 hf
  have hel := elapsed_after p n hn
  have hen : MultiplyIsEnabled p c = true := by
    simp only [MultiplyIsEnabled, hf, decide_eq_true_eq]; omega
  have hpos : MultiplyIsPossible p c = true := hpop
  generalize PulseTrackerGetPeriod p PULSE_TRACKER_INPUT_INDEX / M = I at hint hI ⊢
  have hss : MultiplyShouldStrike p c n =
      if n % I ≤ 12 then
        (if p.multiply_is_debouncing c = true then some (false, p) else some (true, p))
      else some (false, { p with multiply_is_debouncing := upd p.multiply_is_debouncing c false }) := by
    unfold MultiplyShouldStrike
    rw [hint]
    dsimp only
    rw [if_neg (by omega)]
    split_ifs <;> simp_all
  unfold MultiplyExec
  rw [hen, hpos, hel, hss]
  by_cases hw : n % I ≤ 12
  · by_cases hd : p.multiply_is_debouncing c = true
    · simp only [hw, hd, if_true]
      rfl
    · simp only [hw, hd, if_true]
      rfl
  · simp only [hw, if_false]
    rfl

/-- One pass of `FunctionExec` at elapsed `n` on a factorer channel in
multiply mode whose other channel does not run the swing function: the poll
leaves the strike outcome 2 when it strikes (inside the window and not
debouncing) and the outcome it found otherwise; the pass keeps the factor, the
INPUT tracker and the channel functions, leaves the debounce flag set exactly
inside the window, clears the outcome and sets the gate output high exactly
when there was an outcome. -/
theorem multiplyPass_step (p : State) (c : Channel) (M n : Nat) (hM : 2 ≤ M) (hM8 : M ≤ 8)
    (hfun : p.channel_function_ c = CHANNEL_FUNCTION_FACTORER)
    (hother : p.channel_function_ (if c = 0 then 1 else 0) ≠ CHANNEL_FUNCTION_SWING)
    (hf : p.factor c = -(M : Int))
    (hpop : PulseTrackerIsPopulated p PULSE_TRACKER_INPUT_INDEX = true)
    (hI : 0 < PulseTrackerGetPeriod p PULSE_TRACKER_INPUT_INDEX / M) (hn : n < 65536) :
    (FunctionExecPoll p c (p.pulse_tracker_buffer PULSE_TRACKER_INPUT_INDEX 1 + n)).map
        (fun q => q.exec_state c) =
      some (if n % (PulseTrackerGetPeriod p PULSE_TRACKER_INPUT_INDEX / M) ≤ 12 ∧
          p.multiply_is_debouncing c = false then 2 else p.exec_state c) ∧
    ∃ q, FunctionExec p c (p.pulse_tracker_buffer PULSE_TRACKER_INPUT_INDEX 1 + n) = some q ∧
      q.factor = p.factor ∧
      q.pulse_tracker_buffer PULSE_TRACKER_INPUT_INDEX
        = p.pulse_tracker_buffer PULSE_TRACKER_INPUT_INDEX ∧
      q.channel_function_ = p.channel_function_ ∧
      q.multiply_is_debouncing c =
        decide (n % (PulseTrackerGetPeriod p PULSE_TRACKER_INPUT_INDEX / M) ≤ 12) ∧
      q.exec_state c = 0 ∧
      q.gate_out c = decide ((if n % (PulseTrackerGetPeriod p PULSE_TRACKER_INPUT_INDEX / M) ≤ 12 ∧
          p.multiply_is_debouncing c = false then 2 else p.exec_state c) > 0) := by
  have hres := multiply_poll_result p c M n hM hM8 hf hpop hI hn
  have hpoll : FunctionExecPoll p c (p.pulse_tracker_buffer PULSE_TRACKER_INPUT_INDEX 1 + n)
      = MultiplyExec p c (p.pulse_tracker_buffer PULSE_TRACKER_INPUT_INDEX 1 + n) := by
    unfold FunctionExecPoll; rw [hfun]
  rw [MultiplyExecStrike_unchained p c _ hother] at hres
  generalize PulseTrackerGetPeriod p PULSE_TRACKER_INPUT_INDEX / M = I at hres ⊢
  generalize p.pulse_tracker_buffer PULSE_TRACKER_INPUT_INDEX 1 + n = t at hres hpoll ⊢
  have hr : ∃ r, MultiplyExec p c t = some r ∧ r.factor = p.factor ∧
      r.pulse_tracker_buffer = p.pulse_tracker_buffer ∧
      r.channel_function_ = p.channel_function_ ∧
      r.multiply_is_debouncing c = decide (n % I ≤ 12) ∧
      r.exec_state c = (if n % I ≤ 12 ∧ p.multiply_is_debouncing c = false then 2
        else p.exec_state c) := by
    refine ⟨_, hres, ?_⟩
    by_cases hw : n % I ≤ 12
    · cases hd : p.multiply_is_debouncing c
      · simp [hw, hd]
      · simp [hw, hd]
    · simp [hw]
  obtain ⟨r, hr0, r1, r2, r3, r4, r5⟩ := hr
  obtain ⟨o1, -, o3, o4, o5, o6, o7, -⟩ := FunctionExecOutput_fields r c
  refine ⟨by rw [hpoll, hr0, Option.map_some', r5], FunctionExecOutput r c, ?_, by rw [o1, r1],
    by rw [o5, r2], by rw [o3, r3], by rw [o4, r4], o6, by rw [o7, r5]⟩
  unfold FunctionExec
  rw [hpoll, hr0]

/-- A run of passes of `FunctionExec` at the elapsed values 0, 1, ..., n-1 on
a factorer channel in multiply mode, with the other channel not running the
swing function, is defined; it keeps the factor, the INPUT tracker and the
channel functions; after the pass at `n - 1` the debounce flag says whether
`n - 1` was inside the window, and the outcome is cleared. -/
theorem multiplyPasses_invariant (s : State) (c : Channel) (M : Nat) (hM : 2 ≤ M) (hM8 : M ≤ 8)
    (hfun : s.channel_function_ c = CHANNEL_FUNCTION_FACTORER)
    (hother : s.channel_function_ (if c = 0 then 1 else 0) ≠ CHANNEL_FUNCTION_SWING)
    (hf : s.factor c = -(M : Int))
    (hpop : PulseTrackerIsPopulated s PULSE_TRACKER_INPUT_INDEX = true)
    (hI : 0 < PulseTrackerGetPeriod s PULSE_TRACKER_INPUT_INDEX / M) :
    ∀ n, n ≤ 65536 → ∃ p, multiplyPasses s c n = some p ∧
      p.factor = s.factor ∧
      p.pulse_tracker_buffer PULSE_TRACKER_INPUT_INDEX
        = s.pulse_tracker_buffer PULSE_TRACKER_INPUT_INDEX ∧
      p.channel_function_ = s.channel_function_ ∧
      p.multiply_is_debouncing c =
        (if n = 0 then s.multiply_is_debouncing c
          else decide ((n - 1) % (PulseTrackerGetPeriod s PULSE_TRACKER_INPUT_INDEX / M) ≤ 12)) ∧
      (n ≠ 0 → p.exec_state c = 0) := by
  intro n
  induction n with
  | zero =>
    intro _
    exact ⟨s, rfl, rfl, rfl, rfl, by simp, fun h => absurd rfl h⟩
  | succ n ih =>
    intro hn
    obtain ⟨p, hp, p1, p2, p3, _, _⟩ := ih (by omega)
    have hper : PulseTrackerGetPeriod p PULSE_TRACKER_INPUT_INDEX
        = PulseTrackerGetPeriod s PULSE_TRACKER_INPUT_INDEX := by
      unfold PulseTrackerGetPeriod; rw [p2]
    have hpop' : PulseTrackerIsPopulated p PULSE_TRACKER_INPUT_INDEX = true := by
      unfold PulseTrackerIsPopulated at hpop ⊢; rw [p2]; exact hpop
    obtain ⟨_, q, hq, q1, q2, q3, q4, q5, _⟩ := multiplyPass_step p c M n hM hM8
      (by rw [p3]; exact hfun) (by rw [p3]; exact hother) (by rw [p1]; exact hf)
      hpop' (by rw [hper]; exact hI) (by omega)
    refine ⟨q, ?_, by rw [q1, p1], by rw [q2, p2], by rw [q3, p3], ?_, fun _ => q5⟩
    · simp only [multiplyPasses, hp]
      rw [← p2]; exact hq
    · rw [q4, hper]
      simp

/-- The pass at elapsed `e`, after the passes at 0..e-1, on a factorer channel
in multiply mode with an interval of at least 14 ticks, not debouncing at the
start and with the other channel not running the swing function: the poll
leaves the strike outcome 2 when `e` is a multiple of the interval and no
outcome otherwise, and the pass ends with the gate output high exactly
then. -/
theorem multiplyOutcomeAt_eq (s : State) (c : Channel) (M e : Nat) (hM : 2 ≤ M) (hM8 : M ≤ 8)
    (hfun : s.channel_function_ c = CHANNEL_FUNCTION_FACTORER)
    (hother : s.channel_function_ (if c = 0 then 1 else 0) ≠ CHANNEL_FUNCTION_SWING)
    (hf : s.factor c = -(M : Int))
    (hpop : PulseTrackerIsPopulated s PULSE_TRACKER_INPUT_INDEX = true)
    (hI : 14 ≤ PulseTrackerGetPeriod s PULSE_TRACKER_INPUT_INDEX / M)
    (hdeb : s.multiply_is_debouncing c = false) (he : e < 65536) :
    multiplyOutcomeAt s c e =
      some (if e % (PulseTrackerGetPeriod s PULSE_TRACKER_INPUT_INDEX / M) = 0 then 2 else 0) ∧
    multiplyGateAt s c e =
      some (decide (e % (PulseTrackerGetPeriod s PULSE_TRACKER_INPUT_INDEX / M) = 0)) := by
  obtain ⟨p, hp, p1, p2, p3, p4, p5⟩ :=
    multiplyPasses_invariant s c M hM hM8 hfun hother hf hpop (by omega) e (by omega)
  have hper : PulseTrackerGetPeriod p PULSE_TRACKER_INPUT_INDEX
      = PulseTrackerGetPeriod s PULSE_TRACKER_INPUT_INDEX := by
    unfold PulseTrackerGetPeriod; rw [p2]
  have hpop' : PulseTrackerIsPopulated p PULSE_TRACKER_INPUT_INDEX = true := by
    unfold PulseTrackerIsPopulated at hpop ⊢; rw [p2]; exact hpop
  obtain ⟨hout, q, hq, _, _, _, _, _, hgate⟩ := multiplyPass_step p c M e hM hM8
    (by rw [p3]; exact hfun) (by rw [p3]; exact hother) (by rw [p1]; exact hf)
    hpop' (by rw [hper]; omega) he
  rw [hper, p2] at hout
  rw [p2] at hq
  rw [hper] at hgate
  have key := window_and_clear_iff e (PulseTrackerGetPeriod s PULSE_TRACKER_INPUT_INDEX / M) hI
  generalize PulseTrackerGetPeriod s PULSE_TRACKER_INPUT_INDEX / M = I at key hout hgate p4 ⊢
  have hval : (if e % I ≤ 12 ∧ p.multiply_is_debouncing c = false then 2 else p.exec_state c)
      = (if e % I = 0 then 2 else 0) := by
    by_cases h0 : e = 0
    · subst h0
      simp only [if_true] at p4
      rw [p4, hdeb]
      simp
    · simp only [h0, if_false] at p4
      have hx := p5 h0
      have key' : (e % I ≤ 12 ∧ ¬ (e - 1) % I ≤ 12) ↔ e % I = 0 := by
        rw [← key]; simp [h0]
      by_cases hz : e % I = 0
      · have h2 := key'.mpr hz
        rw [if_pos hz, if_pos ⟨h2.1, by rw [p4]; simp [h2.2]⟩]
      · rw [if_neg hz, hx]
        simp only [ite_eq_right_iff]
        rintro ⟨hw, hd⟩
        rw [p4] at hd
        exact absurd (key'.mp ⟨hw, by simpa using hd⟩) hz
  refine ⟨?_, ?_⟩
  · unfold multiplyOutcomeAt
    rw [hp]
    dsimp only
    rw [hout, hval]
  · unfold multiplyGateAt
    simp only [multiplyPasses, hp, hq, Option.map_some', hgate, hval]
    by_cases hz : e % I = 0 <;> simp [hz]

/-- C2 as amended: a factorer channel in multiply mode with factor `-M`, `M`
in 2..8, whose other channel does not run the swing function, the INPUT tracker
populated with period `P`, an interval `I = P / M` of at least 14 ticks and the
channel not debouncing at the start.  Polling the channel once at each elapsed
value 0, 1, ... (`FunctionExec`, whose poll is `MultiplyExec`), the pass at
every elapsed value `e < P` is defined; `MultiplyShouldStrike` answers yes,
the poll leaves the strike outcome 2 and the pass ends with the gate output
high exactly when `e` is a multiple of `I`, and otherwise the poll leaves no
outcome and the gate output is low; two passes that emit a strike are at least
`I` (more than the 12-tick window) apart; over the elapsed values
`0 .. M * I - 1`, which are all of `0 .. P - 1` when `M` divides `P`, the
passes that emit a strike are exactly the `M` values `0, I, 2I, ..., (M-1)I`. -/
theorem multiply_strikes_at_multiples (s : State) (c : Channel) (M P e : Nat)
    (hM : 2 ≤ M) (hM8 : M ≤ 8)
    (hfun : s.channel_function_ c = CHANNEL_FUNCTION_FACTORER)
    (hother : s.channel_function_ (if c = 0 then 1 else 0) ≠ CHANNEL_FUNCTION_SWING)
    (hf : s.factor c = -(M : Int))
    (hpop : PulseTrackerIsPopulated s PULSE_TRACKER_INPUT_INDEX = true)
    (hP : PulseTrackerGetPeriod s PULSE_TRACKER_INPUT_INDEX = P) (hI : 14 ≤ P / M)
    (hdeb : s.multiply_is_debouncing c = false) (he : e < P) :
    multiplyStrikesAt s c e = some (decide (e % (P / M) = 0)) ∧
    multiplyOutcomeAt s c e = some (if e % (P / M) = 0 then 2 else 0) ∧
    multiplyGateAt s c e = some (decide (e % (P / M) = 0)) ∧
    (∀ e', e < e' → e' < P → multiplyGateAt s c e = some true →
      multiplyGateAt s c e' = some true → e + 12 < e' ∧ e + P / M ≤ e') ∧
    (Finset.range (M * (P / M))).filter (fun x => multiplyGateAt s c x = some true)
      = (Finset.range M).image (fun k => k * (P / M)) ∧
    ((Finset.range (M * (P / M))).filter (fun x => multiplyGateAt s c x = some true)).card
      = M ∧
    M * (P / M) ≤ P ∧
    (P % M = 0 → M * (P / M) = P) := by
  have hP16 : P < 65536 := by rw [← hP]; exact sub16_lt _ _
  have hle : M * (P / M) ≤ P := Nat.mul_div_le P M
  have S : multiplyStrikesAt s c e = some (decide (e % (P / M) = 0)) := by
    have := multiplyStrikesAt_eq s c M e hM hM8 hf hpop (by rw [hP]; exact hI) hdeb (by omega)
    rw [hP] at this
    exact this
  have O : multiplyOutcomeAt s c e = some (if e % (P / M) = 0 then 2 else 0) := by
    have := (multiplyOutcomeAt_eq s c M e hM hM8 hfun hother hf hpop (by rw [hP]; exact hI) hdeb
      (by omega)).1
    rw [hP] at this
    exact this
  have A : ∀ x, x < P → multiplyGateAt s c x = some (decide (x % (P / M) = 0)) := by
    intro x hx
    have := (multiplyOutcomeAt_eq s c M x hM hM8 hfun hother hf hpop (by rw [hP]; exact hI) hdeb
      (by omega)).2
    rw [hP] at this
    exact this
  have hset : (Finset.range (M * (P / M))).filter (fun x => multiplyGateAt s c x = some true)
      = (Finset.range M).image (fun k => k * (P / M)) := by
    ext x
    simp only [Finset.mem_filter, Finset.mem_range, Finset.mem_image]
    constructor
    · rintro ⟨hx, hs⟩
      rw [A x (by omega)] at hs
      have hz : x % (P / M) = 0 := by simpa using hs
      refine ⟨x / (P / M), ?_, Nat.div_mul_cancel (Nat.dvd_of_mod_eq_zero hz)⟩
      exact Nat.div_lt_of_lt_mul (by rw [Nat.mul_comm]; exact hx)
    · rintro ⟨k, hk, rfl⟩
      have hlt : k * (P / M) < M * (P / M) := Nat.mul_lt_mul_of_pos_right hk (by omega)
      refine ⟨hlt, ?_⟩
      rw [A _ (by omega)]
      simp
  refine ⟨S, O, A e he, ?_, hset, ?_, hle, ?_⟩
  · intro e' hlt he' h1 h2
    rw [A e he] at h1
    rw [A e' he'] at h2
    have := multiples_apart e e' (P / M) (by simpa using h1) (by simpa using h2) hlt
    omega
  · rw [hset, Finset.card_image_of_injective, Finset.card_range]
    intro a b hab
    exact Nat.eq_of_mul_eq_mul_right (by omega : 0 < P / M) hab
  · intro hdiv
    exact Nat.mul_div_cancel' (Nat.dvd_of_mod_eq_zero hdiv)

/-- C2 witness: both channels factorer, factor -2 and period 100 (interval
50), the pass at elapsed 50 emits a strike. -/
theorem multiply_strikes_at_multiples_witness :
    multiplyOutcomeAt (multiplyPeriodExample 100) 0 50 = some (if 50 % (100 / 2) = 0 then 2 else 0) ∧
    multiplyGateAt (multiplyPeriodExample 100) 0 50 = some (decide (50 % (100 / 2) = 0)) ∧
    ((Finset.range (2 * (100 / 2))).filter
      (fun x => multiplyGateAt (multiplyPeriodExample 100) 0 x = some true)).card = 2 ∧
    (100 % 2 = 0 → 2 * (100 / 2) = 100) :=
  have h := multiply_strikes_at_multiples (multiplyPeriodExample 100) 0 2 100 50
    (by decide) (by decide) (by decide) (by decide) (by decide) (by decide) (by decide)
    (by decide) rfl (by decide)
  ⟨h.2.1, h.2.2.1, h.2.2.2.2.2.1, h.2.2.2.2.2.2.2⟩

/-! ## Swing phase invariant -/

/-- How the edge handler moves the swing phase of a channel `d`: it keeps it,
sets it to 0 or 1, or sets it to 2 from phase 1 with a swing amount above 50. -/
theorem SwingHandleInput_phase (s : State) (c : Channel) (t : Nat) (d : Channel) :
    (SwingHandleInput s c t).swing_counter d = s.swing_counter d ∨
    (SwingHandleInput s c t).swing_counter d = 0 ∨
    (SwingHandleInput s c t).swing_counter d = 1 ∨
    ((SwingHandleInput s c t).swing_counter d = 2 ∧ s.swing_counter d = 1 ∧
      s.swing d > SWING_FACTOR_MIN) := by
  by_cases hd : d = c
  · subst hd
    unfold SwingHandleInput SwingReset SwingExecStrike SwingExecThru
    dsimp only
    split_ifs with h0 h1 h2
    · right; right; left; simp
    · right; left; simp
    · right; right; right
      refine ⟨by simp, h1, ?_⟩
      simp only [SWING_FACTOR_MIN] at h2 ⊢
      omega
    · right; left; simp
  · left
    unfold SwingHandleInput SwingReset SwingExecStrike SwingExecThru
    dsimp only
    split_ifs <;> simp [upd_other _ c d _ hd]

theorem SwingReset_phase (s : State) (c d : Channel) :
    (SwingReset s c).swing_counter d = s.swing_counter d ∨
    (SwingReset s c).swing_counter d = 0 := by
  by_cases hd : d = c
  · subst hd; right; simp [SwingReset]
  · left; simp [SwingReset, upd_other _ c d _ hd]

theorem FunctionReset_phase (s : State) (c d : Channel) :
    (FunctionReset s c).swing_counter d = s.swing_counter d ∨
    (FunctionReset s c).swing_counter d = 0 := by
  unfold FunctionReset
  cases s.channel_function_ c
  · left; rfl
  · exact SwingReset_phase s c d
  · left; rfl

theorem ChannelFunctionToggle_phase (s : State) (c d : Channel) :
    (ChannelFunctionToggle s c).swing = s.swing ∧
    ((ChannelFunctionToggle s c).swing_counter d = s.swing_counter d ∨
      (ChannelFunctionToggle s c).swing_counter d = 0) := by
  unfold ChannelFunctionToggle
  dsimp only
  cases s.channel_function_ c
  · exact ⟨(FunctionReset_keeps _ c).2.2.2, FunctionReset_phase _ c d⟩
  · exact ⟨(FunctionReset_keeps _ c).2.2.2, FunctionReset_phase _ c d⟩
  · exact ⟨(FunctionReset_keeps _ c).2.2.2, FunctionReset_phase _ c d⟩

/-- One call of a `SwingOp` is defined when the swing amounts are at most 1000;
it keeps the swing amounts, and moves each swing phase only to 0, to 1, or
from 1 to 2 with a swing amount above 50. -/
theorem swingOpStep_phase (s : State) (op : SwingOp) (hsw : ∀ c, s.swing c ≤ 1000) :
    ∃ b, swingOpStep s op = some b ∧ b.swing = s.swing ∧
      ∀ d, b.swing_counter d = s.swing_counter d ∨ b.swing_counter d = 0 ∨
        b.swing_counter d = 1 ∨
        (b.swing_counter d = 2 ∧ s.swing_counter d = 1 ∧ s.swing d > SWING_FACTOR_MIN) := by
  cases op with
  | handleInput c t =>
    exact ⟨_, rfl, (SwingHandleInput_keeps s c t).2.2.2, fun d => SwingHandleInput_phase s c t d⟩
  | exec c t =>
    obtain ⟨p, hp, hcase⟩ := SwingExec_defined s c t (hsw c)
    refine ⟨p, hp, ?_, ?_⟩
    · rcases hcase with h | h
      · subst h; rfl
      · subst h; rfl
    · intro d
      rcases hcase with h | h
      · left; rw [h]
      · rw [h]
        rcases SwingReset_phase (SwingExecStrike s c t) c d with h' | h'
        · left; exact h'
        · right; left; exact h'
  | swingReset c =>
    refine ⟨_, rfl, rfl, fun d => ?_⟩
    rcases SwingReset_phase s c d with h' | h'
    · left; exact h'
    · right; left; exact h'
  | functionReset c =>
    refine ⟨_, rfl, (FunctionReset_keeps s c).2.2.2, fun d => ?_⟩
    rcases FunctionReset_phase s c d with h' | h'
    · left; exact h'
    · right; left; exact h'
  | toggle c =>
    refine ⟨_, rfl, (ChannelFunctionToggle_phase s c c).1, fun d => ?_⟩
    rcases (ChannelFunctionToggle_phase s c d).2 with h' | h'
    · left; exact h'
    · right; left; exact h'
  | chained c t =>
    refine ⟨_, rfl, ?_, fun d => ?_⟩
    · unfold FactorerExecChainedSwing
      rw [(SwingHandleInput_keeps _ c t).2.2.2]; rfl
    · exact SwingHandleInput_phase (PulseTrackerRecord s PULSE_TRACKER_CHAIN_INDEX t) c t d

/-- Every sequence of `SwingOp` calls is defined when the swing amounts are at
most 1000, and keeps the property that each swing phase is 0, 1 or 2, and is 2
only with a swing amount above 50. -/
theorem swingOps_phase (ops : List SwingOp) : ∀ (s : State),
    (∀ c, s.swing c ≤ 1000) →
    (∀ c, (s.swing_counter c = 0 ∨ s.swing_counter c = 1 ∨ s.swing_counter c = 2) ∧
      (s.swing_counter c = 2 → s.swing c > SWING_FACTOR_MIN)) →
    ∃ b, swingOps s ops = some b ∧ b.swing = s.swing ∧
      ∀ c, (b.swing_counter c = 0 ∨ b.swing_counter c = 1 ∨ b.swing_counter c = 2) ∧
        (b.swing_counter c = 2 → b.swing c > SWING_FACTOR_MIN) := by
  induction ops with
  | nil => intro s _ hinv; exact ⟨s, rfl, rfl, hinv⟩
  | cons op rest ih =>
    intro s hsw hinv
    obtain ⟨m, hm, hmsw, hmove⟩ := swingOpStep_phase s op hsw
    have hinv' : ∀ c, (m.swing_counter c = 0 ∨ m.swing_counter c = 1 ∨ m.swing_counter c = 2) ∧
        (m.swing_counter c = 2 → m.swing c > SWING_FACTOR_MIN) := by
      intro c
      rcases hmove c with h | h | h | ⟨h, -, h2⟩
      · rw [h, hmsw]; exact hinv c
      · exact ⟨Or.inl h, fun h' => by rw [h] at h'; exact absurd h' (by decide)⟩
      · exact ⟨Or.inr (Or.inl h), fun h' => by rw [h] at h'; exact absurd h' (by decide)⟩
      · exact ⟨Or.inr (Or.inr h), fun _ => by rw [hmsw]; exact h2⟩
    obtain ⟨b, hb, hbsw, hb'⟩ := ih m (by intro c; rw [hmsw]; exact hsw c) hinv'
    refine ⟨b, ?_, by rw [hbsw, hmsw], hb'⟩
    simp only [swingOps, hm]
    exact hb

/-- C21: starting with both swing phases at 0 (and swing amounts at most 1000,
so that every swing poll is defined), any sequence of `SwingHandleInput`,
`SwingExec`, `SwingReset`, `FunctionReset`, `ChannelFunctionToggle` and
chained-swing calls is defined and ends in a state where each channel's
`swing_counter` is 0, 1 or 2 and is 2 only with a swing amount above 50.  In
such a state an input edge handled in phase 2 resets the phase to 0 and
changes nothing else (`exec_state` included), and whichever call comes next
takes a channel into phase 2 only out of phase 1 with a swing amount above
50. -/
theorem swing_phase_invariant (s : State) (h0 : ∀ c, s.swing_counter c = 0)
    (hsw : ∀ c, s.swing c ≤ 1000) (ops : List SwingOp) :
    ∃ b, swingOps s ops = some b ∧
      (∀ c, (b.swing_counter c = 0 ∨ b.swing_counter c = 1 ∨ b.swing_counter c = 2) ∧
        (b.swing_counter c = 2 → b.swing c > SWING_FACTOR_MIN)) ∧
      (∀ c t, b.swing_counter c = 2 →
        SwingHandleInput b c t = { b with swing_counter := upd b.swing_counter c 0 } ∧
        (SwingHandleInput b c t).swing_counter c = 0 ∧
        (SwingHandleInput b c t).exec_state = b.exec_state) ∧
      (∀ op, ∃ b', swingOpStep b op = some b' ∧
        ∀ c, b'.swing_counter c = 2 → b.swing_counter c ≠ 2 →
          b.swing_counter c = 1 ∧ b.swing c > SWING_FACTOR_MIN) := by
  obtain ⟨b, hb, hbsw, hinv⟩ := swingOps_phase ops s hsw
    (fun c => ⟨Or.inl (h0 c), fun h => by rw [h0 c] at h; exact absurd h (by decide)⟩)
  refine ⟨b, hb, hinv, ?_, ?_⟩
  · intro c t h2
    have heq : SwingHandleInput b c t = { b with swing_counter := upd b.swing_counter c 0 } := by
      unfold SwingHandleInput SwingReset
      rw [if_neg (by rw [h2]; decide), if_neg (by rw [h2]; decide)]
    refine ⟨heq, ?_, ?_⟩
    · rw [heq]; simp
    · rw [heq]
  · intro op
    obtain ⟨b', hb', -, hmove⟩ := swingOpStep_phase b op (by intro c; rw [hbsw]; exact hsw c)
    refine ⟨b', hb', fun c h2 hne => ?_⟩
    rcases hmove c with h | h | h | ⟨-, h1, hgt⟩
    · rw [h] at h2; exact absurd h2 hne
    · rw [h] at h2; exact absurd h2 (by decide)
    · rw [h] at h2; exact absurd h2 (by decide)
    · exact ⟨h1, hgt⟩

/-- C21 witness: with swing amount 60 an edge and then a chained-swing call on
channel 0 leave its phase at 2. -/
theorem swing_phase_invariant_witness :
    (swingOps swingSixtyExample [SwingOp.handleInput 0 100, SwingOp.chained 0 200]).map
      (fun b => b.swing_counter 0) = some 2 ∧
    ∃ b, swingOps swingSixtyExample [SwingOp.handleInput 0 100, SwingOp.chained 0 200] = some b ∧
      ∀ c, (b.swing_counter c = 0 ∨ b.swing_counter c = 1 ∨ b.swing_counter c = 2) ∧
        (b.swing_counter c = 2 → b.swing c > SWING_FACTOR_MIN) :=
  have h := swing_phase_invariant swingSixtyExample (by decide) (by decide)
    [SwingOp.handleInput 0 100, SwingOp.chained 0 200]
  ⟨by decide, h.imp (fun _ hb => ⟨hb.1, hb.2.1⟩)⟩

/-! ## Multiplier debounce at short intervals -/

/-- The multiply interval depends on the factor and the INPUT tracker only. -/
theorem MultiplyInterval_congr (s s' : State) (c : Channel) (hf : s'.factor = s.factor)
    (hb : s'.pulse_tracker_buffer PULSE_TRACKER_INPUT_INDEX
      = s.pulse_tracker_buffer PULSE_TRACKER_INPUT_INDEX) :
    MultiplyInterval s' c = MultiplyInterval s c := by
  unfold MultiplyInterval PulseTrackerGetPeriod
  rw [hf, hb]

/-- With an interval of 1..12 ticks every elapsed value is in the window:
`MultiplyShouldStrike` answers with the negated debounce flag and leaves the
state alone. -/
theorem MultiplyShouldStrike_short (p : State) (c : Channel) (I : Nat)
    (hint : MultiplyInterval p c = some I) (h1 : 1 ≤ I) (h12 : I ≤ 12) (elapsed : Nat) :
    elapsed % I ≤ FUNCTION_TIMING_ERROR_CORRECTION_AMOUNT ∧
    MultiplyShouldStrike p c elapsed = some (!p.multiply_is_debouncing c, p) := by
  have hwin : elapsed % I ≤ FUNCTION_TIMING_ERROR_CORRECTION_AMOUNT := by
    have := Nat.mod_lt elapsed (show 0 < I by omega)
    simp only [FUNCTION_TIMING_ERROR_CORRECTION_AMOUNT]
    omega
  refine ⟨hwin, ?_⟩
  unfold MultiplyShouldStrike
  rw [hint]
  dsimp only
  rw [if_neg (by omega), if_pos hwin]
  cases p.multiply_is_debouncing c <;> rfl

/-- With an interval of 1..12 ticks and the debounce flag set, a poll of
`MultiplyExec` at any tick reading changes nothing. -/
theorem MultiplyExec_short_debouncing (p : State) (c : Channel) (I : Nat)
    (hint : MultiplyInterval p c = some I) (h1 : 1 ≤ I) (h12 : I ≤ 12)
    (hdeb : p.multiply_is_debouncing c = true) (t : Nat) :
    MultiplyExec p c t = some p := by
  unfold MultiplyExec
  split_ifs
  · rw [(MultiplyShouldStrike_short p c I hint h1 h12 _).2, hdeb]
    rfl
  · rfl

theorem multiplyExecAt_short_debouncing (p : State) (c : Channel) (I : Nat)
    (hint : MultiplyInterval p c = some I) (h1 : 1 ≤ I) (h12 : I ≤ 12)
    (hdeb : p.multiply_is_debouncing c = true) (ticks : List Nat) :
    multiplyExecAt p c ticks = some p := by
  induction ticks with
  | nil => rfl
  | cons t rest ih =>
    simp only [multiplyExecAt, MultiplyExec_short_debouncing p c I hint h1 h12 hdeb t]
    exact ih

/-- C22: when the multiply interval of a channel is between 1 and 12 ticks,
`MultiplyShouldStrike` finds every elapsed value inside the window, answers
with the negated debounce flag and returns the state unchanged, so it never
clears `multiply_is_debouncing`.  Hence after a strike (`MultiplyExecStrike`,
which sets the flag and keeps the interval) every sequence of polls of
`MultiplyExec`, at any tick readings, is defined and leaves the state as the
strike left it, and `MultiplyShouldStrike` answers no at every elapsed value:
no further strike is produced. -/
theorem multiply_locks_up_at_short_interval (s : State) (c : Channel) (I : Nat)
    (hint : MultiplyInterval s c = some I) (h1 : 1 ≤ I) (h12 : I ≤ 12) :
    (∀ elapsed, elapsed % I ≤ FUNCTION_TIMING_ERROR_CORRECTION_AMOUNT ∧
      MultiplyShouldStrike s c elapsed = some (!s.multiply_is_debouncing c, s)) ∧
    (∀ t, (MultiplyExecStrike s c t).multiply_is_debouncing c = true ∧
      MultiplyInterval (MultiplyExecStrike s c t) c = some I ∧
      ∀ ticks, multiplyExecAt (MultiplyExecStrike s c t) c ticks = some (MultiplyExecStrike s c t) ∧
        ∀ elapsed, MultiplyShouldStrike (MultiplyExecStrike s c t) c elapsed
          = some (false, MultiplyExecStrike s c t)) := by
  refine ⟨fun e => MultiplyShouldStrike_short s c I hint h1 h12 e, fun t => ?_⟩
  obtain ⟨hf, hb, hdeb⟩ := MultiplyExecStrike_fields s c t
  have hint' : MultiplyInterval (MultiplyExecStrike s c t) c = some I := by
    rw [MultiplyInterval_congr s _ c hf hb]; exact hint
  refine ⟨hdeb, hint', fun ticks => ⟨multiplyExecAt_short_debouncing _ c I hint' h1 h12 hdeb ticks,
    fun e => ?_⟩⟩
  rw [(MultiplyShouldStrike_short _ c I hint' h1 h12 e).2, hdeb]
  rfl

/-- C22 witness: factor -2 and period 20 give the interval 10; after a strike
at tick 120 the polls at ticks 121, 130 and 140 change nothing. -/
theorem multiply_locks_up_at_short_interval_witness :
    MultiplyInterval (multiplyPeriodExample 20) 0 = some 10 ∧
    (multiplyExecAt (MultiplyExecStrike (multiplyPeriodExample 20) 0 120) 0 [121, 130, 140]
      = some (MultiplyExecStrike (multiplyPeriodExample 20) 0 120) ∧
      ∀ elapsed, MultiplyShouldStrike (MultiplyExecStrike (multiplyPeriodExample 20) 0 120) 0 elapsed
        = some (false, MultiplyExecStrike (multiplyPeriodExample 20) 0 120)) :=
  ⟨by decide,
    ((multiply_locks_up_at_short_interval (multiplyPeriodExample 20) 0 10 (by decide) (by decide)
      (by decide)).2 120).2.2 [121, 130, 140]⟩

/-! ## Chained swing with a stored swing amount above 50 -/

theorem FunctionExecOutput_chain (p : State) (c : Channel) :
    (FunctionExecOutput p c).swing_counter = p.swing_counter ∧
    (FunctionExecOutput p c).swing = p.swing ∧
    (FunctionExecOutput p c).channel_function_ = p.channel_function_ ∧
    (p.exec_state c = 0 → (FunctionExecOutput p c).gate_out c = false) := by
  unfold FunctionExecOutput LedExecThru LedExecStrike GateOutputOn GateOutputOff
  dsimp only
  split_ifs with h1 h2
  · exact ⟨rfl, rfl, rfl, fun h => by omega⟩
  · exact ⟨rfl, rfl, rfl, fun h => by omega⟩
  · exact ⟨rfl, rfl, rfl, fun _ => by simp⟩

/-- The chained swing on a channel whose swing amount is above 50, by the
swing phase `ph` it finds: the phase moves on by one modulo 3, and the outcome
`v` stored by the factorer is replaced by 1 in phase 0, by 0 in phase 1, and
kept in phase 2. -/
theorem FactorerExecChainedSwing_cycle (p : State) (c : Channel) (t : Nat)
    (hsw : p.swing c > SWING_FACTOR_MIN) :
    (FactorerExecChainedSwing p c t).swing = p.swing ∧
    (FactorerExecChainedSwing p c t).channel_function_ = p.channel_function_ ∧
    (FactorerExecChainedSwing p c t).swing_counter c
      = (if p.swing_counter c = 0 then 1 else if p.swing_counter c = 1 then 2 else 0) ∧
    (FactorerExecChainedSwing p c t).exec_state c
      = (if p.swing_counter c = 0 then 1 else if p.swing_counter c = 1 then 0
          else p.exec_state c) := by
  have hnle : ¬ p.swing c ≤ SWING_FACTOR_MIN := by
    simp only [SWING_FACTOR_MIN] at hsw ⊢; omega
  unfold FactorerExecChainedSwing SwingHandleInput PulseTrackerRecord SwingReset SwingExecStrike
    SwingExecThru
  dsimp only
  split_ifs <;> simp

/-- A factorer outcome with the other channel in swing mode and the own swing
amount above 50. -/
theorem factorerOutcome_cycle (p : State) (c : Channel) (k : FactorerOutcome) (t : Nat)
    (ho : p.channel_function_ (if c = 0 then 1 else 0) = CHANNEL_FUNCTION_SWING)
    (hsw : p.swing c > SWING_FACTOR_MIN) :
    (factorerOutcome p c k t).swing = p.swing ∧
    (factorerOutcome p c k t).channel_function_ = p.channel_function_ ∧
    (factorerOutcome p c k t).swing_counter c
      = (if p.swing_counter c = 0 then 1 else if p.swing_counter c = 1 then 2 else 0) ∧
    (factorerOutcome p c k t).exec_state c
      = (if p.swing_counter c = 0 then 1 else if p.swing_counter c = 1 then 0
          else ownOutcome k) := by
  cases k
  · simp only [factorerOutcome, MultiplyExecThru_chained p c t ho, ownOutcome]
    have h := FactorerExecChainedSwing_cycle
      { p with exec_state := upd p.exec_state c 1
               channel_last_action_at := upd p.channel_last_action_at c (u16 t) } c t hsw
    simpa using h
  · simp only [factorerOutcome, MultiplyExecStrike_chained p c t ho, ownOutcome]
    have h := FactorerExecChainedSwing_cycle
      { p with channel_last_action_at := upd p.channel_last_action_at c (u16 t)
               exec_state := upd p.exec_state c 2
               multiply_is_debouncing := upd p.multiply_is_debouncing c true } c t hsw
    simpa using h
  · simp only [factorerOutcome, DivideExecStrike_chained p c t ho, ownOutcome]
    have h := FactorerExecChainedSwing_cycle
      { p with channel_last_action_at := upd p.channel_last_action_at c (u16 t)
               exec_state := upd p.exec_state c 2 } c t hsw
    simpa using h

/-- With the other channel not in swing mode the outcome functions store
`ownOutcome` and leave the swing phase alone. -/
theorem factorerOutcome_unchained (p : State) (c : Channel) (k : FactorerOutcome) (t : Nat)
    (ho : p.channel_function_ (if c = 0 then 1 else 0) ≠ CHANNEL_FUNCTION_SWING) :
    (factorerOutcome p c k t).exec_state c = ownOutcome k ∧
    (factorerOutcome p c k t).swing_counter = p.swing_counter := by
  cases k
  · simp only [factorerOutcome, MultiplyExecThru_unchained p c t ho, ownOutcome]
    simp
  · simp only [factorerOutcome, MultiplyExecStrike_unchained p c t ho, ownOutcome]
    simp
  · simp only [factorerOutcome, DivideExecStrike_unchained p c t ho, ownOutcome]
    simp

/-- The swing phase of a factorer channel with chained swing and a swing
amount above 50 after a sequence of outcomes and output stages: it has advanced
by the number of outcomes, modulo 3. -/
theorem chainRun_phase (c : Channel) (evs : List ChainEvent) : ∀ (s : State) (m : Nat), m < 3 →
    s.channel_function_ (if c = 0 then 1 else 0) = CHANNEL_FUNCTION_SWING →
    s.swing c > SWING_FACTOR_MIN → s.swing_counter c = (m : Int) →
    (chainRun s c evs).channel_function_ = s.channel_function_ ∧
    (chainRun s c evs).swing = s.swing ∧
    (chainRun s c evs).swing_counter c = (((m + countOutcomes evs) % 3 : Nat) : Int) := by
  induction evs with
  | nil =>
    intro s m hm _ _ hc
    refine ⟨rfl, rfl, ?_⟩
    simp only [chainRun, countOutcomes, Nat.add_zero, Nat.mod_eq_of_lt hm]
    exact hc
  | cons ev rest ih =>
    intro s m hm ho hsw hc
    cases ev with
    | outcome k t =>
      obtain ⟨h1, h2, h3, -⟩ := factorerOutcome_cycle s c k t ho hsw
      have hc' : (factorerOutcome s c k t).swing_counter c = (((m + 1) % 3 : Nat) : Int) := by
        rw [h3, hc]
        interval_cases m <;> rfl
      obtain ⟨g1, g2, g3⟩ := ih (factorerOutcome s c k t) ((m + 1) % 3)
        (Nat.mod_lt _ (by decide)) (by rw [h2]; exact ho) (by rw [h1]; exact hsw) hc'
      refine ⟨by simp only [chainRun, chainStep]; rw [g1, h2],
        by simp only [chainRun, chainStep]; rw [g2, h1], ?_⟩
      simp only [chainRun, chainStep, countOutcomes]
      rw [g3]
      congr 1
      omega
    | output =>
      obtain ⟨h1, h2, h3, -⟩ := FunctionExecOutput_chain s c
      obtain ⟨g1, g2, g3⟩ := ih (FunctionExecOutput s c) m hm (by rw [h3]; exact ho)
        (by rw [h2]; exact hsw) (by rw [h1]; exact hc)
      refine ⟨by simp only [chainRun, chainStep]; rw [g1, h3],
        by simp only [chainRun, chainStep]; rw [g2, h2], ?_⟩
      simp only [chainRun, chainStep, countOutcomes]
      exact g3

/-- A poll of `MultiplyExec` either leaves the outcome and the swing phases
alone or is a multiply strike. -/
theorem MultiplyExec_cases (b : State) (c : Channel) (t : Nat) (p : State)
    (hp : MultiplyExec b c t = some p) :
    (p.exec_state = b.exec_state ∧ p.swing_counter = b.swing_counter) ∨
    p = MultiplyExecStrike b c t := by
  unfold MultiplyExec at hp
  split_ifs at hp
  · unfold MultiplyShouldStrike at hp
    cases hI : MultiplyInterval b c with
    | none => rw [hI] at hp; simp at hp
    | some I =>
      rw [hI] at hp
      dsimp only at hp
      split_ifs at hp with h0 hw hd
      · simp only [Option.some.injEq] at hp
        right; exact hp.symm
      · simp only [Option.some.injEq] at hp
        left; rw [← hp]; exact ⟨rfl, rfl⟩
      · simp only [Option.some.injEq] at hp
        left; rw [← hp]; exact ⟨rfl, rfl⟩
  · simp only [Option.some.injEq] at hp
    left; rw [← hp]; exact ⟨rfl, rfl⟩

/-- C23: a factorer channel whose other channel is in swing mode and whose own
swing amount slot holds a value above 50, starting at swing phase 0.  After any
sequence of factorer outcomes (`MultiplyExecThru`, `MultiplyExecStrike`,
`DivideExecStrike`) and output stages of `FunctionExec`, with no reset, the
swing phase is the number of outcomes so far modulo 3, and the next outcome
leaves in `exec_state`: 1 (thru) whatever the factorer stored when that number
is 0 modulo 3; 0 (none) when it is 1 modulo 3, so that the output stage leaves
the gate output off; the factorer's own value (1 for a thru, 2 for a strike)
when it is 2 modulo 3.  The poll of `FunctionExec` on the channel is
`MultiplyExec`, not `SwingExec`, and such a poll either leaves the outcome and
the swing phases alone or is itself a multiply strike, so that no delayed swing
strike is emitted. -/
theorem chained_swing_cycle_of_three (s : State) (c : Channel)
    (hf : s.channel_function_ c = CHANNEL_FUNCTION_FACTORER)
    (ho : s.channel_function_ (if c = 0 then 1 else 0) = CHANNEL_FUNCTION_SWING)
    (hsw : s.swing c > SWING_FACTOR_MIN) (h0 : s.swing_counter c = 0)
    (evs : List ChainEvent) (k : FactorerOutcome) (t : Nat) :
    (chainRun s c evs).swing_counter c = ((countOutcomes evs % 3 : Nat) : Int) ∧
    (factorerOutcome (chainRun s c evs) c k t).exec_state c
      = (if countOutcomes evs % 3 = 0 then 1 else if countOutcomes evs % 3 = 1 then 0
          else ownOutcome k) ∧
    (countOutcomes evs % 3 = 1 →
      (FunctionExecOutput (factorerOutcome (chainRun s c evs) c k t) c).gate_out c = false) ∧
    (∀ t', FunctionExecPoll (chainRun s c evs) c t' = MultiplyExec (chainRun s c evs) c t' ∧
      ∀ p, FunctionExecPoll (chainRun s c evs) c t' = some p →
        (p.exec_state = (chainRun s c evs).exec_state ∧
          p.swing_counter = (chainRun s c evs).swing_counter) ∨
        p = MultiplyExecStrike (chainRun s c evs) c t') := by
  obtain ⟨g1, g2, g3⟩ := chainRun_phase c evs s 0 (by decide) ho hsw (by rw [h0]; rfl)
  rw [Nat.zero_add] at g3
  obtain ⟨-, -, -, h4⟩ := factorerOutcome_cycle (chainRun s c evs) c k t (by rw [g1]; exact ho)
    (by rw [g2]; exact hsw)
  have hex : (factorerOutcome (chainRun s c evs) c k t).exec_state c
      = (if countOutcomes evs % 3 = 0 then 1 else if countOutcomes evs % 3 = 1 then 0
          else ownOutcome k) := by
    rw [h4, g3]
    have hlt : countOutcomes evs % 3 < 3 := Nat.mod_lt _ (by decide)
    generalize countOutcomes evs % 3 = r at hlt
    interval_cases r <;> rfl
  have hpoll : ∀ t', FunctionExecPoll (chainRun s c evs) c t'
      = MultiplyExec (chainRun s c evs) c t' := by
    intro t'
    unfold FunctionExecPoll
    rw [g1, hf]
  refine ⟨g3, hex, fun h1 => ?_, fun t' => ⟨hpoll t', fun p hp => ?_⟩⟩
  · apply (FunctionExecOutput_chain _ c).2.2.2
    rw [hex, h1]
    rfl
  · rw [hpoll t'] at hp
    exact MultiplyExec_cases _ c t' p hp

/-- C23 witness: channel 0 factorer, channel 1 swing, swing amount 60.  A
divided strike, an output stage and a multiply thru are two outcomes: the swing
phase is 2 and the divided strike that follows keeps its own outcome 2; after
one outcome the next one is cleared to 0. -/
theorem chained_swing_cycle_of_three_witness :
    (factorerOutcome chainedSixtyExample 0 FactorerOutcome.divideStrike 100).exec_state 0 = 1 ∧
    (factorerOutcome (chainRun chainedSixtyExample 0
      [ChainEvent.outcome FactorerOutcome.divideStrike 100, ChainEvent.output]) 0
      FactorerOutcome.multiplyThru 200).exec_state 0 = 0 ∧
    (chainRun chainedSixtyExample 0
      [ChainEvent.outcome FactorerOutcome.divideStrike 100, ChainEvent.output,
        ChainEvent.outcome FactorerOutcome.multiplyThru 200]).swing_counter 0 = 2 ∧
    (factorerOutcome (chainRun chainedSixtyExample 0
      [ChainEvent.outcome FactorerOutcome.divideStrike 100, ChainEvent.output,
        ChainEvent.outcome FactorerOutcome.multiplyThru 200]) 0
      FactorerOutcome.divideStrike 300).exec_state 0 = 2 :=
  have h := chained_swing_cycle_of_three chainedSixtyExample 0 (by decide) (by decide) (by decide)
    (by decide)
    [ChainEvent.outcome FactorerOutcome.divideStrike 100, ChainEvent.output,
      ChainEvent.outcome FactorerOutcome.multiplyThru 200] FactorerOutcome.divideStrike 300
  ⟨by decide, by decide, h.1, h.2.1⟩

end Twigs
